import Mathlib

/-!
# libuiohook: X11 input helper

A shallow embedding of `src/x11/input_helper.c`: the virtual-code / keysym table and its two
lookups, the modifier-mask tracker, the pointer-button remap and the UTF-8 to UTF-16 conversion
of `event_to_unicode`.  Machine integers are natural numbers with the truncation written out,
calls into Xlib are arguments of the function that makes them, and the three file-scope
variables of the helper are the fields of `HelperState`.
-/

namespace Uiohook

set_option maxRecDepth 100000

/-! ## Keysym values

The values of the keysym names used by the table, as `X11/keysymdef.h`, `X11/XF86keysym.h`,
`X11/Sunkeysym.h`, `X11/HPkeysym.h`, `X11/DECkeysym.h` and `X11/ap_keysym.h` define them
(`osfXK_Prior` and `osfXK_Next` have the fallback values that `input_helper.c` defines for them). -/

abbrev XK_Escape : Nat := 0xff1b
abbrev osfXK_Escape : Nat := 0x1004FF1B
abbrev XK_F1 : Nat := 0xffbe
abbrev XK_F2 : Nat := 0xffbf
abbrev XK_F3 : Nat := 0xffc0
abbrev XK_F4 : Nat := 0xffc1
abbrev XK_F5 : Nat := 0xffc2
abbrev XK_F6 : Nat := 0xffc3
abbrev XK_F7 : Nat := 0xffc4
abbrev XK_F8 : Nat := 0xffc5
abbrev XK_F9 : Nat := 0xffc6
abbrev XK_F10 : Nat := 0xffc7
abbrev XK_F11 : Nat := 0xffc8
abbrev SunXK_F36 : Nat := 0x1005FF10
abbrev XK_F12 : Nat := 0xffc9
abbrev SunXK_F37 : Nat := 0x1005FF11
abbrev XK_F13 : Nat := 0xffca
abbrev XK_F14 : Nat := 0xffcb
abbrev XK_F15 : Nat := 0xffcc
abbrev XK_F16 : Nat := 0xffcd
abbrev XK_F17 : Nat := 0xffce
abbrev XK_F18 : Nat := 0xffcf
abbrev XK_F19 : Nat := 0xffd0
abbrev XK_F20 : Nat := 0xffd1
abbrev XK_F21 : Nat := 0xffd2
abbrev XK_F22 : Nat := 0xffd3
abbrev XK_F23 : Nat := 0xffd4
abbrev XK_F24 : Nat := 0xffd5
abbrev XK_grave : Nat := 0x0060
abbrev XK_0 : Nat := 0x0030
abbrev XK_1 : Nat := 0x0031
abbrev XK_2 : Nat := 0x0032
abbrev XK_3 : Nat := 0x0033
abbrev XK_4 : Nat := 0x0034
abbrev XK_5 : Nat := 0x0035
abbrev XK_6 : Nat := 0x0036
abbrev XK_7 : Nat := 0x0037
abbrev XK_8 : Nat := 0x0038
abbrev XK_9 : Nat := 0x0039
abbrev XK_minus : Nat := 0x002d
abbrev XK_plus : Nat := 0x002b
abbrev XK_equal : Nat := 0x003d
abbrev XK_asterisk : Nat := 0x002a
abbrev XK_at : Nat := 0x0040
abbrev XK_ampersand : Nat := 0x0026
abbrev XK_dollar : Nat := 0x0024
abbrev XK_exclam : Nat := 0x0021
abbrev XK_exclamdown : Nat := 0x00a1
abbrev XK_BackSpace : Nat := 0xff08
abbrev osfXK_BackSpace : Nat := 0x1004FF08
abbrev XK_Tab : Nat := 0xff09
abbrev XK_ISO_Left_Tab : Nat := 0xfe20
abbrev XK_Caps_Lock : Nat := 0xffe5
abbrev XK_Shift_Lock : Nat := 0xffe6
abbrev XK_a : Nat := 0x0061
abbrev XK_b : Nat := 0x0062
abbrev XK_c : Nat := 0x0063
abbrev XK_d : Nat := 0x0064
abbrev XK_e : Nat := 0x0065
abbrev XK_f : Nat := 0x0066
abbrev XK_g : Nat := 0x0067
abbrev XK_h : Nat := 0x0068
abbrev XK_i : Nat := 0x0069
abbrev XK_j : Nat := 0x006a
abbrev XK_k : Nat := 0x006b
abbrev XK_l : Nat := 0x006c
abbrev XK_m : Nat := 0x006d
abbrev XK_n : Nat := 0x006e
abbrev XK_o : Nat := 0x006f
abbrev XK_p : Nat := 0x0070
abbrev XK_q : Nat := 0x0071
abbrev XK_r : Nat := 0x0072
abbrev XK_s : Nat := 0x0073
abbrev XK_t : Nat := 0x0074
abbrev XK_u : Nat := 0x0075
abbrev XK_v : Nat := 0x0076
abbrev XK_w : Nat := 0x0077
abbrev XK_x : Nat := 0x0078
abbrev XK_y : Nat := 0x0079
abbrev XK_z : Nat := 0x007a
abbrev XK_bracketleft : Nat := 0x005b
abbrev XK_bracketright : Nat := 0x005d
abbrev XK_backslash : Nat := 0x005c
abbrev XK_colon : Nat := 0x003a
abbrev XK_semicolon : Nat := 0x003b
abbrev XK_apostrophe : Nat := 0x0027
abbrev XK_quotedbl : Nat := 0x0022
abbrev XK_Return : Nat := 0xff0d
abbrev XK_Linefeed : Nat := 0xff0a
abbrev XK_less : Nat := 0x003c
abbrev XK_greater : Nat := 0x003e
abbrev XK_comma : Nat := 0x002c
abbrev XK_period : Nat := 0x002e
abbrev XK_slash : Nat := 0x002f
abbrev XK_numbersign : Nat := 0x0023
abbrev XK_braceleft : Nat := 0x007b
abbrev XK_braceright : Nat := 0x007d
abbrev XK_parenleft : Nat := 0x0028
abbrev XK_parenright : Nat := 0x0029
abbrev XK_space : Nat := 0x0020
abbrev XK_Print : Nat := 0xff61
abbrev SunXK_Print_Screen : Nat := 0x0000FF61
abbrev SunXK_Sys_Req : Nat := 0x1005FF60
abbrev XK_Scroll_Lock : Nat := 0xff14
abbrev XK_Pause : Nat := 0xff13
abbrev XK_Cancel : Nat := 0xff69
abbrev osfXK_Cancel : Nat := 0x1004FF69
abbrev XK_Insert : Nat := 0xff63
abbrev osfXK_Insert : Nat := 0x1004FF63
abbrev XK_Delete : Nat := 0xffff
abbrev osfXK_Delete : Nat := 0x1004FFFF
abbrev XK_Home : Nat := 0xff50
abbrev XK_End : Nat := 0xff57
abbrev osfXK_EndLine : Nat := 0x1004FF57
abbrev XK_Page_Up : Nat := 0xff55
abbrev XK_Prior : Nat := 0xff55
abbrev osfXK_PageUp : Nat := 0x1004FF41
abbrev osfXK_Prior : Nat := 0x1004FF55
abbrev XK_Page_Down : Nat := 0xff56
abbrev XK_Next : Nat := 0xff56
abbrev osfXK_PageDown : Nat := 0x1004FF42
abbrev osfXK_Next : Nat := 0x1004FF56
abbrev XK_Up : Nat := 0xff52
abbrev osfXK_Up : Nat := 0x1004FF52
abbrev XK_Left : Nat := 0xff51
abbrev osfXK_Left : Nat := 0x1004FF51
abbrev XK_Begin : Nat := 0xff58
abbrev XK_Right : Nat := 0xff53
abbrev osfXK_Right : Nat := 0x1004FF53
abbrev XK_Down : Nat := 0xff54
abbrev osfXK_Down : Nat := 0x1004FF54
abbrev XK_Num_Lock : Nat := 0xff7f
abbrev XK_Clear : Nat := 0xff0b
abbrev osfXK_Clear : Nat := 0x1004FF0B
abbrev XK_KP_Divide : Nat := 0xffaf
abbrev XK_KP_Multiply : Nat := 0xffaa
abbrev XK_KP_Subtract : Nat := 0xffad
abbrev XK_KP_Equal : Nat := 0xffbd
abbrev XK_KP_Add : Nat := 0xffab
abbrev XK_KP_Enter : Nat := 0xff8d
abbrev XK_KP_Decimal : Nat := 0xffae
abbrev XK_KP_Separator : Nat := 0xffac
abbrev XK_KP_0 : Nat := 0xffb0
abbrev XK_KP_1 : Nat := 0xffb1
abbrev XK_KP_2 : Nat := 0xffb2
abbrev XK_KP_3 : Nat := 0xffb3
abbrev XK_KP_4 : Nat := 0xffb4
abbrev XK_KP_5 : Nat := 0xffb5
abbrev XK_KP_6 : Nat := 0xffb6
abbrev XK_KP_7 : Nat := 0xffb7
abbrev XK_KP_8 : Nat := 0xffb8
abbrev XK_KP_9 : Nat := 0xffb9
abbrev XK_KP_End : Nat := 0xff9c
abbrev XK_KP_Down : Nat := 0xff99
abbrev XK_KP_Page_Down : Nat := 0xff9b
abbrev XK_KP_Next : Nat := 0xff9b
abbrev XK_KP_Left : Nat := 0xff96
abbrev XK_KP_Begin : Nat := 0xff9d
abbrev XK_KP_Right : Nat := 0xff98
abbrev XK_KP_Home : Nat := 0xff95
abbrev XK_KP_Up : Nat := 0xff97
abbrev XK_KP_Page_Up : Nat := 0xff9a
abbrev XK_KP_Prior : Nat := 0xff9a
abbrev XK_KP_Insert : Nat := 0xff9e
abbrev XK_KP_Delete : Nat := 0xff9f
abbrev XK_Shift_L : Nat := 0xffe1
abbrev XK_Shift_R : Nat := 0xffe2
abbrev XK_Control_L : Nat := 0xffe3
abbrev XK_Control_R : Nat := 0xffe4
abbrev XK_Alt_L : Nat := 0xffe9
abbrev XK_Alt_R : Nat := 0xffea
abbrev XK_ISO_Level3_Shift : Nat := 0xfe03
abbrev XK_Meta_L : Nat := 0xffe7
abbrev XK_Meta_R : Nat := 0xffe8
abbrev XK_Menu : Nat := 0xff67
abbrev XF86XK_PowerOff : Nat := 0x1008FF2A
abbrev XF86XK_Sleep : Nat := 0x1008FF2F
abbrev XF86XK_WakeUp : Nat := 0x1008FF2B
abbrev XF86XK_AudioPlay : Nat := 0x1008FF14
abbrev XF86XK_AudioStop : Nat := 0x1008FF15
abbrev XF86XK_AudioPrev : Nat := 0x1008FF16
abbrev XF86XK_AudioNext : Nat := 0x1008FF17
abbrev XF86XK_Select : Nat := 0x1008FFA0
abbrev XF86XK_Eject : Nat := 0x1008FF2C
abbrev XF86XK_AudioMute : Nat := 0x1008FF12
abbrev SunXK_AudioMute : Nat := 0x1005FF78
abbrev XF86XK_AudioLowerVolume : Nat := 0x1008FF11
abbrev SunXK_AudioLowerVolume : Nat := 0x1005FF77
abbrev XF86XK_AudioRaiseVolume : Nat := 0x1008FF13
abbrev SunXK_AudioRaiseVolume : Nat := 0x1005FF79
abbrev XF86XK_WWW : Nat := 0x1008FF2E
abbrev XF86XK_Calculator : Nat := 0x1008FF1D
abbrev XF86XK_Mail : Nat := 0x1008FF19
abbrev XF86XK_Music : Nat := 0x1008FF92
abbrev XF86XK_Pictures : Nat := 0x1008FF91
abbrev XF86XK_Search : Nat := 0x1008FF1B
abbrev XF86XK_HomePage : Nat := 0x1008FF18
abbrev XF86XK_Back : Nat := 0x1008FF26
abbrev XF86XK_Forward : Nat := 0x1008FF27
abbrev XF86XK_Stop : Nat := 0x1008FF28
abbrev XF86XK_Refresh : Nat := 0x1008FF29
abbrev XF86XK_Favorites : Nat := 0x1008FF30
abbrev XK_asciicircum : Nat := 0x005e
abbrev XK_dead_grave : Nat := 0xfe50
abbrev SunXK_FA_Grave : Nat := 0x1005FF00
abbrev DXK_grave_accent : Nat := 0x1000FE60
abbrev hpXK_mute_grave : Nat := 0x100000A9
abbrev XK_dead_acute : Nat := 0xfe51
abbrev SunXK_FA_Acute : Nat := 0x1005FF03
abbrev DXK_acute_accent : Nat := 0x1000FE27
abbrev hpXK_mute_acute : Nat := 0x100000A8
abbrev XK_dead_circumflex : Nat := 0xfe52
abbrev SunXK_FA_Circum : Nat := 0x1005FF01
abbrev DXK_circumflex_accent : Nat := 0x1000FE5E
abbrev hpXK_mute_asciicircum : Nat := 0x100000AA
abbrev XK_dead_tilde : Nat := 0xfe53
abbrev SunXK_FA_Tilde : Nat := 0x1005FF02
abbrev DXK_tilde : Nat := 0x1000FE7E
abbrev hpXK_mute_asciitilde : Nat := 0x100000AC
abbrev XK_dead_macron : Nat := 0xfe54
abbrev XK_dead_breve : Nat := 0xfe55
abbrev XK_dead_abovedot : Nat := 0xfe56
abbrev XK_dead_diaeresis : Nat := 0xfe57
abbrev SunXK_FA_Diaeresis : Nat := 0x1005FF04
abbrev DXK_diaeresis : Nat := 0x1000FE22
abbrev hpXK_mute_diaeresis : Nat := 0x100000AB
abbrev XK_dead_abovering : Nat := 0xfe58
abbrev DXK_ring_accent : Nat := 0x1000FEB0
abbrev XK_dead_doubleacute : Nat := 0xfe59
abbrev XK_dead_caron : Nat := 0xfe5a
abbrev XK_dead_cedilla : Nat := 0xfe5b
abbrev SunXK_FA_Cedilla : Nat := 0x1005FF05
abbrev DXK_cedilla_accent : Nat := 0x1000FE2C
abbrev XK_dead_ogonek : Nat := 0xfe5c
abbrev XK_dead_iota : Nat := 0xfe5d
abbrev XK_dead_voiced_sound : Nat := 0xfe5e
abbrev XK_dead_semivoiced_sound : Nat := 0xfe5f
abbrev XK_Katakana : Nat := 0xff26
abbrev XK_Kana_Shift : Nat := 0xff2e
abbrev XK_Kana_Lock : Nat := 0xff2d
abbrev XK_Kanji : Nat := 0xff21
abbrev XK_Hiragana : Nat := 0xff25
abbrev XK_Execute : Nat := 0xff62
abbrev XK_Multi_key : Nat := 0xff20
abbrev XK_Henkan_Mode : Nat := 0xff23
abbrev XK_Zen_Koho : Nat := 0xff3d
abbrev XK_Eisu_Shift : Nat := 0xff2f
abbrev XK_Eisu_toggle : Nat := 0xff30
abbrev XK_Kanji_Bangou : Nat := 0xff37
abbrev XK_Zenkaku : Nat := 0xff28
abbrev XK_Hankaku : Nat := 0xff29
abbrev XK_Muhenkan : Nat := 0xff22
abbrev XK_Mae_Koho : Nat := 0xff3e
abbrev XK_Romaji : Nat := 0xff24
abbrev XK_underscore : Nat := 0x005f
abbrev XK_Help : Nat := 0xff6a
abbrev osfXK_Help : Nat := 0x1004FF6A
abbrev XK_L1 : Nat := 0xffc8
abbrev SunXK_Props : Nat := 0x1005FF70
abbrev XK_L3 : Nat := 0xffca
abbrev SunXK_Front : Nat := 0x1005FF71
abbrev SunXK_Open : Nat := 0x1005FF73
abbrev XK_Find : Nat := 0xff68
abbrev XK_L9 : Nat := 0xffd0
abbrev XK_Redo : Nat := 0xff66
abbrev XK_L2 : Nat := 0xffc9
abbrev XK_Undo : Nat := 0xff65
abbrev XK_L4 : Nat := 0xffcb
abbrev osfXK_Undo : Nat := 0x1004FF65
abbrev XK_L6 : Nat := 0xffcd
abbrev apXK_Copy : Nat := 0x1000FF02
abbrev SunXK_Copy : Nat := 0x1005FF72
abbrev osfXK_Copy : Nat := 0x1004FF02
abbrev XK_L8 : Nat := 0xffcf
abbrev SunXK_Paste : Nat := 0x1005FF74
abbrev apXK_Paste : Nat := 0x1000FF04
abbrev osfXK_Paste : Nat := 0x1004FF04
abbrev XK_L10 : Nat := 0xffd1
abbrev SunXK_Cut : Nat := 0x1005FF75
abbrev apXK_Cut : Nat := 0x1000FF03
abbrev osfXK_Cut : Nat := 0x1004FF03
abbrev NoSymbol : Nat := 0x0

/-! ## Virtual codes -/

/-- The names of the virtual-code constants of `uiohook.h` that the table uses. -/
inductive VirtualCode where
  | VC_ESCAPE
  | VC_F1
  | VC_F2
  | VC_F3
  | VC_F4
  | VC_F5
  | VC_F6
  | VC_F7
  | VC_F8
  | VC_F9
  | VC_F10
  | VC_F11
  | VC_F12
  | VC_F13
  | VC_F14
  | VC_F15
  | VC_F16
  | VC_F17
  | VC_F18
  | VC_F19
  | VC_F20
  | VC_F21
  | VC_F22
  | VC_F23
  | VC_F24
  | VC_BACK_QUOTE
  | VC_0
  | VC_1
  | VC_2
  | VC_3
  | VC_4
  | VC_5
  | VC_6
  | VC_7
  | VC_8
  | VC_9
  | VC_MINUS
  | VC_PLUS
  | VC_EQUALS
  | VC_ASTERISK
  | VC_AT
  | VC_AMPERSAND
  | VC_DOLLAR
  | VC_EXCLAMATION_MARK
  | VC_EXCLAMATION_DOWN
  | VC_BACKSPACE
  | VC_TAB
  | VC_CAPS_LOCK
  | VC_A
  | VC_B
  | VC_C
  | VC_D
  | VC_E
  | VC_F
  | VC_G
  | VC_H
  | VC_I
  | VC_J
  | VC_K
  | VC_L
  | VC_M
  | VC_N
  | VC_O
  | VC_P
  | VC_Q
  | VC_R
  | VC_S
  | VC_T
  | VC_U
  | VC_V
  | VC_W
  | VC_X
  | VC_Y
  | VC_Z
  | VC_OPEN_BRACKET
  | VC_CLOSE_BRACKET
  | VC_BACK_SLASH
  | VC_COLON
  | VC_SEMICOLON
  | VC_QUOTE
  | VC_QUOTEDBL
  | VC_ENTER
  | VC_LESS
  | VC_GREATER
  | VC_COMMA
  | VC_PERIOD
  | VC_SLASH
  | VC_NUMBER_SIGN
  | VC_OPEN_BRACE
  | VC_CLOSE_BRACE
  | VC_OPEN_PARENTHESIS
  | VC_CLOSE_PARENTHESIS
  | VC_SPACE
  | VC_PRINT_SCREEN
  | VC_SCROLL_LOCK
  | VC_PAUSE
  | VC_CANCEL
  | VC_INSERT
  | VC_DELETE
  | VC_HOME
  | VC_END
  | VC_PAGE_UP
  | VC_PAGE_DOWN
  | VC_UP
  | VC_LEFT
  | VC_BEGIN
  | VC_RIGHT
  | VC_DOWN
  | VC_NUM_LOCK
  | VC_KP_CLEAR
  | VC_KP_DIVIDE
  | VC_KP_MULTIPLY
  | VC_KP_SUBTRACT
  | VC_KP_EQUALS
  | VC_KP_ADD
  | VC_KP_ENTER
  | VC_KP_DECIMAL
  | VC_KP_SEPARATOR
  | VC_KP_0
  | VC_KP_1
  | VC_KP_2
  | VC_KP_3
  | VC_KP_4
  | VC_KP_5
  | VC_KP_6
  | VC_KP_7
  | VC_KP_8
  | VC_KP_9
  | VC_KP_END
  | VC_KP_DOWN
  | VC_KP_PAGE_DOWN
  | VC_KP_LEFT
  | VC_KP_BEGIN
  | VC_KP_RIGHT
  | VC_KP_HOME
  | VC_KP_UP
  | VC_KP_PAGE_UP
  | VC_KP_INSERT
  | VC_KP_DELETE
  | VC_SHIFT_L
  | VC_SHIFT_R
  | VC_CONTROL_L
  | VC_CONTROL_R
  | VC_ALT_L
  | VC_ALT_R
  | VC_ALT_GRAPH
  | VC_META_L
  | VC_META_R
  | VC_CONTEXT_MENU
  | VC_POWER
  | VC_SLEEP
  | VC_WAKE
  | VC_MEDIA_PLAY
  | VC_MEDIA_STOP
  | VC_MEDIA_PREVIOUS
  | VC_MEDIA_NEXT
  | VC_MEDIA_SELECT
  | VC_MEDIA_EJECT
  | VC_VOLUME_MUTE
  | VC_VOLUME_DOWN
  | VC_VOLUME_UP
  | VC_APP_BROWSER
  | VC_APP_CALCULATOR
  | VC_APP_MAIL
  | VC_APP_MUSIC
  | VC_APP_PICTURES
  | VC_BROWSER_SEARCH
  | VC_BROWSER_HOME
  | VC_BROWSER_BACK
  | VC_BROWSER_FORWARD
  | VC_BROWSER_STOP
  | VC_BROWSER_REFRESH
  | VC_BROWSER_FAVORITES
  | VC_CIRCUMFLEX
  | VC_DEAD_GRAVE
  | VC_DEAD_ACUTE
  | VC_DEAD_CIRCUMFLEX
  | VC_DEAD_TILDE
  | VC_DEAD_MACRON
  | VC_DEAD_BREVE
  | VC_DEAD_ABOVEDOT
  | VC_DEAD_DIAERESIS
  | VC_DEAD_ABOVERING
  | VC_DEAD_DOUBLEACUTE
  | VC_DEAD_CARON
  | VC_DEAD_CEDILLA
  | VC_DEAD_OGONEK
  | VC_DEAD_IOTA
  | VC_DEAD_VOICED_SOUND
  | VC_DEAD_SEMIVOICED_SOUND
  | VC_KATAKANA
  | VC_KANA
  | VC_KANA_LOCK
  | VC_KANJI
  | VC_HIRAGANA
  | VC_ACCEPT
  | VC_CONVERT
  | VC_COMPOSE
  | VC_INPUT_METHOD_ON_OFF
  | VC_ALL_CANDIDATES
  | VC_ALPHANUMERIC
  | VC_CODE_INPUT
  | VC_FULL_WIDTH
  | VC_HALF_WIDTH
  | VC_NONCONVERT
  | VC_PREVIOUS_CANDIDATE
  | VC_ROMAN_CHARACTERS
  | VC_UNDERSCORE
  | VC_SUN_HELP
  | VC_SUN_STOP
  | VC_SUN_PROPS
  | VC_SUN_FRONT
  | VC_SUN_OPEN
  | VC_SUN_FIND
  | VC_SUN_AGAIN
  | VC_SUN_UNDO
  | VC_SUN_COPY
  | VC_SUN_PASTE
  | VC_SUN_CUT
  | VC_UNDEFINED
  deriving DecidableEq, Repr

open VirtualCode

/-- The table `uiocode_keysym_table` of `input_helper.c`, row by row: the virtual-code name and the
keysym of each of its 283 rows. -/
def uiocode_keysym_table : List (VirtualCode × Nat) := [
  /-   0 -/ (VC_ESCAPE, XK_Escape),
  /-   1 -/ (VC_ESCAPE, osfXK_Escape),
  /-   2 -/ (VC_F1, XK_F1),
  /-   3 -/ (VC_F2, XK_F2),
  /-   4 -/ (VC_F3, XK_F3),
  /-   5 -/ (VC_F4, XK_F4),
  /-   6 -/ (VC_F5, XK_F5),
  /-   7 -/ (VC_F6, XK_F6),
  /-   8 -/ (VC_F7, XK_F7),
  /-   9 -/ (VC_F8, XK_F8),
  /-  10 -/ (VC_F9, XK_F9),
  /-  11 -/ (VC_F10, XK_F10),
  /-  12 -/ (VC_F11, XK_F11),
  /-  13 -/ (VC_F11, SunXK_F36),
  /-  14 -/ (VC_F12, XK_F12),
  /-  15 -/ (VC_F12, SunXK_F37),
  /-  16 -/ (VC_F13, XK_F13),
  /-  17 -/ (VC_F14, XK_F14),
  /-  18 -/ (VC_F15, XK_F15),
  /-  19 -/ (VC_F16, XK_F16),
  /-  20 -/ (VC_F17, XK_F17),
  /-  21 -/ (VC_F18, XK_F18),
  /-  22 -/ (VC_F19, XK_F19),
  /-  23 -/ (VC_F20, XK_F20),
  /-  24 -/ (VC_F21, XK_F21),
  /-  25 -/ (VC_F22, XK_F22),
  /-  26 -/ (VC_F23, XK_F23),
  /-  27 -/ (VC_F24, XK_F24),
  /-  28 -/ (VC_BACK_QUOTE, XK_grave),
  /-  29 -/ (VC_0, XK_0),
  /-  30 -/ (VC_1, XK_1),
  /-  31 -/ (VC_2, XK_2),
  /-  32 -/ (VC_3, XK_3),
  /-  33 -/ (VC_4, XK_4),
  /-  34 -/ (VC_5, XK_5),
  /-  35 -/ (VC_6, XK_6),
  /-  36 -/ (VC_7, XK_7),
  /-  37 -/ (VC_8, XK_8),
  /-  38 -/ (VC_9, XK_9),
  /-  39 -/ (VC_MINUS, XK_minus),
  /-  40 -/ (VC_PLUS, XK_plus),
  /-  41 -/ (VC_EQUALS, XK_equal),
  /-  42 -/ (VC_ASTERISK, XK_asterisk),
  /-  43 -/ (VC_AT, XK_at),
  /-  44 -/ (VC_AMPERSAND, XK_ampersand),
  /-  45 -/ (VC_DOLLAR, XK_dollar),
  /-  46 -/ (VC_EXCLAMATION_MARK, XK_exclam),
  /-  47 -/ (VC_EXCLAMATION_DOWN, XK_exclamdown),
  /-  48 -/ (VC_BACKSPACE, XK_BackSpace),
  /-  49 -/ (VC_BACKSPACE, osfXK_BackSpace),
  /-  50 -/ (VC_TAB, XK_Tab),
  /-  51 -/ (VC_TAB, XK_ISO_Left_Tab),
  /-  52 -/ (VC_CAPS_LOCK, XK_Caps_Lock),
  /-  53 -/ (VC_CAPS_LOCK, XK_Shift_Lock),
  /-  54 -/ (VC_A, XK_a),
  /-  55 -/ (VC_B, XK_b),
  /-  56 -/ (VC_C, XK_c),
  /-  57 -/ (VC_D, XK_d),
  /-  58 -/ (VC_E, XK_e),
  /-  59 -/ (VC_F, XK_f),
  /-  60 -/ (VC_G, XK_g),
  /-  61 -/ (VC_H, XK_h),
  /-  62 -/ (VC_I, XK_i),
  /-  63 -/ (VC_J, XK_j),
  /-  64 -/ (VC_K, XK_k),
  /-  65 -/ (VC_L, XK_l),
  /-  66 -/ (VC_M, XK_m),
  /-  67 -/ (VC_N, XK_n),
  /-  68 -/ (VC_O, XK_o),
  /-  69 -/ (VC_P, XK_p),
  /-  70 -/ (VC_Q, XK_q),
  /-  71 -/ (VC_R, XK_r),
  /-  72 -/ (VC_S, XK_s),
  /-  73 -/ (VC_T, XK_t),
  /-  74 -/ (VC_U, XK_u),
  /-  75 -/ (VC_V, XK_v),
  /-  76 -/ (VC_W, XK_w),
  /-  77 -/ (VC_X, XK_x),
  /-  78 -/ (VC_Y, XK_y),
  /-  79 -/ (VC_Z, XK_z),
  /-  80 -/ (VC_OPEN_BRACKET, XK_bracketleft),
  /-  81 -/ (VC_CLOSE_BRACKET, XK_bracketright),
  /-  82 -/ (VC_BACK_SLASH, XK_backslash),
  /-  83 -/ (VC_COLON, XK_colon),
  /-  84 -/ (VC_SEMICOLON, XK_semicolon),
  /-  85 -/ (VC_QUOTE, XK_apostrophe),
  /-  86 -/ (VC_QUOTEDBL, XK_quotedbl),
  /-  87 -/ (VC_ENTER, XK_Return),
  /-  88 -/ (VC_ENTER, XK_Linefeed),
  /-  89 -/ (VC_LESS, XK_less),
  /-  90 -/ (VC_GREATER, XK_greater),
  /-  91 -/ (VC_COMMA, XK_comma),
  /-  92 -/ (VC_PERIOD, XK_period),
  /-  93 -/ (VC_SLASH, XK_slash),
  /-  94 -/ (VC_NUMBER_SIGN, XK_numbersign),
  /-  95 -/ (VC_OPEN_BRACE, XK_braceleft),
  /-  96 -/ (VC_CLOSE_BRACE, XK_braceright),
  /-  97 -/ (VC_OPEN_PARENTHESIS, XK_parenleft),
  /-  98 -/ (VC_CLOSE_PARENTHESIS, XK_parenright),
  /-  99 -/ (VC_SPACE, XK_space),
  /- 100 -/ (VC_PRINT_SCREEN, XK_Print),
  /- 101 -/ (VC_PRINT_SCREEN, SunXK_Print_Screen),
  /- 102 -/ (VC_PRINT_SCREEN, SunXK_Sys_Req),
  /- 103 -/ (VC_SCROLL_LOCK, XK_Scroll_Lock),
  /- 104 -/ (VC_PAUSE, XK_Pause),
  /- 105 -/ (VC_CANCEL, XK_Cancel),
  /- 106 -/ (VC_CANCEL, osfXK_Cancel),
  /- 107 -/ (VC_INSERT, XK_Insert),
  /- 108 -/ (VC_INSERT, osfXK_Insert),
  /- 109 -/ (VC_DELETE, XK_Delete),
  /- 110 -/ (VC_DELETE, osfXK_Delete),
  /- 111 -/ (VC_HOME, XK_Home),
  /- 112 -/ (VC_END, XK_End),
  /- 113 -/ (VC_END, osfXK_EndLine),
  /- 114 -/ (VC_PAGE_UP, XK_Page_Up),
  /- 115 -/ (VC_PAGE_UP, XK_Prior),
  /- 116 -/ (VC_PAGE_UP, osfXK_PageUp),
  /- 117 -/ (VC_PAGE_UP, osfXK_Prior),
  /- 118 -/ (VC_PAGE_DOWN, XK_Page_Down),
  /- 119 -/ (VC_PAGE_DOWN, XK_Next),
  /- 120 -/ (VC_PAGE_DOWN, osfXK_PageDown),
  /- 121 -/ (VC_PAGE_DOWN, osfXK_Next),
  /- 122 -/ (VC_UP, XK_Up),
  /- 123 -/ (VC_UP, osfXK_Up),
  /- 124 -/ (VC_LEFT, XK_Left),
  /- 125 -/ (VC_LEFT, osfXK_Left),
  /- 126 -/ (VC_BEGIN, XK_Begin),
  /- 127 -/ (VC_RIGHT, XK_Right),
  /- 128 -/ (VC_RIGHT, osfXK_Right),
  /- 129 -/ (VC_DOWN, XK_Down),
  /- 130 -/ (VC_DOWN, osfXK_Down),
  /- 131 -/ (VC_NUM_LOCK, XK_Num_Lock),
  /- 132 -/ (VC_KP_CLEAR, XK_Clear),
  /- 133 -/ (VC_KP_CLEAR, osfXK_Clear),
  /- 134 -/ (VC_KP_DIVIDE, XK_KP_Divide),
  /- 135 -/ (VC_KP_MULTIPLY, XK_KP_Multiply),
  /- 136 -/ (VC_KP_SUBTRACT, XK_KP_Subtract),
  /- 137 -/ (VC_KP_EQUALS, XK_KP_Equal),
  /- 138 -/ (VC_KP_ADD, XK_KP_Add),
  /- 139 -/ (VC_KP_ENTER, XK_KP_Enter),
  /- 140 -/ (VC_KP_DECIMAL, XK_KP_Decimal),
  /- 141 -/ (VC_KP_SEPARATOR, XK_KP_Separator),
  /- 142 -/ (VC_KP_0, XK_KP_0),
  /- 143 -/ (VC_KP_1, XK_KP_1),
  /- 144 -/ (VC_KP_2, XK_KP_2),
  /- 145 -/ (VC_KP_3, XK_KP_3),
  /- 146 -/ (VC_KP_4, XK_KP_4),
  /- 147 -/ (VC_KP_5, XK_KP_5),
  /- 148 -/ (VC_KP_6, XK_KP_6),
  /- 149 -/ (VC_KP_7, XK_KP_7),
  /- 150 -/ (VC_KP_8, XK_KP_8),
  /- 151 -/ (VC_KP_9, XK_KP_9),
  /- 152 -/ (VC_KP_END, XK_KP_End),
  /- 153 -/ (VC_KP_DOWN, XK_KP_Down),
  /- 154 -/ (VC_KP_PAGE_DOWN, XK_KP_Page_Down),
  /- 155 -/ (VC_KP_PAGE_DOWN, XK_KP_Next),
  /- 156 -/ (VC_KP_LEFT, XK_KP_Left),
  /- 157 -/ (VC_KP_BEGIN, XK_KP_Begin),
  /- 158 -/ (VC_KP_RIGHT, XK_KP_Right),
  /- 159 -/ (VC_KP_HOME, XK_KP_Home),
  /- 160 -/ (VC_KP_UP, XK_KP_Up),
  /- 161 -/ (VC_KP_PAGE_UP, XK_KP_Page_Up),
  /- 162 -/ (VC_KP_PAGE_UP, XK_KP_Prior),
  /- 163 -/ (VC_KP_INSERT, XK_KP_Insert),
  /- 164 -/ (VC_KP_DELETE, XK_KP_Delete),
  /- 165 -/ (VC_SHIFT_L, XK_Shift_L),
  /- 166 -/ (VC_SHIFT_R, XK_Shift_R),
  /- 167 -/ (VC_CONTROL_L, XK_Control_L),
  /- 168 -/ (VC_CONTROL_R, XK_Control_R),
  /- 169 -/ (VC_ALT_L, XK_Alt_L),
  /- 170 -/ (VC_ALT_R, XK_Alt_R),
  /- 171 -/ (VC_ALT_GRAPH, XK_ISO_Level3_Shift),
  /- 172 -/ (VC_META_L, XK_Meta_L),
  /- 173 -/ (VC_META_R, XK_Meta_R),
  /- 174 -/ (VC_CONTEXT_MENU, XK_Menu),
  /- 175 -/ (VC_POWER, XF86XK_PowerOff),
  /- 176 -/ (VC_SLEEP, XF86XK_Sleep),
  /- 177 -/ (VC_WAKE, XF86XK_WakeUp),
  /- 178 -/ (VC_MEDIA_PLAY, XF86XK_AudioPlay),
  /- 179 -/ (VC_MEDIA_STOP, XF86XK_AudioStop),
  /- 180 -/ (VC_MEDIA_PREVIOUS, XF86XK_AudioPrev),
  /- 181 -/ (VC_MEDIA_NEXT, XF86XK_AudioNext),
  /- 182 -/ (VC_MEDIA_SELECT, XF86XK_Select),
  /- 183 -/ (VC_MEDIA_EJECT, XF86XK_Eject),
  /- 184 -/ (VC_VOLUME_MUTE, XF86XK_AudioMute),
  /- 185 -/ (VC_VOLUME_MUTE, SunXK_AudioMute),
  /- 186 -/ (VC_VOLUME_DOWN, XF86XK_AudioLowerVolume),
  /- 187 -/ (VC_VOLUME_DOWN, SunXK_AudioLowerVolume),
  /- 188 -/ (VC_VOLUME_UP, XF86XK_AudioRaiseVolume),
  /- 189 -/ (VC_VOLUME_UP, SunXK_AudioRaiseVolume),
  /- 190 -/ (VC_APP_BROWSER, XF86XK_WWW),
  /- 191 -/ (VC_APP_CALCULATOR, XF86XK_Calculator),
  /- 192 -/ (VC_APP_MAIL, XF86XK_Mail),
  /- 193 -/ (VC_APP_MUSIC, XF86XK_Music),
  /- 194 -/ (VC_APP_PICTURES, XF86XK_Pictures),
  /- 195 -/ (VC_BROWSER_SEARCH, XF86XK_Search),
  /- 196 -/ (VC_BROWSER_HOME, XF86XK_HomePage),
  /- 197 -/ (VC_BROWSER_BACK, XF86XK_Back),
  /- 198 -/ (VC_BROWSER_FORWARD, XF86XK_Forward),
  /- 199 -/ (VC_BROWSER_STOP, XF86XK_Stop),
  /- 200 -/ (VC_BROWSER_REFRESH, XF86XK_Refresh),
  /- 201 -/ (VC_BROWSER_FAVORITES, XF86XK_Favorites),
  /- 202 -/ (VC_CIRCUMFLEX, XK_asciicircum),
  /- 203 -/ (VC_DEAD_GRAVE, XK_dead_grave),
  /- 204 -/ (VC_DEAD_GRAVE, SunXK_FA_Grave),
  /- 205 -/ (VC_DEAD_GRAVE, DXK_grave_accent),
  /- 206 -/ (VC_DEAD_GRAVE, hpXK_mute_grave),
  /- 207 -/ (VC_DEAD_ACUTE, XK_dead_acute),
  /- 208 -/ (VC_DEAD_ACUTE, SunXK_FA_Acute),
  /- 209 -/ (VC_DEAD_ACUTE, DXK_acute_accent),
  /- 210 -/ (VC_DEAD_ACUTE, hpXK_mute_acute),
  /- 211 -/ (VC_DEAD_CIRCUMFLEX, XK_dead_circumflex),
  /- 212 -/ (VC_DEAD_CIRCUMFLEX, SunXK_FA_Circum),
  /- 213 -/ (VC_DEAD_CIRCUMFLEX, DXK_circumflex_accent),
  /- 214 -/ (VC_DEAD_CIRCUMFLEX, hpXK_mute_asciicircum),
  /- 215 -/ (VC_DEAD_TILDE, XK_dead_tilde),
  /- 216 -/ (VC_DEAD_TILDE, SunXK_FA_Tilde),
  /- 217 -/ (VC_DEAD_TILDE, DXK_tilde),
  /- 218 -/ (VC_DEAD_TILDE, hpXK_mute_asciitilde),
  /- 219 -/ (VC_DEAD_MACRON, XK_dead_macron),
  /- 220 -/ (VC_DEAD_BREVE, XK_dead_breve),
  /- 221 -/ (VC_DEAD_ABOVEDOT, XK_dead_abovedot),
  /- 222 -/ (VC_DEAD_DIAERESIS, XK_dead_diaeresis),
  /- 223 -/ (VC_DEAD_DIAERESIS, SunXK_FA_Diaeresis),
  /- 224 -/ (VC_DEAD_DIAERESIS, DXK_diaeresis),
  /- 225 -/ (VC_DEAD_DIAERESIS, hpXK_mute_diaeresis),
  /- 226 -/ (VC_DEAD_ABOVERING, XK_dead_abovering),
  /- 227 -/ (VC_DEAD_ABOVERING, DXK_ring_accent),
  /- 228 -/ (VC_DEAD_DOUBLEACUTE, XK_dead_doubleacute),
  /- 229 -/ (VC_DEAD_CARON, XK_dead_caron),
  /- 230 -/ (VC_DEAD_CEDILLA, XK_dead_cedilla),
  /- 231 -/ (VC_DEAD_CEDILLA, SunXK_FA_Cedilla),
  /- 232 -/ (VC_DEAD_CEDILLA, DXK_cedilla_accent),
  /- 233 -/ (VC_DEAD_OGONEK, XK_dead_ogonek),
  /- 234 -/ (VC_DEAD_IOTA, XK_dead_iota),
  /- 235 -/ (VC_DEAD_VOICED_SOUND, XK_dead_voiced_sound),
  /- 236 -/ (VC_DEAD_SEMIVOICED_SOUND, XK_dead_semivoiced_sound),
  /- 237 -/ (VC_KATAKANA, XK_Katakana),
  /- 238 -/ (VC_KANA, XK_Kana_Shift),
  /- 239 -/ (VC_KANA_LOCK, XK_Kana_Lock),
  /- 240 -/ (VC_KANJI, XK_Kanji),
  /- 241 -/ (VC_HIRAGANA, XK_Hiragana),
  /- 242 -/ (VC_ACCEPT, XK_Execute),
  /- 243 -/ (VC_CONVERT, XK_Kanji),
  /- 244 -/ (VC_COMPOSE, XK_Multi_key),
  /- 245 -/ (VC_INPUT_METHOD_ON_OFF, XK_Henkan_Mode),
  /- 246 -/ (VC_ALL_CANDIDATES, XK_Zen_Koho),
  /- 247 -/ (VC_ALPHANUMERIC, XK_Eisu_Shift),
  /- 248 -/ (VC_ALPHANUMERIC, XK_Eisu_toggle),
  /- 249 -/ (VC_CODE_INPUT, XK_Kanji_Bangou),
  /- 250 -/ (VC_FULL_WIDTH, XK_Zenkaku),
  /- 251 -/ (VC_HALF_WIDTH, XK_Hankaku),
  /- 252 -/ (VC_NONCONVERT, XK_Muhenkan),
  /- 253 -/ (VC_PREVIOUS_CANDIDATE, XK_Mae_Koho),
  /- 254 -/ (VC_ROMAN_CHARACTERS, XK_Romaji),
  /- 255 -/ (VC_UNDERSCORE, XK_underscore),
  /- 256 -/ (VC_SUN_HELP, XK_Help),
  /- 257 -/ (VC_SUN_HELP, osfXK_Help),
  /- 258 -/ (VC_SUN_STOP, XK_L1),
  /- 259 -/ (VC_SUN_PROPS, SunXK_Props),
  /- 260 -/ (VC_SUN_PROPS, XK_L3),
  /- 261 -/ (VC_SUN_FRONT, SunXK_Front),
  /- 262 -/ (VC_SUN_OPEN, SunXK_Open),
  /- 263 -/ (VC_SUN_FIND, XK_Find),
  /- 264 -/ (VC_SUN_FIND, XK_L9),
  /- 265 -/ (VC_SUN_AGAIN, XK_Redo),
  /- 266 -/ (VC_SUN_AGAIN, XK_L2),
  /- 267 -/ (VC_SUN_UNDO, XK_Undo),
  /- 268 -/ (VC_SUN_UNDO, XK_L4),
  /- 269 -/ (VC_SUN_UNDO, osfXK_Undo),
  /- 270 -/ (VC_SUN_COPY, XK_L6),
  /- 271 -/ (VC_SUN_COPY, apXK_Copy),
  /- 272 -/ (VC_SUN_COPY, SunXK_Copy),
  /- 273 -/ (VC_SUN_COPY, osfXK_Copy),
  /- 274 -/ (VC_SUN_PASTE, XK_L8),
  /- 275 -/ (VC_SUN_PASTE, SunXK_Paste),
  /- 276 -/ (VC_SUN_PASTE, apXK_Paste),
  /- 277 -/ (VC_SUN_PASTE, osfXK_Paste),
  /- 278 -/ (VC_SUN_CUT, XK_L10),
  /- 279 -/ (VC_SUN_CUT, SunXK_Cut),
  /- 280 -/ (VC_SUN_CUT, apXK_Cut),
  /- 281 -/ (VC_SUN_CUT, osfXK_Cut),
  /- 282 -/ (VC_UNDEFINED, NoSymbol)
]

/-- The constants of `uiohook.h` that the helper reads.  The header is not among the sources, so it
is an argument of every function that uses one of its constants: `code` gives the value of each
virtual-code name and `MASK_NUM_LOCK` the NumLock bit of the modifier mask.  Virtual codes are
16-bit values (`code_lt`): the helper keeps them in `uint16_t` variables.  The other fields are
the remaining `MASK_*` constants of the modifier mask, the `MOUSE_BUTTON*` button numbers and the
two wheel directions. -/
structure Header where
  code : VirtualCode → Nat
  MASK_NUM_LOCK : Nat
  code_lt : ∀ v, code v < 65536
  MASK_SHIFT_L : Nat
  MASK_SHIFT_R : Nat
  MASK_CTRL_L : Nat
  MASK_CTRL_R : Nat
  MASK_ALT_L : Nat
  MASK_ALT_R : Nat
  MASK_META_L : Nat
  MASK_META_R : Nat
  MASK_BUTTON1 : Nat
  MASK_BUTTON2 : Nat
  MASK_BUTTON3 : Nat
  MASK_BUTTON4 : Nat
  MASK_BUTTON5 : Nat
  MASK_CAPS_LOCK : Nat
  MASK_SCROLL_LOCK : Nat
  MOUSE_BUTTON1 : Nat
  MOUSE_BUTTON2 : Nat
  MOUSE_BUTTON3 : Nat
  MOUSE_BUTTON4 : Nat
  MOUSE_BUTTON5 : Nat
  WHEEL_VERTICAL_DIRECTION : Nat
  WHEEL_HORIZONTAL_DIRECTION : Nat

/-- The file-scope variables of `input_helper.c`: `modifier_mask` (a `uint16_t`), `helper_disp`
(`none` is `NULL`) and `mouse_button_table` (`none` is `NULL`, otherwise the bytes of the buffer). -/
structure HelperState where
  modifier_mask : Nat
  helper_disp : Option Nat
  mouse_button_table : Option (List Nat)
  deriving DecidableEq, Repr

/-! ## Modifier mask -/

/-- The function `set_modifier_mask`: `modifier_mask |= mask` on `uint16_t`. -/
def set_modifier_mask (s : HelperState) (mask : Nat) : HelperState :=
  { s with modifier_mask := (s.modifier_mask ||| mask) % 65536 }

/-- The function `unset_modifier_mask`: `modifier_mask &= ~mask`, where `~mask` is the complement of
the promoted 32-bit `int` and the result is stored back into the `uint16_t`. -/
def unset_modifier_mask (s : HelperState) (mask : Nat) : HelperState :=
  { s with modifier_mask := (s.modifier_mask &&& (0xFFFFFFFF ^^^ mask)) % 65536 }

/-- The function `get_modifiers`: the current mask. -/
def get_modifiers (s : HelperState) : Nat :=
  s.modifier_mask

/-! ## Table lookups -/

/-- The `for` loop of `keysym_to_uiocode` over the remaining rows: the first row whose keysym equals
`keysym` assigns its code to the `uint16_t uiocode` and breaks; with no such row `uiocode` keeps
its value. -/
def keysym_to_uiocode_loop (H : Header) (keysym : Nat) : List (VirtualCode × Nat) → Nat → Nat
  | [], uiocode => uiocode
  | row :: rest, uiocode =>
    if keysym = row.2 then H.code row.1 % 65536
    else keysym_to_uiocode_loop H keysym rest uiocode

/-- The function `keysym_to_uiocode`: scan the table, then, with the NumLock bit of the mask clear,
the `switch` that ORs `0xEE00` into the keypad digit and separator codes. -/
def keysym_to_uiocode (H : Header) (s : HelperState) (keysym : Nat) : Nat :=
  let uiocode := keysym_to_uiocode_loop H keysym uiocode_keysym_table (H.code VC_UNDEFINED % 65536)
  if get_modifiers s &&& H.MASK_NUM_LOCK = 0 then
    if uiocode = H.code VC_KP_SEPARATOR ∨ uiocode = H.code VC_KP_1 ∨ uiocode = H.code VC_KP_2
        ∨ uiocode = H.code VC_KP_3 ∨ uiocode = H.code VC_KP_4 ∨ uiocode = H.code VC_KP_5
        ∨ uiocode = H.code VC_KP_6 ∨ uiocode = H.code VC_KP_7 ∨ uiocode = H.code VC_KP_8
        ∨ uiocode = H.code VC_KP_0 ∨ uiocode = H.code VC_KP_9 then
      (uiocode ||| 0xEE00) % 65536
    else uiocode
  else uiocode

/-- The locals of `uiocode_to_keycode` when it returns, with the keysyms it passed to
`XKeysymToKeycode` in call order. -/
structure KeycodeLookup where
  keycode : Nat
  keysym : Nat
  queries : List Nat
  deriving DecidableEq, Repr

/-- The `for` loop of `uiocode_to_keycode` over the remaining rows: the first row whose code equals
`uiocode` sets `keysym`, asks the X server for its keycode on `helper_disp` and breaks.
`XKeysymToKeycode` is the answer of the X server, which has return type `KeyCode`. -/
def uiocode_to_keycode_loop (H : Header) (XKeysymToKeycode : Option Nat → Nat → Nat)
    (s : HelperState) (uiocode : Nat) : List (VirtualCode × Nat) → KeycodeLookup → KeycodeLookup
  | [], acc => acc
  | row :: rest, acc =>
    if uiocode = H.code row.1 then
      { keycode := XKeysymToKeycode s.helper_disp row.2, keysym := row.2,
        queries := acc.queries ++ [row.2] }
    else uiocode_to_keycode_loop H XKeysymToKeycode s uiocode rest acc

/-- The body of `uiocode_to_keycode`: the locals start as `keycode = 0x0000`, `keysym = NoSymbol`. -/
def uiocode_to_keycode_run (H : Header) (XKeysymToKeycode : Option Nat → Nat → Nat)
    (s : HelperState) (uiocode : Nat) : KeycodeLookup :=
  uiocode_to_keycode_loop H XKeysymToKeycode s uiocode uiocode_keysym_table
    { keycode := 0x0000, keysym := NoSymbol, queries := [] }

/-- The function `uiocode_to_keycode`: the value it returns. -/
def uiocode_to_keycode (H : Header) (XKeysymToKeycode : Option Nat → Nat → Nat)
    (s : HelperState) (uiocode : Nat) : Nat :=
  (uiocode_to_keycode_run H XKeysymToKeycode s uiocode).keycode

/-! ## Pointer buttons -/

/-- The macro `BUTTON_TABLE_MAX` of `input_helper.c`. -/
abbrev BUTTON_TABLE_MAX : Nat := 256

/-- The button number `Button2` of `X11/X.h`. -/
abbrev Button2 : Nat := 2

/-- The button number `Button3` of `X11/X.h`. -/
abbrev Button3 : Nat := 3

/-- The function `button_map_lookup`, with the state it leaves.  `pointer_map` is the pointer
mapping of the X server: `XGetPointerMapping` returns its length and copies at most
`BUTTON_TABLE_MAX` of its entries to the start of `mouse_button_table`.  The argument and the
result are `uint8_t`. -/
def button_map_lookup (pointer_map : List Nat) (s : HelperState) (button : Nat) :
    Nat × HelperState :=
  let map_button := button % 256
  let remapped : Nat × HelperState :=
    match s.helper_disp with
    | some _ =>
      match s.mouse_button_table with
      | some table =>
        let map_size := pointer_map.length
        let table := pointer_map.take BUTTON_TABLE_MAX ++ table.drop (min map_size BUTTON_TABLE_MAX)
        if 0 < map_button ∧ map_button ≤ map_size then
          (table.getD (map_button - 1) 0, { s with mouse_button_table := some table })
        else (map_button, { s with mouse_button_table := some table })
      | none => (map_button, s)
    | none => (map_button, s)
  let map_button := remapped.1
  let map_button :=
    if map_button = Button2 then Button3
    else if map_button = Button3 then Button2
    else map_button
  (map_button % 256, remapped.2)

/-! ## Key event to UTF-16 -/

/-- The event type `KeyPress` of `X11/X.h`. -/
abbrev KeyPress : Nat := 2

/-- The event type `KeyRelease` of `X11/X.h`. -/
abbrev KeyRelease : Nat := 3

/-- The structure `XKeyEvent` of Xlib. -/
structure XKeyEvent where
  type : Nat
  serial : Nat
  send_event : Bool
  display : Option Nat
  window : Nat
  root : Nat
  subwindow : Nat
  time : Nat
  x : Int
  y : Int
  x_root : Int
  y_root : Int
  state : Nat
  keycode : Nat
  same_screen : Bool
  deriving DecidableEq, Repr

/-- What a lookup call of Xlib leaves in the locals of `event_to_unicode`: the byte count it
returns, the five bytes of `char buffer[5]` (as values `0 .. 255`) and the keysym it stores. -/
structure LookupReturn where
  count : Nat
  buffer : List Nat
  keysym : Nat
  buffer_length : buffer.length = 5

/-- The answers of Xlib to the calls `event_to_unicode` can make: `XOpenIM` after
`XSetLocaleModifiers("")`, `XOpenIM` after `XSetLocaleModifiers("@im=none")`, `XCreateIC` on an
input method, `Xutf8LookupString` on an input context and `XLookupString` (`none` is `NULL`). -/
structure XInputMethod where
  XOpenIM : Option Nat
  XOpenIM_im_none : Option Nat
  XCreateIC : Nat → Option Nat
  Xutf8LookupString : Nat → XKeyEvent → LookupReturn
  XLookupString : XKeyEvent → LookupReturn

/-- The local `xim` of `event_to_unicode` after its first block: opened for a `KeyPress` event only,
with the internal input method as fallback. -/
def event_to_unicode_xim (X : XInputMethod) (x_event : XKeyEvent) : Option Nat :=
  if x_event.type = KeyPress then
    match X.XOpenIM with
    | some xim => some xim
    | none => X.XOpenIM_im_none
  else none

/-- The local `xic` of `event_to_unicode` after its first block. -/
def event_to_unicode_xic (X : XInputMethod) (x_event : XKeyEvent) : Option Nat :=
  if x_event.type = KeyPress then
    match event_to_unicode_xim X x_event with
    | some xim => X.XCreateIC xim
    | none => none
  else none

/-- The lookup of `event_to_unicode`: `Xutf8LookupString` when there is an input context,
`XLookupString` otherwise. -/
def event_to_unicode_lookup (X : XInputMethod) (x_event : XKeyEvent) : LookupReturn :=
  match event_to_unicode_xic X x_event with
  | some xic => X.Xutf8LookupString xic x_event
  | none => X.XLookupString x_event

/-- The array `utf8_bitmask_table` of `event_to_unicode`. -/
def utf8_bitmask_table : List Nat := [0x3F, 0x7F, 0x1F, 0x0F, 0x07]

/-- The UTF-8 decoding step of `event_to_unicode`: `utf8_bitmask_table[count] & buffer[0]`, then for
`i` from `1` below `count` the update `(codepoint << 6) | (utf8_bitmask_table[0] & buffer[i])` on
`uint32_t`.  The result is `none` when an index leaves the table or the buffer. -/
def utf8_decode (count : Nat) (buffer : List Nat) : Option Nat := do
  let first_mask ← utf8_bitmask_table[count]?
  let first ← buffer[0]?
  (List.range' 1 (count - 1)).foldlM
    (fun codepoint i => do
      let mask ← utf8_bitmask_table[0]?
      let byte ← buffer[i]?
      pure (((codepoint <<< 6) % 4294967296) ||| (mask &&& byte)))
    (first_mask &&& first)

/-- What `event_to_unicode` hands back: the count it returns, the caller's `surrogate` buffer after
the call (`none` for `NULL`) and the keysym stored through `keysym`. -/
structure UnicodeReturn where
  count : Nat
  surrogate : Option (List Nat)
  keysym : Nat
  deriving DecidableEq, Repr

/-- The last block of `event_to_unicode`: the conversion of the looked-up bytes into UTF-16 units
in the caller's buffer of `length` units. -/
def event_to_unicode_convert (r : LookupReturn) (surrogate : Option (List Nat)) (length : Nat) :
    Option UnicodeReturn :=
  if 0 < r.count then
    match surrogate with
    | none => some { count := 0, surrogate := none, keysym := r.keysym }
    | some units =>
      if length = 0 then some { count := 0, surrogate := some units, keysym := r.keysym }
      else do
        let codepoint ← utf8_decode r.count r.buffer
        if codepoint ≤ 0xFFFF then
          pure { count := 1, surrogate := some (units.set 0 codepoint), keysym := r.keysym }
        else if 1 < length then
          let lead_offset := 0xD800 - (0x10000 >>> 10)
          pure { count := 2,
                 surrogate := some ((units.set 0 ((lead_offset + (codepoint >>> 10)) % 4294967296)).set
                   1 ((0xDC00 + (codepoint &&& 0x3FF)) % 4294967296)),
                 keysym := r.keysym }
        else pure { count := 0, surrogate := some units, keysym := r.keysym }
  else some { count := r.count, surrogate := surrogate, keysym := r.keysym }

/-- The function `event_to_unicode`.  The result is `none` when the decoding step reads outside
`utf8_bitmask_table` or `buffer`. -/
def event_to_unicode (X : XInputMethod) (x_event : XKeyEvent) (surrogate : Option (List Nat))
    (length : Nat) : Option UnicodeReturn :=
  event_to_unicode_convert (event_to_unicode_lookup X x_event) surrogate length

/-! ## Status codes -/

/-- Modelled from the spec: the status codes of `uiohook.h` that the sources return (the header is
not among the sources).  The spec has the status codes enumerate success, out-of-memory and the
platform failures, so each name is a value of its own. -/
inductive Status where
  | UIOHOOK_SUCCESS
  | UIOHOOK_FAILURE
  | UIOHOOK_ERROR_OUT_OF_MEMORY
  | UIOHOOK_ERROR_X_OPEN_DISPLAY
  | UIOHOOK_ERROR_X_RECORD_NOT_FOUND
  | UIOHOOK_ERROR_X_RECORD_ALLOC_RANGE
  | UIOHOOK_ERROR_X_RECORD_CREATE_CONTEXT
  | UIOHOOK_ERROR_X_RECORD_ENABLE_CONTEXT
  | UIOHOOK_ERROR_X_RECORD_GET_CONTEXT
  | UIOHOOK_ERROR_SET_WINDOWS_HOOK_EX
  | UIOHOOK_ERROR_GET_MODULE_HANDLE
  deriving DecidableEq, Repr

open Status

/-! ## Loading and unloading the X11 helper -/

/-- The keysym `XK_Super_L` of `X11/keysymdef.h`. -/
abbrev XK_Super_L : Nat := 0xffeb

/-- The keysym `XK_Super_R` of `X11/keysymdef.h`. -/
abbrev XK_Super_R : Nat := 0xffec

/-- The state bit `ShiftMask` of `X11/X.h`. -/
abbrev ShiftMask : Nat := 1 <<< 0

/-- The state bit `ControlMask` of `X11/X.h`. -/
abbrev ControlMask : Nat := 1 <<< 2

/-- The state bit `Mod1Mask` of `X11/X.h`. -/
abbrev Mod1Mask : Nat := 1 <<< 3

/-- The state bit `Mod4Mask` of `X11/X.h`. -/
abbrev Mod4Mask : Nat := 1 <<< 6

/-- The state bit `Button1Mask` of `X11/X.h`. -/
abbrev Button1Mask : Nat := 1 <<< 8

/-- The state bit `Button2Mask` of `X11/X.h`. -/
abbrev Button2Mask : Nat := 1 <<< 9

/-- The state bit `Button3Mask` of `X11/X.h`. -/
abbrev Button3Mask : Nat := 1 <<< 10

/-- The state bit `Button4Mask` of `X11/X.h`. -/
abbrev Button4Mask : Nat := 1 <<< 11

/-- The state bit `Button5Mask` of `X11/X.h`. -/
abbrev Button5Mask : Nat := 1 <<< 12

/-- The answers of the X server to the queries of `initialize_locks` and `initialize_modifiers`:
the LED mask of `XkbGetIndicatorState` (`none` when it does not return `Success`), the 32 bytes
that `XQueryKeymap` stores in `keymap`, the state mask of `XQueryPointer` (`none` when it returns
false) and the keycode that `XKeysymToKeycode` gives for a keysym on a display. -/
structure XKeyboard where
  XkbGetIndicatorState : Option Nat
  XQueryKeymap : List Nat
  XQueryPointer : Option Nat
  XKeysymToKeycode : Option Nat → Nat → Nat

/-- The statement `if (c) { set_modifier_mask(mask); }`. -/
def set_modifier_mask_if (c : Bool) (s : HelperState) (mask : Nat) : HelperState :=
  if c then set_modifier_mask s mask else s

/-- The test `keymap[keycode / 8] & (1 << (keycode % 8))` of `initialize_modifiers`. -/
def keymap_test (keymap : List Nat) (keycode : Nat) : Bool :=
  decide (keymap.getD (keycode / 8) 0 &&& (1 <<< (keycode % 8)) ≠ 0)

/-- Whether the live keyboard map reports the key of `keysym` as held down: the keycode of the
keysym looked up in the keymap, as `initialize_modifiers` does for each modifier key. -/
def key_held (X : XKeyboard) (s : HelperState) (keysym : Nat) : Bool :=
  keymap_test X.XQueryKeymap (X.XKeysymToKeycode s.helper_disp keysym)

/-- The function `initialize_locks`.  No function of `input_helper.c` calls it. -/
def initialize_locks (H : Header) (X : XKeyboard) (s : HelperState) : HelperState :=
  match X.XkbGetIndicatorState with
  | some led_mask =>
    let s :=
      if led_mask &&& 0x01 ≠ 0 then set_modifier_mask s H.MASK_CAPS_LOCK
      else unset_modifier_mask s H.MASK_CAPS_LOCK
    let s :=
      if led_mask &&& 0x02 ≠ 0 then set_modifier_mask s H.MASK_NUM_LOCK
      else unset_modifier_mask s H.MASK_NUM_LOCK
    if led_mask &&& 0x04 ≠ 0 then set_modifier_mask s H.MASK_SCROLL_LOCK
    else unset_modifier_mask s H.MASK_SCROLL_LOCK
  | none => s

/-- The function `initialize_modifiers`: the mask is zeroed, then the modifier keys are read from
the keymap, behind the modifier bits of the pointer state when `XQueryPointer` succeeds and
without them when it fails, and the held buttons are read from the pointer state. -/
def initialize_modifiers (H : Header) (X : XKeyboard) (s : HelperState) : HelperState :=
  let s := { s with modifier_mask := 0x0000 }
  match X.XQueryPointer with
  | some mask =>
    let s :=
      if mask &&& ShiftMask ≠ 0 then
        let s := set_modifier_mask_if (key_held X s XK_Shift_L) s H.MASK_SHIFT_L
        set_modifier_mask_if (key_held X s XK_Shift_R) s H.MASK_SHIFT_R
      else s
    let s :=
      if mask &&& ControlMask ≠ 0 then
        let s := set_modifier_mask_if (key_held X s XK_Control_L) s H.MASK_CTRL_L
        set_modifier_mask_if (key_held X s XK_Control_R) s H.MASK_CTRL_R
      else s
    let s :=
      if mask &&& Mod1Mask ≠ 0 then
        let s := set_modifier_mask_if (key_held X s XK_Alt_L) s H.MASK_ALT_L
        set_modifier_mask_if (key_held X s XK_Alt_R) s H.MASK_ALT_R
      else s
    let s :=
      if mask &&& Mod4Mask ≠ 0 then
        let s := set_modifier_mask_if (key_held X s XK_Super_L) s H.MASK_META_L
        set_modifier_mask_if (key_held X s XK_Super_R) s H.MASK_META_R
      else s
    let s := set_modifier_mask_if (decide (mask &&& Button1Mask ≠ 0)) s H.MASK_BUTTON1
    let s := set_modifier_mask_if (decide (mask &&& Button2Mask ≠ 0)) s H.MASK_BUTTON2
    let s := set_modifier_mask_if (decide (mask &&& Button3Mask ≠ 0)) s H.MASK_BUTTON3
    let s := set_modifier_mask_if (decide (mask &&& Button4Mask ≠ 0)) s H.MASK_BUTTON4
    set_modifier_mask_if (decide (mask &&& Button5Mask ≠ 0)) s H.MASK_BUTTON5
  | none =>
    let s := set_modifier_mask_if (key_held X s XK_Shift_L) s H.MASK_SHIFT_L
    let s := set_modifier_mask_if (key_held X s XK_Shift_R) s H.MASK_SHIFT_R
    let s := set_modifier_mask_if (key_held X s XK_Control_L) s H.MASK_CTRL_L
    let s := set_modifier_mask_if (key_held X s XK_Control_R) s H.MASK_CTRL_R
    let s := set_modifier_mask_if (key_held X s XK_Alt_L) s H.MASK_ALT_L
    let s := set_modifier_mask_if (key_held X s XK_Alt_R) s H.MASK_ALT_R
    let s := set_modifier_mask_if (key_held X s XK_Super_L) s H.MASK_META_L
    set_modifier_mask_if (key_held X s XK_Super_R) s H.MASK_META_R

/-- The function `load_input_helper` of the X11 helper.  `malloc` is what the allocation of the
button map returns: `none` for `NULL`, otherwise the (uninitialised) bytes of the new buffer. -/
def load_input_helper (H : Header) (X : XKeyboard) (malloc : Option (List Nat))
    (s : HelperState) : Status × HelperState :=
  let s := { s with mouse_button_table := malloc }
  match malloc with
  | none => (UIOHOOK_ERROR_OUT_OF_MEMORY, s)
  | some _ => (UIOHOOK_SUCCESS, initialize_modifiers H X s)

/-- The function `unload_input_helper` of the X11 helper: the state it leaves and the buffer it
passed to `free` (`none` when it freed nothing). -/
def unload_input_helper (s : HelperState) : HelperState × Option (List Nat) :=
  match s.mouse_button_table with
  | some table => ({ s with mouse_button_table := none }, some table)
  | none => (s, none)

/-! ## The X11 hook runtime (`src/x11/input_hook.c`) -/

/-- The function `enable_key_repeat` of `input_helper.c`: `XkbSetDetectableAutoRepeat` on
`helper_disp` stores its answer in `is_auto_repeat`, which is returned. -/
def enable_key_repeat (XkbSetDetectableAutoRepeat : Bool) : Bool :=
  XkbSetDetectableAutoRepeat

/-- The event type `MappingNotify` of `X11/X.h`. -/
abbrev MappingNotify : Nat := 34

namespace X11

/-- The structure `hook_info`: the data display and record range, the control display and record
context (`none` is `NULL`, context `0` is no context). -/
structure hook_info where
  data_display : Option Nat
  data_range : Option Nat
  ctrl_display : Option Nat
  ctrl_context : Nat
  deriving DecidableEq, Repr

/-- The calls that `hook_run` and `hook_stop` make to the C library, Xlib and the input helper,
with their pointer and handle arguments and what they returned. -/
inductive Call where
  | malloc_hook (result : Option hook_info)
  | free_hook
  | XOpenDisplay (result : Option Nat)
  | XCloseDisplay (display : Option Nat)
  | XkbSetDetectableAutoRepeat (display : Option Nat) (result : Bool)
  | XRecordQueryVersion (display : Option Nat) (result : Bool)
  | XSynchronize (display : Option Nat)
  | XRecordAllocRange (result : Option Nat)
  | XRecordCreateContext (display : Option Nat) (first last : Nat) (result : Nat)
  | load_input_helper (status : Status)
  | unload_input_helper (freed : Option (List Nat))
  | XRecordEnableContext (display : Option Nat) (context : Nat) (result : Bool)
  | XRecordFreeContext (display : Option Nat) (context : Nat)
  | XFree (range : Option Nat)
  | malloc_state (result : Bool)
  | XRecordGetContext (display : Option Nat) (context : Nat) (result : Option Bool)
  | XRecordDisableContext (display : Option Nat) (context : Nat) (result : Bool)
  | XSync (display : Option Nat)
  | free_state
  deriving DecidableEq, Repr

/-- The file-scope pointer `hook` of `input_hook.c` with the structure it points to (`none` is
`NULL`), and the variables of the input helper. -/
structure HookState where
  hook : Option hook_info
  helper : HelperState
  deriving DecidableEq, Repr

/-- What the C library and the X server answer during one `hook_run`: the allocation of the hook
structure (`none` for `NULL`, otherwise its uninitialised contents), the two `XOpenDisplay` calls
(control display first), `XkbSetDetectableAutoRepeat`, `XRecordQueryVersion`,
`XRecordAllocRange`, `XRecordCreateContext`, the allocation of the button map, the keyboard
queries of the helper and `XRecordEnableContext`.  While `XRecordEnableContext` blocks, the
dispatchers run: `events_mask` and `events_button_table` are the modifier mask and the contents
of the button map they leave behind. -/
structure Server where
  malloc_hook : Option hook_info
  XOpenDisplay_ctrl : Option Nat
  XOpenDisplay_data : Option Nat
  XkbSetDetectableAutoRepeat : Bool
  XRecordQueryVersion : Bool
  XRecordAllocRange : Option Nat
  XRecordCreateContext : Nat
  malloc_button_table : Option (List Nat)
  keyboard : XKeyboard
  XRecordEnableContext : Bool
  events_mask : Nat
  events_button_table : List Nat

/-- The function `xrecord_block`: load the helper, enable the record context (which blocks until
it is disabled) and unload the helper.  The result is the status, the helper variables and the
calls made. -/
def xrecord_block (H : Header) (X : Server) (hook : hook_info) (helper : HelperState) :
    Status × HelperState × List Call :=
  let loaded := load_input_helper H X.keyboard X.malloc_button_table helper
  let input_helper_status := loaded.1
  if input_helper_status ≠ UIOHOOK_SUCCESS then
    let unloaded := unload_input_helper loaded.2
    (input_helper_status, unloaded.1,
      [Call.load_input_helper input_helper_status, Call.unload_input_helper unloaded.2])
  else
    let during : HelperState :=
      { loaded.2 with
        modifier_mask := X.events_mask % 65536,
        mouse_button_table := loaded.2.mouse_button_table.map fun _ => X.events_button_table }
    let status :=
      if X.XRecordEnableContext then UIOHOOK_SUCCESS else UIOHOOK_ERROR_X_RECORD_ENABLE_CONTEXT
    let unloaded := unload_input_helper during
    (status, unloaded.1,
      [Call.load_input_helper input_helper_status,
       Call.XRecordEnableContext hook.data_display hook.ctrl_context X.XRecordEnableContext,
       Call.unload_input_helper unloaded.2])

/-- The function `xrecord_alloc`: allocate the record range, create the record context, block,
then free the context and the range.  The result is the status, the hook structure, the helper
variables and the calls made. -/
def xrecord_alloc (H : Header) (X : Server) (hook : hook_info) (helper : HelperState) :
    Status × hook_info × HelperState × List Call :=
  let hook := { hook with data_range := X.XRecordAllocRange }
  match hook.data_range with
  | some _ =>
    let hook := { hook with ctrl_context := X.XRecordCreateContext }
    let create :=
      Call.XRecordCreateContext hook.data_display KeyPress MappingNotify X.XRecordCreateContext
    if hook.ctrl_context ≠ 0 then
      let blocked := xrecord_block H X hook helper
      (blocked.1, hook, blocked.2.1,
        [Call.XSynchronize hook.data_display, Call.XRecordAllocRange X.XRecordAllocRange, create]
          ++ blocked.2.2
          ++ [Call.XRecordFreeContext hook.data_display hook.ctrl_context,
              Call.XFree hook.data_range])
    else
      (UIOHOOK_ERROR_X_RECORD_CREATE_CONTEXT, hook, helper,
        [Call.XSynchronize hook.data_display, Call.XRecordAllocRange X.XRecordAllocRange, create,
         Call.XFree hook.data_range])
  | none =>
    (UIOHOOK_ERROR_X_RECORD_ALLOC_RANGE, hook, helper,
      [Call.XSynchronize hook.data_display, Call.XRecordAllocRange X.XRecordAllocRange])

/-- The function `xrecord_query`: check the XRecord extension on the control display, then
`xrecord_alloc`. -/
def xrecord_query (H : Header) (X : Server) (hook : hook_info) (helper : HelperState) :
    Status × hook_info × HelperState × List Call :=
  if X.XRecordQueryVersion then
    let allocated := xrecord_alloc H X hook helper
    (allocated.1, allocated.2.1, allocated.2.2.1,
      Call.XRecordQueryVersion hook.ctrl_display true :: allocated.2.2.2)
  else
    (UIOHOOK_ERROR_X_RECORD_NOT_FOUND, hook, helper,
      [Call.XRecordQueryVersion hook.ctrl_display false])

/-- The function `xrecord_start`: open the control and the data display, run `xrecord_query` when
both are open, then close whichever display is open and clear its pointer. -/
def xrecord_start (H : Header) (X : Server) (hook : hook_info) (helper : HelperState) :
    Status × hook_info × HelperState × List Call :=
  let hook := { hook with ctrl_display := X.XOpenDisplay_ctrl }
  let hook := { hook with data_display := X.XOpenDisplay_data }
  let opens := [Call.XOpenDisplay X.XOpenDisplay_ctrl, Call.XOpenDisplay X.XOpenDisplay_data]
  let body : Status × hook_info × HelperState × List Call :=
    if hook.ctrl_display ≠ none ∧ hook.data_display ≠ none then
      let is_auto_repeat := enable_key_repeat X.XkbSetDetectableAutoRepeat
      let queried := xrecord_query H X hook helper
      (queried.1, queried.2.1, queried.2.2.1,
        Call.XkbSetDetectableAutoRepeat helper.helper_disp is_auto_repeat :: queried.2.2.2)
    else (UIOHOOK_ERROR_X_OPEN_DISPLAY, hook, helper, [])
  let status := body.1
  let hook := body.2.1
  let close_data : hook_info × List Call :=
    if hook.data_display ≠ none then
      ({ hook with data_display := none }, [Call.XCloseDisplay hook.data_display])
    else (hook, [])
  let hook := close_data.1
  let close_ctrl : hook_info × List Call :=
    if hook.ctrl_display ≠ none then
      ({ hook with ctrl_display := none }, [Call.XCloseDisplay hook.ctrl_display])
    else (hook, [])
  (status, close_ctrl.1, body.2.2.1, opens ++ body.2.2.2 ++ close_data.2 ++ close_ctrl.2)

/-- The function `hook_run` of the X11 runtime: allocate the hook structure into the file-scope
pointer `hook`, run `xrecord_start`, free the structure and clear the pointer.  The result is the
status returned, the state left and the calls made. -/
def hook_run (H : Header) (X : Server) (st : HookState) : Status × HookState × List Call :=
  let st := { st with hook := X.malloc_hook }
  match st.hook with
  | none => (UIOHOOK_ERROR_OUT_OF_MEMORY, st, [Call.malloc_hook X.malloc_hook])
  | some hook =>
    let started := xrecord_start H X hook st.helper
    (started.1, { hook := none, helper := started.2.2.1 },
      Call.malloc_hook X.malloc_hook :: started.2.2.2 ++ [Call.free_hook])

/-- What the C library and the X server answer during one `hook_stop`: the allocation of the
`XRecordState`, `XRecordGetContext` (`none` when it returns 0, otherwise the `enabled` field of
the state it stores) and `XRecordDisableContext`. -/
structure StopServer where
  malloc_state : Bool
  XRecordGetContext : Option Bool
  XRecordDisableContext : Bool

/-- The function `hook_stop` of the X11 runtime: the status returned and the calls made. -/
def hook_stop (X : StopServer) (st : HookState) : Status × List Call :=
  match st.hook with
  | none => (UIOHOOK_FAILURE, [])
  | some hook =>
    if hook.ctrl_display ≠ none ∧ hook.ctrl_context ≠ 0 then
      if X.malloc_state then
        match X.XRecordGetContext with
        | some enabled =>
          let get :=
            Call.XRecordGetContext hook.ctrl_display hook.ctrl_context X.XRecordGetContext
          if enabled then
            let disable :=
              Call.XRecordDisableContext hook.ctrl_display hook.ctrl_context
                X.XRecordDisableContext
            if X.XRecordDisableContext then
              (UIOHOOK_SUCCESS,
                [Call.malloc_state true, get, disable, Call.XSync hook.ctrl_display,
                 Call.free_state])
            else (UIOHOOK_FAILURE, [Call.malloc_state true, get, disable, Call.free_state])
          else (UIOHOOK_FAILURE, [Call.malloc_state true, get, Call.free_state])
        | none =>
          (UIOHOOK_ERROR_X_RECORD_GET_CONTEXT,
            [Call.malloc_state true,
             Call.XRecordGetContext hook.ctrl_display hook.ctrl_context none, Call.free_state])
      else (UIOHOOK_ERROR_OUT_OF_MEMORY, [Call.malloc_state false])
    else (UIOHOOK_FAILURE, [])

end X11

/-! ## The Windows hook runtime (`src/windows/input_hook.c`) -/

namespace Windows

/-- The message `WM_QUIT` of `winuser.h`. -/
abbrev WM_QUIT : Nat := 0x0012

/-- The message `WM_KEYDOWN` of `winuser.h`. -/
abbrev WM_KEYDOWN : Nat := 0x0100

/-- The message `WM_KEYUP` of `winuser.h`. -/
abbrev WM_KEYUP : Nat := 0x0101

/-- The message `WM_SYSKEYDOWN` of `winuser.h`. -/
abbrev WM_SYSKEYDOWN : Nat := 0x0104

/-- The message `WM_SYSKEYUP` of `winuser.h`. -/
abbrev WM_SYSKEYUP : Nat := 0x0105

/-- The message `WM_MOUSEMOVE` of `winuser.h`. -/
abbrev WM_MOUSEMOVE : Nat := 0x0200

/-- The message `WM_LBUTTONDOWN` of `winuser.h`. -/
abbrev WM_LBUTTONDOWN : Nat := 0x0201

/-- The message `WM_LBUTTONUP` of `winuser.h`. -/
abbrev WM_LBUTTONUP : Nat := 0x0202

/-- The message `WM_RBUTTONDOWN` of `winuser.h`. -/
abbrev WM_RBUTTONDOWN : Nat := 0x0204

/-- The message `WM_RBUTTONUP` of `winuser.h`. -/
abbrev WM_RBUTTONUP : Nat := 0x0205

/-- The message `WM_MBUTTONDOWN` of `winuser.h`. -/
abbrev WM_MBUTTONDOWN : Nat := 0x0207

/-- The message `WM_MBUTTONUP` of `winuser.h`. -/
abbrev WM_MBUTTONUP : Nat := 0x0208

/-- The message `WM_MOUSEWHEEL` of `winuser.h`. -/
abbrev WM_MOUSEWHEEL : Nat := 0x020A

/-- The message `WM_XBUTTONDOWN` of `winuser.h`. -/
abbrev WM_XBUTTONDOWN : Nat := 0x020B

/-- The message `WM_XBUTTONUP` of `winuser.h`. -/
abbrev WM_XBUTTONUP : Nat := 0x020C

/-- The message `WM_MOUSEHWHEEL` of `winuser.h`. -/
abbrev WM_MOUSEHWHEEL : Nat := 0x020E

/-- The message `WM_NCXBUTTONDOWN` of `winuser.h`. -/
abbrev WM_NCXBUTTONDOWN : Nat := 0x00AB

/-- The message `WM_NCXBUTTONUP` of `winuser.h`. -/
abbrev WM_NCXBUTTONUP : Nat := 0x00AC

/-- The button number `XBUTTON1` of `winuser.h`. -/
abbrev XBUTTON1 : Nat := 0x0001

/-- The button number `XBUTTON2` of `winuser.h`. -/
abbrev XBUTTON2 : Nat := 0x0002

/-- The hook type `WH_KEYBOARD_LL` of `winuser.h`. -/
abbrev WH_KEYBOARD_LL : Nat := 13

/-- The hook type `WH_MOUSE_LL` of `winuser.h`. -/
abbrev WH_MOUSE_LL : Nat := 14

/-- The macro `HIWORD` of `minwindef.h`: bits 16 to 31 as a `WORD`. -/
def HIWORD (l : Nat) : Nat :=
  (l >>> 16) &&& 0xFFFF

/-- The structure `KBDLLHOOKSTRUCT` of `winuser.h`. -/
structure KBDLLHOOKSTRUCT where
  vkCode : Nat
  scanCode : Nat
  flags : Nat
  time : Nat
  dwExtraInfo : Nat
  deriving DecidableEq, Repr

/-- The structure `MSLLHOOKSTRUCT` of `winuser.h`. -/
structure MSLLHOOKSTRUCT where
  pt_x : Int
  pt_y : Int
  mouseData : Nat
  flags : Nat
  time : Nat
  dwExtraInfo : Nat
  deriving DecidableEq, Repr

/-- The calls that the Windows runtime makes to the system, the input helper and the dispatcher,
with the arguments written at the call and, for system calls, what they returned. -/
inductive Call where
  | GetCurrentThreadId (result : Nat)
  | GetModuleHandle (result : Option Nat)
  | SetWindowsHookEx (idHook : Nat) (hmod : Option Nat) (result : Option Nat)
  | UnhookWindowsHookEx (hhook : Option Nat)
  | load_input_helper (status : Status)
  | unload_input_helper
  | dispatch_hook_enable (timestamp : Nat)
  | dispatch_hook_disable (timestamp : Nat)
  | GetMessage (result : Int)
  | TranslateMessage
  | DispatchMessage
  | dispatch_key_press (timestamp : Nat) (kbhook : KBDLLHOOKSTRUCT)
  | dispatch_key_release (timestamp : Nat) (kbhook : KBDLLHOOKSTRUCT)
  | dispatch_button_press (timestamp : Nat) (mshook : MSLLHOOKSTRUCT) (button : Nat)
  | dispatch_button_release (timestamp : Nat) (mshook : MSLLHOOKSTRUCT) (button : Nat)
  | dispatch_mouse_move (timestamp : Nat) (mshook : MSLLHOOKSTRUCT)
  | dispatch_mouse_wheel (timestamp : Nat) (mshook : MSLLHOOKSTRUCT) (direction : Nat)
  | set_modifier_mask (mask : Nat)
  | unset_modifier_mask (mask : Nat)
  | CallNextHookEx (hhook : Option Nat) (nCode : Int) (wParam : Nat) (result : Int)
  | PostThreadMessage (idThread : Nat) (Msg : Nat) (result : Bool)
  deriving DecidableEq, Repr

/-- The file-scope variables of `input_hook.c`, `hook_thread_id`, `keyboard_event_hhook` and
`mouse_event_hhook`, and the module handle `hInst` (`none` is `NULL`). -/
structure HookState where
  hook_thread_id : Nat
  keyboard_event_hhook : Option Nat
  mouse_event_hhook : Option Nat
  hInst : Option Nat
  deriving DecidableEq, Repr

/-- The function `unregister_running_hooks`: the state it leaves and the calls made. -/
def unregister_running_hooks (st : HookState) : HookState × List Call :=
  let keyboard : HookState × List Call :=
    if st.keyboard_event_hhook ≠ none then
      ({ st with keyboard_event_hhook := none },
        [Call.UnhookWindowsHookEx st.keyboard_event_hhook])
    else (st, [])
  let st := keyboard.1
  let mouse : HookState × List Call :=
    if st.mouse_event_hhook ≠ none then
      ({ st with mouse_event_hhook := none }, [Call.UnhookWindowsHookEx st.mouse_event_hhook])
    else (st, [])
  (mouse.1, keyboard.2 ++ mouse.2)

/-- The function `keyboard_hook_event_proc`: the value it returns and the calls made.  `epoch` is
the value of `get_unix_timestamp()` when `USE_EPOCH_TIME` is configured and `none` otherwise;
`consumed` is what the dispatcher returns if one is called, `next` what `CallNextHookEx` returns
if it is called. -/
def keyboard_hook_event_proc (st : HookState) (epoch : Option Nat) (nCode : Int) (wParam : Nat)
    (kbhook : KBDLLHOOKSTRUCT) (consumed : Bool) (next : Int) : Int × List Call :=
  let timestamp := match epoch with
    | some t => t
    | none => kbhook.time
  let dispatched : Bool × List Call :=
    if wParam = WM_KEYDOWN ∨ wParam = WM_SYSKEYDOWN then
      (consumed, [Call.dispatch_key_press timestamp kbhook])
    else if wParam = WM_KEYUP ∨ wParam = WM_SYSKEYUP then
      (consumed, [Call.dispatch_key_release timestamp kbhook])
    else (false, [])
  if nCode < 0 ∨ dispatched.1 = false then
    (next, dispatched.2 ++ [Call.CallNextHookEx st.keyboard_event_hhook nCode wParam next])
  else (-1, dispatched.2)

/-- The `switch` of `mouse_hook_event_proc`: the value of `consumed` after it and the calls made.
`consumed` on the left is what the dispatcher returns if one is called. -/
def mouse_hook_event_switch (H : Header) (timestamp : Nat) (wParam : Nat)
    (mshook : MSLLHOOKSTRUCT) (consumed : Bool) : Bool × List Call :=
  if wParam = WM_LBUTTONDOWN then
    (consumed, [Call.set_modifier_mask H.MASK_BUTTON1,
                Call.dispatch_button_press timestamp mshook H.MOUSE_BUTTON1])
  else if wParam = WM_RBUTTONDOWN then
    (consumed, [Call.set_modifier_mask H.MASK_BUTTON2,
                Call.dispatch_button_press timestamp mshook H.MOUSE_BUTTON2])
  else if wParam = WM_MBUTTONDOWN then
    (consumed, [Call.set_modifier_mask H.MASK_BUTTON3,
                Call.dispatch_button_press timestamp mshook H.MOUSE_BUTTON3])
  else if wParam = WM_XBUTTONDOWN ∨ wParam = WM_NCXBUTTONDOWN then
    if HIWORD mshook.mouseData = XBUTTON1 then
      (consumed, [Call.set_modifier_mask H.MASK_BUTTON4,
                  Call.dispatch_button_press timestamp mshook H.MOUSE_BUTTON4])
    else if HIWORD mshook.mouseData = XBUTTON2 then
      (consumed, [Call.set_modifier_mask H.MASK_BUTTON5,
                  Call.dispatch_button_press timestamp mshook H.MOUSE_BUTTON5])
    else
      let button := HIWORD mshook.mouseData
      let masked : List Call :=
        if button = 4 then [Call.set_modifier_mask H.MOUSE_BUTTON4]
        else if button = 5 then [Call.set_modifier_mask H.MOUSE_BUTTON5]
        else []
      (consumed, masked ++ [Call.dispatch_button_press timestamp mshook button])
  else if wParam = WM_LBUTTONUP then
    (consumed, [Call.unset_modifier_mask H.MASK_BUTTON1,
                Call.dispatch_button_release timestamp mshook H.MOUSE_BUTTON1])
  else if wParam = WM_RBUTTONUP then
    (consumed, [Call.unset_modifier_mask H.MASK_BUTTON2,
                Call.dispatch_button_release timestamp mshook H.MOUSE_BUTTON2])
  else if wParam = WM_MBUTTONUP then
    (consumed, [Call.unset_modifier_mask H.MASK_BUTTON3,
                Call.dispatch_button_release timestamp mshook H.MOUSE_BUTTON3])
  else if wParam = WM_XBUTTONUP ∨ wParam = WM_NCXBUTTONUP then
    if HIWORD mshook.mouseData = XBUTTON1 then
      (consumed, [Call.unset_modifier_mask H.MASK_BUTTON4,
                  Call.dispatch_button_release timestamp mshook H.MOUSE_BUTTON4])
    else if HIWORD mshook.mouseData = XBUTTON2 then
      (consumed, [Call.unset_modifier_mask H.MASK_BUTTON5,
                  Call.dispatch_button_release timestamp mshook H.MOUSE_BUTTON5])
    else
      let button := HIWORD mshook.mouseData
      let masked : List Call :=
        if button = 4 then [Call.unset_modifier_mask H.MOUSE_BUTTON4]
        else if button = 5 then [Call.unset_modifier_mask H.MOUSE_BUTTON5]
        else []
      (consumed, masked ++ [Call.dispatch_button_release timestamp mshook H.MOUSE_BUTTON5])
  else if wParam = WM_MOUSEMOVE then
    (consumed, [Call.dispatch_mouse_move timestamp mshook])
  else if wParam = WM_MOUSEWHEEL then
    (consumed, [Call.dispatch_mouse_wheel timestamp mshook H.WHEEL_VERTICAL_DIRECTION])
  else if wParam = WM_MOUSEHWHEEL then
    (consumed, [Call.dispatch_mouse_wheel timestamp mshook H.WHEEL_HORIZONTAL_DIRECTION])
  else (false, [])

/-- The function `mouse_hook_event_proc`: the value it returns and the calls made, with `epoch`,
`consumed` and `next` as for `keyboard_hook_event_proc`. -/
def mouse_hook_event_proc (H : Header) (st : HookState) (epoch : Option Nat) (nCode : Int)
    (wParam : Nat) (mshook : MSLLHOOKSTRUCT) (consumed : Bool) (next : Int) : Int × List Call :=
  let timestamp := match epoch with
    | some t => t
    | none => mshook.time
  let dispatched := mouse_hook_event_switch H timestamp wParam mshook consumed
  if nCode < 0 ∨ dispatched.1 = false then
    (next, dispatched.2 ++ [Call.CallNextHookEx st.mouse_event_hhook nCode wParam next])
  else (-1, dispatched.2)

/-- One invocation of a hook procedure by the system: which procedure, its arguments, and the
answers `epoch`, `consumed` and `next` of that invocation. -/
inductive HookCallback where
  | keyboard (epoch : Option Nat) (nCode : Int) (wParam : Nat) (kbhook : KBDLLHOOKSTRUCT)
      (consumed : Bool) (next : Int)
  | mouse (epoch : Option Nat) (nCode : Int) (wParam : Nat) (mshook : MSLLHOOKSTRUCT)
      (consumed : Bool) (next : Int)
  deriving DecidableEq, Repr

/-- The calls of one invocation of a hook procedure. -/
def hook_callback (H : Header) (st : HookState) : HookCallback → List Call
  | HookCallback.keyboard epoch nCode wParam kbhook consumed next =>
    (keyboard_hook_event_proc st epoch nCode wParam kbhook consumed next).2
  | HookCallback.mouse epoch nCode wParam mshook consumed next =>
    (mouse_hook_event_proc H st epoch nCode wParam mshook consumed next).2

/-- What the system and the input helper answer during one `hook_run`: the thread id, the module
handle, the two `SetWindowsHookEx` calls, the timestamps taken before `dispatch_hook_enable` and
before `dispatch_hook_disable` (`GetMessageTime()` or `get_unix_timestamp()`), the status of
`load_input_helper`, and the message loop: for every `GetMessage` call that returns a positive
value the hook procedures invoked while it waits, then the hook procedures invoked during the
last `GetMessage` call and its result, `0` for `WM_QUIT` (`quit_error = false`) or `-1` for an
error. -/
structure Server where
  GetCurrentThreadId : Nat
  GetModuleHandle : Option Nat
  SetWindowsHookEx_keyboard : Option Nat
  SetWindowsHookEx_mouse : Option Nat
  start_time : Nat
  load_input_helper : Status
  messages : List (List HookCallback)
  quit_callbacks : List HookCallback
  quit_error : Bool
  end_time : Nat

/-- The message loop of `hook_run`, `while (GetMessage(..) > 0) { TranslateMessage(..);
DispatchMessage(..); }`: the calls made, the hook procedures running inside `GetMessage`. -/
def message_loop (H : Header) (X : Server) (st : HookState) : List Call :=
  (X.messages.map fun callbacks =>
      (callbacks.map (hook_callback H st)).flatten
        ++ [Call.GetMessage 1, Call.TranslateMessage, Call.DispatchMessage]).flatten
    ++ (X.quit_callbacks.map (hook_callback H st)).flatten
    ++ [Call.GetMessage (if X.quit_error then -1 else 0)]

/-- The function `hook_run` of the Windows runtime: the status returned, the state left and the
calls made. -/
def hook_run (H : Header) (X : Server) (st : HookState) : Status × HookState × List Call :=
  let st := { st with hook_thread_id := X.GetCurrentThreadId }
  let thread := [Call.GetCurrentThreadId X.GetCurrentThreadId]
  let module : HookState × List Call :=
    if st.hInst = none then
      ({ st with hInst := X.GetModuleHandle }, [Call.GetModuleHandle X.GetModuleHandle])
    else (st, [])
  let st := module.1
  if st.hInst = none then
    (UIOHOOK_ERROR_GET_MODULE_HANDLE, st, thread ++ module.2)
  else
    let st := { st with keyboard_event_hhook := X.SetWindowsHookEx_keyboard }
    let st := { st with mouse_event_hhook := X.SetWindowsHookEx_mouse }
    let install :=
      [Call.SetWindowsHookEx WH_KEYBOARD_LL st.hInst X.SetWindowsHookEx_keyboard,
       Call.SetWindowsHookEx WH_MOUSE_LL st.hInst X.SetWindowsHookEx_mouse]
    if st.keyboard_event_hhook ≠ none ∧ st.mouse_event_hhook ≠ none then
      let input_helper_status := X.load_input_helper
      if input_helper_status ≠ UIOHOOK_SUCCESS then
        (input_helper_status, st,
          thread ++ module.2 ++ install
            ++ [Call.load_input_helper input_helper_status, Call.unload_input_helper])
      else
        let unregistered := unregister_running_hooks st
        (UIOHOOK_SUCCESS, unregistered.1,
          thread ++ module.2 ++ install
            ++ [Call.load_input_helper input_helper_status,
                Call.dispatch_hook_enable X.start_time]
            ++ message_loop H X st
            ++ [Call.dispatch_hook_disable X.end_time, Call.unload_input_helper]
            ++ unregistered.2)
    else
      let unregistered := unregister_running_hooks st
      (UIOHOOK_ERROR_SET_WINDOWS_HOOK_EX, unregistered.1,
        thread ++ module.2 ++ install ++ unregistered.2)

/-- The function `hook_stop` of the Windows runtime: the status returned and the calls made.
`PostThreadMessage` is the answer of the system to the post. -/
def hook_stop (PostThreadMessage : Nat → Nat → Bool) (st : HookState) : Status × List Call :=
  let posted := PostThreadMessage st.hook_thread_id WM_QUIT
  (if posted then UIOHOOK_SUCCESS else UIOHOOK_FAILURE,
    [Call.PostThreadMessage st.hook_thread_id WM_QUIT posted])

end Windows

/-! ## Intercepted data of the X11 runtime (`wire_data_to_event`, `hook_event_proc`) -/

/-- The event type `ButtonPress` of `X11/X.h`. -/
abbrev ButtonPress : Nat := 4

/-- The event type `ButtonRelease` of `X11/X.h`. -/
abbrev ButtonRelease : Nat := 5

/-- The event type `MotionNotify` of `X11/X.h`. -/
abbrev MotionNotify : Nat := 6

/-- The category `XRecordFromServer` of `X11/extensions/recordconst.h`. -/
abbrev XRecordFromServer : Nat := 0

/-- The category `XRecordFromClient` of `X11/extensions/recordconst.h`. -/
abbrev XRecordFromClient : Nat := 1

/-- The category `XRecordClientStarted` of `X11/extensions/recordconst.h`. -/
abbrev XRecordClientStarted : Nat := 2

/-- The category `XRecordClientDied` of `X11/extensions/recordconst.h`. -/
abbrev XRecordClientDied : Nat := 3

/-- The category `XRecordStartOfData` of `X11/extensions/recordconst.h`. -/
abbrev XRecordStartOfData : Nat := 4

/-- The category `XRecordEndOfData` of `X11/extensions/recordconst.h`. -/
abbrev XRecordEndOfData : Nat := 5

/-- The macro `cvtINT16toInt` of `X11/Xmd.h`, `(val)`, on an `INT16` member of the wire event: the
conversion of the 16-bit two's complement value to `int`.  `val` is the 16-bit pattern of the
wire. -/
def cvtINT16toInt (val : Nat) : Int :=
  if val % 65536 < 32768 then ((val % 65536 : Nat) : Int) else ((val % 65536 : Nat) : Int) - 65536

namespace X11

/-- The wire event `xEvent` of `X11/Xproto.h` through its members `u.u` (`type`, `detail`,
`sequenceNumber`) and `u.keyButtonPointer`, each with the bit pattern of the wire: `type`,
`detail` and `sameScreen` are bytes, the coordinates and `state` 16-bit and the others 32-bit
values.  In the union `XRecordDatum` the member `type` is the first byte of the member `event`,
so `data->type` and `data->event.u.u.type` are both the field `type`. -/
structure xEvent where
  type : Nat
  detail : Nat
  sequenceNumber : Nat
  time : Nat
  root : Nat
  event : Nat
  child : Nat
  rootX : Nat
  rootY : Nat
  eventX : Nat
  eventY : Nat
  state : Nat
  sameScreen : Nat
  deriving DecidableEq, Repr

/-- The members of `XRecordInterceptData` that the runtime reads: `server_time`, `category` and
the datum that `data` points to, which is read for the category `XRecordFromServer` only. -/
structure XRecordInterceptData where
  server_time : Nat
  category : Nat
  data : xEvent
  deriving DecidableEq, Repr

/-- The union `XEvent` of Xlib through its members `xkey`, `xbutton` and `xmotion`, which have one
layout.  The field `keycode` is the member after `state`: `keycode` of `XKeyEvent`, `button` of
`XButtonEvent` and `is_hint` of `XMotionEvent`, which share their offset. -/
structure XEvent where
  type : Nat
  serial : Nat
  send_event : Bool
  display : Option Nat
  window : Nat
  root : Nat
  subwindow : Nat
  time : Nat
  x : Int
  y : Int
  x_root : Int
  y_root : Int
  state : Nat
  keycode : Nat
  same_screen : Nat
  deriving DecidableEq, Repr

/-- The member `button` of the view `XButtonEvent`, at the offset of `keycode`. -/
def XEvent.button (x_event : XEvent) : Nat :=
  x_event.keycode

/-- The member `is_hint` of the view `XMotionEvent`, at the offset of `keycode`. -/
def XEvent.is_hint (x_event : XEvent) : Nat :=
  x_event.keycode

/-- The function `wire_data_to_event`: the event that it leaves in `*x_event`.  For the category
`XRecordFromServer` it stores the wire type byte as `type`, `helper_disp` as `display` and the bit
`0x80` of the wire type byte as `send_event`; the inner `switch (data->type)` then copies the
members of `keyButtonPointer` when the wire type byte is one of the five event codes.  The three
cases of the switch make the same assignments, the last through `keycode`, `button` or
`is_hint`. -/
def wire_data_to_event (s : HelperState) (recorded_data : XRecordInterceptData)
    (x_event : XEvent) : XEvent :=
  if recorded_data.category = XRecordFromServer then
    let data := recorded_data.data
    let x_event :=
      { x_event with
        type := data.type, display := s.helper_disp,
        send_event := decide (data.type &&& 0x80 ≠ 0) }
    if data.type = KeyPress ∨ data.type = KeyRelease then
      { x_event with
        root := data.root, window := data.event, subwindow := data.child, time := data.time,
        x := cvtINT16toInt data.eventX, y := cvtINT16toInt data.eventY,
        x_root := cvtINT16toInt data.rootX, y_root := cvtINT16toInt data.rootY,
        state := data.state, same_screen := data.sameScreen, keycode := data.detail }
    else if data.type = ButtonPress ∨ data.type = ButtonRelease then
      { x_event with
        root := data.root, window := data.event, subwindow := data.child, time := data.time,
        x := cvtINT16toInt data.eventX, y := cvtINT16toInt data.eventY,
        x_root := cvtINT16toInt data.rootX, y_root := cvtINT16toInt data.rootY,
        state := data.state, same_screen := data.sameScreen, keycode := data.detail }
    else if data.type = MotionNotify then
      { x_event with
        root := data.root, window := data.event, subwindow := data.child, time := data.time,
        x := cvtINT16toInt data.eventX, y := cvtINT16toInt data.eventY,
        x_root := cvtINT16toInt data.rootX, y_root := cvtINT16toInt data.rootY,
        state := data.state, same_screen := data.sameScreen, keycode := data.detail }
    else x_event
  else x_event

/-- The calls that `hook_event_proc` makes, apart from `wire_data_to_event` and the logger: the
dispatcher called, with the timestamp and the event passed. -/
inductive EventCall where
  | dispatch_hook_enabled (timestamp : Nat)
  | dispatch_hook_disabled (timestamp : Nat)
  | dispatch_key_press (timestamp : Nat) (x_event : XEvent)
  | dispatch_key_release (timestamp : Nat) (x_event : XEvent)
  | dispatch_mouse_press (timestamp : Nat) (x_event : XEvent)
  | dispatch_mouse_release (timestamp : Nat) (x_event : XEvent)
  | dispatch_mouse_move (timestamp : Nat) (x_event : XEvent)
  deriving DecidableEq, Repr

/-- The function `hook_event_proc`: the calls it makes for one intercepted datum.  `epoch` is the
value of `get_unix_timestamp()` when `USE_EPOCH_TIME` is configured and `none` otherwise; `event`
is the content of the local `XEvent event` before `wire_data_to_event` fills it.  The case
`MappingNotify` of the source holds comments only, and the two `default` cases call the logger
only. -/
def hook_event_proc (s : HelperState) (epoch : Option Nat)
    (recorded_data : XRecordInterceptData) (event : XEvent) : List EventCall :=
  let timestamp := match epoch with
    | some t => t
    | none => recorded_data.server_time
  let event := wire_data_to_event s recorded_data event
  let data := recorded_data.data
  if recorded_data.category = XRecordStartOfData then
    [EventCall.dispatch_hook_enabled timestamp]
  else if recorded_data.category = XRecordEndOfData then
    [EventCall.dispatch_hook_disabled timestamp]
  else if recorded_data.category = XRecordFromServer then
    if data.type = KeyPress then [EventCall.dispatch_key_press timestamp event]
    else if data.type = KeyRelease then [EventCall.dispatch_key_release timestamp event]
    else if data.type = ButtonPress then [EventCall.dispatch_mouse_press timestamp event]
    else if data.type = ButtonRelease then [EventCall.dispatch_mouse_release timestamp event]
    else if data.type = MotionNotify then [EventCall.dispatch_mouse_move timestamp event]
    else if data.type = MappingNotify then []
    else []
  else []

end X11

/-- Modelled from the spec: `uiohook.h` is not among the sources.  The spec fixes that virtual codes
and the modifier mask are 16-bit values and that a keypad code is told apart from its navigation
variant by OR-ing `0xEE00`; this instance gives every name a concrete 16-bit value in the numbering
of the public header, so that statements proved for every header can be run on concrete inputs. -/
def uiohook_h_code : VirtualCode → Nat
  | VC_ESCAPE => 0x001B
  | VC_F1 => 0x0070
  | VC_F2 => 0x0071
  | VC_F3 => 0x0072
  | VC_F4 => 0x0073
  | VC_F5 => 0x0074
  | VC_F6 => 0x0075
  | VC_F7 => 0x0076
  | VC_F8 => 0x0077
  | VC_F9 => 0x0078
  | VC_F10 => 0x0079
  | VC_F11 => 0x007A
  | VC_F12 => 0x007B
  | VC_F13 => 0xF000
  | VC_F14 => 0xF001
  | VC_F15 => 0xF002
  | VC_F16 => 0xF003
  | VC_F17 => 0xF004
  | VC_F18 => 0xF005
  | VC_F19 => 0xF006
  | VC_F20 => 0xF007
  | VC_F21 => 0xF008
  | VC_F22 => 0xF009
  | VC_F23 => 0xF00A
  | VC_F24 => 0xF00B
  | VC_BACK_QUOTE => 0x00C0
  | VC_0 => 0x0030
  | VC_1 => 0x0031
  | VC_2 => 0x0032
  | VC_3 => 0x0033
  | VC_4 => 0x0034
  | VC_5 => 0x0035
  | VC_6 => 0x0036
  | VC_7 => 0x0037
  | VC_8 => 0x0038
  | VC_9 => 0x0039
  | VC_MINUS => 0x002D
  | VC_PLUS => 0x0209
  | VC_EQUALS => 0x003D
  | VC_ASTERISK => 0x0097
  | VC_AT => 0x0200
  | VC_AMPERSAND => 0x0096
  | VC_DOLLAR => 0x0203
  | VC_EXCLAMATION_MARK => 0x0205
  | VC_EXCLAMATION_DOWN => 0x0206
  | VC_BACKSPACE => 0x0008
  | VC_TAB => 0x0009
  | VC_CAPS_LOCK => 0x0014
  | VC_A => 0x0041
  | VC_B => 0x0042
  | VC_C => 0x0043
  | VC_D => 0x0044
  | VC_E => 0x0045
  | VC_F => 0x0046
  | VC_G => 0x0047
  | VC_H => 0x0048
  | VC_I => 0x0049
  | VC_J => 0x004A
  | VC_K => 0x004B
  | VC_L => 0x004C
  | VC_M => 0x004D
  | VC_N => 0x004E
  | VC_O => 0x004F
  | VC_P => 0x0050
  | VC_Q => 0x0051
  | VC_R => 0x0052
  | VC_S => 0x0053
  | VC_T => 0x0054
  | VC_U => 0x0055
  | VC_V => 0x0056
  | VC_W => 0x0057
  | VC_X => 0x0058
  | VC_Y => 0x0059
  | VC_Z => 0x005A
  | VC_OPEN_BRACKET => 0x005B
  | VC_CLOSE_BRACKET => 0x005C
  | VC_BACK_SLASH => 0x005D
  | VC_COLON => 0x0201
  | VC_SEMICOLON => 0x003B
  | VC_QUOTE => 0x00DE
  | VC_QUOTEDBL => 0x0098
  | VC_ENTER => 0x000A
  | VC_LESS => 0x0099
  | VC_GREATER => 0x00A0
  | VC_COMMA => 0x002C
  | VC_PERIOD => 0x002E
  | VC_SLASH => 0x002F
  | VC_NUMBER_SIGN => 0x0208
  | VC_OPEN_BRACE => 0x00A1
  | VC_CLOSE_BRACE => 0x00A2
  | VC_OPEN_PARENTHESIS => 0x0207
  | VC_CLOSE_PARENTHESIS => 0x020A
  | VC_SPACE => 0x0020
  | VC_PRINT_SCREEN => 0x009A
  | VC_SCROLL_LOCK => 0x0091
  | VC_PAUSE => 0x0013
  | VC_CANCEL => 0x00D3
  | VC_INSERT => 0x009B
  | VC_DELETE => 0x007F
  | VC_HOME => 0x0024
  | VC_END => 0x0023
  | VC_PAGE_UP => 0x0021
  | VC_PAGE_DOWN => 0x0022
  | VC_UP => 0x0026
  | VC_LEFT => 0x0025
  | VC_BEGIN => 0xFF58
  | VC_RIGHT => 0x0027
  | VC_DOWN => 0x0028
  | VC_NUM_LOCK => 0x0090
  | VC_KP_CLEAR => 0x000C
  | VC_KP_DIVIDE => 0x006F
  | VC_KP_MULTIPLY => 0x006A
  | VC_KP_SUBTRACT => 0x006D
  | VC_KP_EQUALS => 0x007C
  | VC_KP_ADD => 0x006B
  | VC_KP_ENTER => 0x007D
  | VC_KP_DECIMAL => 0x006E
  | VC_KP_SEPARATOR => 0x006C
  | VC_KP_0 => 0x0060
  | VC_KP_1 => 0x0061
  | VC_KP_2 => 0x0062
  | VC_KP_3 => 0x0063
  | VC_KP_4 => 0x0064
  | VC_KP_5 => 0x0065
  | VC_KP_6 => 0x0066
  | VC_KP_7 => 0x0067
  | VC_KP_8 => 0x0068
  | VC_KP_9 => 0x0069
  | VC_KP_END => 0xEE61
  | VC_KP_DOWN => 0xEE62
  | VC_KP_PAGE_DOWN => 0xEE63
  | VC_KP_LEFT => 0xEE64
  | VC_KP_BEGIN => 0xEE65
  | VC_KP_RIGHT => 0xEE66
  | VC_KP_HOME => 0xEE67
  | VC_KP_UP => 0xEE68
  | VC_KP_PAGE_UP => 0xEE69
  | VC_KP_INSERT => 0xEE60
  | VC_KP_DELETE => 0xEE6C
  | VC_SHIFT_L => 0xA010
  | VC_SHIFT_R => 0xB010
  | VC_CONTROL_L => 0xA011
  | VC_CONTROL_R => 0xB011
  | VC_ALT_L => 0xA012
  | VC_ALT_R => 0xB012
  | VC_ALT_GRAPH => 0xFF7E
  | VC_META_L => 0xA09D
  | VC_META_R => 0xB09D
  | VC_CONTEXT_MENU => 0x020D
  | VC_POWER => 0xE05E
  | VC_SLEEP => 0xE05F
  | VC_WAKE => 0xE063
  | VC_MEDIA_PLAY => 0xE022
  | VC_MEDIA_STOP => 0xE024
  | VC_MEDIA_PREVIOUS => 0xE010
  | VC_MEDIA_NEXT => 0xE019
  | VC_MEDIA_SELECT => 0xE06D
  | VC_MEDIA_EJECT => 0xE02C
  | VC_VOLUME_MUTE => 0xE020
  | VC_VOLUME_DOWN => 0xE030
  | VC_VOLUME_UP => 0xE02E
  | VC_APP_BROWSER => 0xE025
  | VC_APP_CALCULATOR => 0xE021
  | VC_APP_MAIL => 0xE06C
  | VC_APP_MUSIC => 0xE03C
  | VC_APP_PICTURES => 0xE064
  | VC_BROWSER_SEARCH => 0xE065
  | VC_BROWSER_HOME => 0xE032
  | VC_BROWSER_BACK => 0xE06A
  | VC_BROWSER_FORWARD => 0xE069
  | VC_BROWSER_STOP => 0xE068
  | VC_BROWSER_REFRESH => 0xE067
  | VC_BROWSER_FAVORITES => 0xE066
  | VC_CIRCUMFLEX => 0x0202
  | VC_DEAD_GRAVE => 0x0080
  | VC_DEAD_ACUTE => 0x0081
  | VC_DEAD_CIRCUMFLEX => 0x0082
  | VC_DEAD_TILDE => 0x0083
  | VC_DEAD_MACRON => 0x0084
  | VC_DEAD_BREVE => 0x0085
  | VC_DEAD_ABOVEDOT => 0x0086
  | VC_DEAD_DIAERESIS => 0x0087
  | VC_DEAD_ABOVERING => 0x0088
  | VC_DEAD_DOUBLEACUTE => 0x0089
  | VC_DEAD_CARON => 0x008A
  | VC_DEAD_CEDILLA => 0x008B
  | VC_DEAD_OGONEK => 0x008C
  | VC_DEAD_IOTA => 0x008D
  | VC_DEAD_VOICED_SOUND => 0x008E
  | VC_DEAD_SEMIVOICED_SOUND => 0x008F
  | VC_KATAKANA => 0x00F1
  | VC_KANA => 0x0015
  | VC_KANA_LOCK => 0x0106
  | VC_KANJI => 0x0019
  | VC_HIRAGANA => 0x00F2
  | VC_ACCEPT => 0x001E
  | VC_CONVERT => 0x001C
  | VC_COMPOSE => 0xFF20
  | VC_INPUT_METHOD_ON_OFF => 0x0107
  | VC_ALL_CANDIDATES => 0x0100
  | VC_ALPHANUMERIC => 0x00F0
  | VC_CODE_INPUT => 0x0102
  | VC_FULL_WIDTH => 0x00F3
  | VC_HALF_WIDTH => 0x00F4
  | VC_NONCONVERT => 0x001D
  | VC_PREVIOUS_CANDIDATE => 0x0101
  | VC_ROMAN_CHARACTERS => 0x00F5
  | VC_UNDERSCORE => 0x020B
  | VC_SUN_HELP => 0xFF75
  | VC_SUN_STOP => 0xFF78
  | VC_SUN_PROPS => 0xFF76
  | VC_SUN_FRONT => 0xFF77
  | VC_SUN_OPEN => 0xFF74
  | VC_SUN_FIND => 0xFF70
  | VC_SUN_AGAIN => 0xFF79
  | VC_SUN_UNDO => 0xFF7A
  | VC_SUN_COPY => 0xFF7C
  | VC_SUN_PASTE => 0xFF7D
  | VC_SUN_CUT => 0xFF7B
  | VC_UNDEFINED => 0x0000

/-- Every value of `uiohook_h_code` fits 16 bits. -/
theorem uiohook_h_code_lt (v : VirtualCode) : uiohook_h_code v < 65536 := by
  cases v <;> decide

/-- Modelled from the spec: the header instance built from `uiohook_h_code`, with the NumLock bit of
the modifier mask at `1 << 13`, the other mask bits in the order of the public header (left
modifiers in bits 0 to 3, right modifiers in bits 4 to 7, buttons 1 to 5 in bits 8 to 12, CapsLock
and ScrollLock in bits 14 and 15) and the buttons numbered 1 to 5. -/
def uiohook_h : Header where
  code := uiohook_h_code
  MASK_NUM_LOCK := 0x2000
  code_lt := uiohook_h_code_lt
  MASK_SHIFT_L := 0x0001
  MASK_CTRL_L := 0x0002
  MASK_META_L := 0x0004
  MASK_ALT_L := 0x0008
  MASK_SHIFT_R := 0x0010
  MASK_CTRL_R := 0x0020
  MASK_META_R := 0x0040
  MASK_ALT_R := 0x0080
  MASK_BUTTON1 := 0x0100
  MASK_BUTTON2 := 0x0200
  MASK_BUTTON3 := 0x0400
  MASK_BUTTON4 := 0x0800
  MASK_BUTTON5 := 0x1000
  MASK_CAPS_LOCK := 0x4000
  MASK_SCROLL_LOCK := 0x8000
  MOUSE_BUTTON1 := 1
  MOUSE_BUTTON2 := 2
  MOUSE_BUTTON3 := 3
  MOUSE_BUTTON4 := 4
  MOUSE_BUTTON5 := 5
  WHEEL_VERTICAL_DIRECTION := 3
  WHEEL_HORIZONTAL_DIRECTION := 4

/-! ## Sample inputs -/

/-- A key event of the given type on window 1. -/
def sample_key_event (type : Nat) : XKeyEvent :=
  { type := type, serial := 0, send_event := false, display := some 1, window := 1, root := 1,
    subwindow := 0, time := 1000, x := 10, y := 20, x_root := 10, y_root := 20, state := 0,
    keycode := 38, same_screen := true }

/-- An X server whose lookups both return the bytes `bytes` followed by zeros (`count` of them
meaningful), with an input method and an input context available. -/
def sample_input_method (count : Nat) (bytes : List Nat) : XInputMethod :=
  let r : LookupReturn :=
    { count := count, buffer := (bytes ++ [0, 0, 0, 0, 0]).take 5, keysym := 0x61,
      buffer_length := by
        rw [List.length_take, List.length_append]
        exact Nat.min_eq_left (Nat.le_add_left 5 bytes.length) }
  { XOpenIM := some 7, XOpenIM_im_none := some 8, XCreateIC := fun _ => some 9,
    Xutf8LookupString := fun _ _ => r, XLookupString := fun _ => r }

/-- A keyboard map in which exactly the keys with the keycodes `keycodes` are down: the 32 bytes
that `XQueryKeymap` returns. -/
def sample_keymap (keycodes : List Nat) : List Nat :=
  (List.range 32).map fun i =>
    ((List.range 8).filter fun bit => decide ((8 * i + bit) ∈ keycodes)).foldl
      (fun byte bit => byte ||| (1 <<< bit)) 0

/-- The keycodes of the eight modifier keysyms on a PC keyboard under the evdev rules, and `0`
for every other keysym. -/
def sample_keycode (keysym : Nat) : Nat :=
  if keysym = XK_Shift_L then 50 else if keysym = XK_Shift_R then 62
  else if keysym = XK_Control_L then 37 else if keysym = XK_Control_R then 105
  else if keysym = XK_Alt_L then 64 else if keysym = XK_Alt_R then 108
  else if keysym = XK_Super_L then 133 else if keysym = XK_Super_R then 134
  else 0

/-- An X server with the LED mask `leds`, the keys `keycodes` down and the pointer state
`pointer` (`none` when `XQueryPointer` fails). -/
def sample_keyboard (leds : Nat) (keycodes : List Nat) (pointer : Option Nat) : XKeyboard :=
  { XkbGetIndicatorState := some leds, XQueryKeymap := sample_keymap keycodes,
    XQueryPointer := pointer, XKeysymToKeycode := fun _ keysym => sample_keycode keysym }

/-- An X server and C library on which every step of the X11 `hook_run` succeeds: the hook
structure is allocated with zeroed fields, the control display is 101, the data display 102, the
record range 103, the record context 104, and nothing is held down. -/
def sample_x11_server : X11.Server :=
  { malloc_hook := some { data_display := none, data_range := none, ctrl_display := none,
                          ctrl_context := 0 },
    XOpenDisplay_ctrl := some 101, XOpenDisplay_data := some 102,
    XkbSetDetectableAutoRepeat := true, XRecordQueryVersion := true,
    XRecordAllocRange := some 103, XRecordCreateContext := 104,
    malloc_button_table := some (List.replicate 256 0),
    keyboard := sample_keyboard 0 [] (some 0), XRecordEnableContext := true,
    events_mask := 0, events_button_table := List.replicate 256 0 }

/-- A mouse hook structure with the given `mouseData`, at the point (10, 20) and time 1000. -/
def sample_mshook (mouseData : Nat) : Windows.MSLLHOOKSTRUCT :=
  { pt_x := 10, pt_y := 20, mouseData := mouseData, flags := 0, time := 1000, dwExtraInfo := 0 }

/-- A keyboard hook structure for the key `A` at time 1000. -/
def sample_kbhook : Windows.KBDLLHOOKSTRUCT :=
  { vkCode := 0x41, scanCode := 0x1E, flags := 0, time := 1000, dwExtraInfo := 0 }

/-- A system on which every step of the Windows `hook_run` succeeds, on thread 9 with the hook
handles 21 and 22: one message is pumped, during which the key `A` goes down and the left button
goes down (neither consumed), then `WM_QUIT` arrives. -/
def sample_windows_server : Windows.Server :=
  { GetCurrentThreadId := 9, GetModuleHandle := some 1,
    SetWindowsHookEx_keyboard := some 21, SetWindowsHookEx_mouse := some 22,
    start_time := 500, load_input_helper := UIOHOOK_SUCCESS,
    messages :=
      [[Windows.HookCallback.keyboard none 0 Windows.WM_KEYDOWN sample_kbhook false 0,
        Windows.HookCallback.mouse none 0 Windows.WM_LBUTTONDOWN (sample_mshook 0) false 0]],
    quit_callbacks := [], quit_error := false, end_time := 2000 }

/-- A wire event with the given type byte and detail byte: time 7000, root window 300, event
window 301, child window 302, root position (-2, 40), event position (-3, 5), state `0x0011`,
same screen. -/
def sample_wire (type detail : Nat) : X11.xEvent :=
  { type := type, detail := detail, sequenceNumber := 12, time := 7000, root := 300, event := 301,
    child := 302, rootX := 0xFFFE, rootY := 40, eventX := 0xFFFD, eventY := 5, state := 0x0011,
    sameScreen := 1 }

/-- An `XEvent` whose members all hold 77, as stack contents left by earlier calls. -/
def sample_stale_event : X11.XEvent :=
  { type := 77, serial := 77, send_event := true, display := some 77, window := 77, root := 77,
    subwindow := 77, time := 77, x := 77, y := 77, x_root := 77, y_root := 77, state := 77,
    keycode := 77, same_screen := 77 }

/-! ## Reference definitions for the table lookups -/

/-- The first row of the table whose keysym equals `keysym`, if there is one. -/
def first_row_of_keysym (keysym : Nat) : Option (VirtualCode × Nat) :=
  uiocode_keysym_table.find? (fun row => decide (row.2 = keysym))

/-- The virtual code of the first row of the table whose keysym equals `keysym`, and
`VC_UNDEFINED` when no row has that keysym. -/
def first_code_of_keysym (H : Header) (keysym : Nat) : Nat :=
  match first_row_of_keysym keysym with
  | some row => H.code row.1
  | none => H.code VC_UNDEFINED

/-- The first row of the table whose virtual code has the value `uiocode`, if there is one. -/
def first_row_of_uiocode (H : Header) (uiocode : Nat) : Option (VirtualCode × Nat) :=
  uiocode_keysym_table.find? (fun row => decide (H.code row.1 = uiocode))

/-- The codes `VC_KP_0` .. `VC_KP_9` and `VC_KP_SEPARATOR`. -/
def keypad_numlock_codes (H : Header) : List Nat :=
  [H.code VC_KP_0, H.code VC_KP_1, H.code VC_KP_2, H.code VC_KP_3, H.code VC_KP_4,
   H.code VC_KP_5, H.code VC_KP_6, H.code VC_KP_7, H.code VC_KP_8, H.code VC_KP_9,
   H.code VC_KP_SEPARATOR]

/-- The keypad rule: `code` with `0xEE00` OR-ed in when the NumLock bit of `mask` is clear and
`code` is a keypad digit or separator code, and `code` itself otherwise. -/
def keypad_adjusted (H : Header) (mask code : Nat) : Nat :=
  if mask &&& H.MASK_NUM_LOCK = 0 ∧ code ∈ keypad_numlock_codes H then code ||| 0xEE00 else code

/-- Round trip of a virtual code: the keysym that the loop of `uiocode_to_keycode` selects for
`uiocode`, translated back by `keysym_to_uiocode`. -/
def uiocode_round_trip (H : Header) (X : Option Nat → Nat → Nat) (s : HelperState)
    (uiocode : Nat) : Nat :=
  keysym_to_uiocode H s (uiocode_to_keycode_run H X s uiocode).keysym

/-- The codes whose first row has a keysym that an earlier row of the table already carries under
another name: `XK_Kanji` stands in the rows of `VC_KANJI` and `VC_CONVERT`, and `XK_L1`, `XK_L6`,
`XK_L8`, `XK_L10` have the values of `XK_F11`, `XK_F16`, `XK_F18`, `XK_F20`. -/
def shadowed_codes (H : Header) : List Nat :=
  [H.code VC_CONVERT, H.code VC_SUN_STOP, H.code VC_SUN_COPY, H.code VC_SUN_PASTE,
   H.code VC_SUN_CUT]

/-- Round trip on names: the name of the first row that has the keysym of the first row named
`v`. -/
def name_round_trip (v : VirtualCode) : Option VirtualCode :=
  ((uiocode_keysym_table.find? (fun row => decide (row.1 = v))).bind
    (fun r => uiocode_keysym_table.find? (fun row => decide (row.2 = r.2)))).map Prod.fst

/-! ## Reference definitions for the UTF-8 to UTF-16 conversion -/

/-- The UTF-8 encoding of a code point up to `0x10FFFF` (RFC 3629), as byte values. -/
def utf8_encode (cp : Nat) : List Nat :=
  if cp < 0x80 then [cp]
  else if cp < 0x800 then [0xC0 + cp / 64, 0x80 + cp % 64]
  else if cp < 0x10000 then [0xE0 + cp / 4096, 0x80 + cp / 64 % 64, 0x80 + cp % 64]
  else [0xF0 + cp / 262144, 0x80 + cp / 4096 % 64, 0x80 + cp / 64 % 64, 0x80 + cp % 64]

/-- The code point a UTF-16 surrogate pair stands for. -/
def utf16_pair_value (lead trail : Nat) : Nat :=
  0x10000 + (lead - 0xD800) * 0x400 + (trail - 0xDC00)

/-! ## Reference definitions for the pointer-button remap -/

/-- The OS remap of a raw button: entry `button - 1` of the pointer mapping, and `button` itself
when it is `0` or beyond the size of the mapping. -/
def os_remap (pointer_map : List Nat) (button : Nat) : Nat :=
  if 0 < button ∧ button ≤ pointer_map.length then pointer_map.getD (button - 1) 0 else button

/-- The values 2 and 3 exchanged. -/
def exchange_2_3 (button : Nat) : Nat :=
  if button = 2 then 3 else if button = 3 then 2 else button

/-- The identity pointer mapping of `n` buttons: `[1, 2, .., n]`. -/
def identity_pointer_map (n : Nat) : List Nat :=
  List.range' 1 n

/-! ## Reference definitions for loading the helper -/

/-- The masks that `initialize_modifiers` can set: the eight modifier-key masks and the five
button masks. -/
def modifier_masks (H : Header) : List Nat :=
  [H.MASK_SHIFT_L, H.MASK_SHIFT_R, H.MASK_CTRL_L, H.MASK_CTRL_R, H.MASK_ALT_L, H.MASK_ALT_R,
   H.MASK_META_L, H.MASK_META_R, H.MASK_BUTTON1, H.MASK_BUTTON2, H.MASK_BUTTON3, H.MASK_BUTTON4,
   H.MASK_BUTTON5]

/-- The masks of `modifier_masks` are non-zero 16-bit values with no bit in common: each stands
for a bit field of its own in the modifier mask. -/
def modifier_masks_disjoint (H : Header) : Prop :=
  (∀ m ∈ modifier_masks H, m ≠ 0 ∧ m < 65536)
    ∧ (modifier_masks H).Pairwise (fun a b => a &&& b = 0)

/-- Whether the pointer state lets `initialize_modifiers` look at the keys behind the state bit
`gate`: the bit is set in the state that `XQueryPointer` returns, or `XQueryPointer` fails. -/
def pointer_gate (X : XKeyboard) (gate : Nat) : Prop :=
  match X.XQueryPointer with
  | some mask => mask &&& gate ≠ 0
  | none => True

/-- Whether the pointer state reports the button of the state bit `button` as held: `XQueryPointer`
succeeds and the bit is set in the state it returns. -/
def pointer_button (X : XKeyboard) (button : Nat) : Prop :=
  match X.XQueryPointer with
  | some mask => mask &&& button ≠ 0
  | none => False

/-! ## Reference definitions for the hook runtimes -/

/-- Whether a call of the Windows runtime is `dispatch_hook_enable`. -/
def is_hook_enable : Windows.Call → Bool
  | Windows.Call.dispatch_hook_enable _ => true
  | _ => false

/-- Whether a call of the Windows runtime is `dispatch_hook_disable`. -/
def is_hook_disable : Windows.Call → Bool
  | Windows.Call.dispatch_hook_disable _ => true
  | _ => false

/-- Whether a call of the Windows runtime is `dispatch_button_press` with the button index
`button`. -/
def is_press_of (button : Nat) : Windows.Call → Bool
  | Windows.Call.dispatch_button_press _ _ b => decide (b = button)
  | _ => false

/-- Whether a call of the Windows runtime is `dispatch_button_release` with the button index
`button`. -/
def is_release_of (button : Nat) : Windows.Call → Bool
  | Windows.Call.dispatch_button_release _ _ b => decide (b = button)
  | _ => false

/-- The calls that the mouse hook procedure makes over a sequence of mouse messages, each given by
its `wParam` and hook structure; no message is consumed and `nCode` is 0. -/
def mouse_messages_calls (H : Header) (st : Windows.HookState)
    (messages : List (Nat × Windows.MSLLHOOKSTRUCT)) : List Windows.Call :=
  (messages.map fun m => (Windows.mouse_hook_event_proc H st none 0 m.1 m.2 false 0).2).flatten

/-- The module handle that the Windows `hook_run` works with: `hInst` when it is set, otherwise
the answer of `GetModuleHandle`. -/
def run_module_handle (S : Windows.Server) (st : Windows.HookState) : Option Nat :=
  if st.hInst = none then S.GetModuleHandle else st.hInst

/-- The first calls of the Windows `hook_run`: `GetCurrentThreadId`, and `GetModuleHandle` when
`hInst` is not set. -/
def run_prologue (S : Windows.Server) (st : Windows.HookState) : List Windows.Call :=
  Windows.Call.GetCurrentThreadId S.GetCurrentThreadId
    :: (if st.hInst = none then [Windows.Call.GetModuleHandle S.GetModuleHandle] else [])

/-- The variables of the Windows runtime while the message loop runs: the thread id of the
caller, both hook handles as `SetWindowsHookEx` returned them, and the module handle. -/
def running_state (S : Windows.Server) (st : Windows.HookState) : Windows.HookState :=
  ⟨S.GetCurrentThreadId, S.SetWindowsHookEx_keyboard, S.SetWindowsHookEx_mouse,
    run_module_handle S st⟩

/-! ## Reference definitions for the hook procedures and the resources of a run -/

/-- Whether a call of the Windows runtime is `CallNextHookEx`. -/
def is_call_next : Windows.Call → Bool
  | Windows.Call.CallNextHookEx _ _ _ _ => true
  | _ => false

/-- Whether the dispatcher of the Windows keyboard hook procedure consumed the event: the message
is one that the procedure dispatches (`WM_KEYDOWN`, `WM_SYSKEYDOWN`, `WM_KEYUP`, `WM_SYSKEYUP`)
and the dispatcher answered `consumed`. -/
def keyboard_event_consumed (wParam : Nat) (consumed : Bool) : Bool :=
  decide (wParam ∈ [Windows.WM_KEYDOWN, Windows.WM_SYSKEYDOWN, Windows.WM_KEYUP,
    Windows.WM_SYSKEYUP]) && consumed

/-- Whether the dispatcher of the Windows mouse hook procedure consumed the event: the message is
one that the procedure dispatches and the dispatcher answered `consumed`. -/
def mouse_event_consumed (wParam : Nat) (consumed : Bool) : Bool :=
  decide (wParam ∈ [Windows.WM_LBUTTONDOWN, Windows.WM_RBUTTONDOWN, Windows.WM_MBUTTONDOWN,
    Windows.WM_XBUTTONDOWN, Windows.WM_NCXBUTTONDOWN, Windows.WM_LBUTTONUP, Windows.WM_RBUTTONUP,
    Windows.WM_MBUTTONUP, Windows.WM_XBUTTONUP, Windows.WM_NCXBUTTONUP, Windows.WM_MOUSEMOVE,
    Windows.WM_MOUSEWHEEL, Windows.WM_MOUSEHWHEEL]) && consumed

/-- Modelled from the spec: the Windows input helper is not among the sources, and the
Modifier-State Tracker is described as a process-wide 16-bit mask with the mutators `set(mask)`
and `clear(mask)`.  The mask after one call of the runtime: `set_modifier_mask` adds the bits of
its argument, `unset_modifier_mask` removes them, any other call leaves the mask. -/
def windows_mask_step (mask : Nat) : Windows.Call → Nat
  | Windows.Call.set_modifier_mask m => (mask ||| m) % 65536
  | Windows.Call.unset_modifier_mask m => (mask &&& (0xFFFFFFFF ^^^ m)) % 65536
  | _ => mask

/-- The modifier mask at the moment the first button dispatcher of `calls` is called, starting
from `mask`: the mutator calls before that dispatcher applied in order; `none` when `calls` has
no button dispatcher. -/
def windows_mask_at_button_dispatch (mask : Nat) : List Windows.Call → Option Nat
  | [] => none
  | Windows.Call.dispatch_button_press _ _ _ :: _ => some mask
  | Windows.Call.dispatch_button_release _ _ _ :: _ => some mask
  | c :: rest => windows_mask_at_button_dispatch (windows_mask_step mask c) rest

/-- The mask `MASK_BUTTON N` of a button index `N` in `1 .. 5`, and `0` for any other index. -/
def mask_of_button (H : Header) (button : Nat) : Nat :=
  if button = 1 then H.MASK_BUTTON1
  else if button = 2 then H.MASK_BUTTON2
  else if button = 3 then H.MASK_BUTTON3
  else if button = 4 then H.MASK_BUTTON4
  else if button = 5 then H.MASK_BUTTON5
  else 0

/-- The state bit `ButtonNMask` of `X11/X.h` for a pointer button `N` in `1 .. 5`. -/
def pointer_state_bit (button : Nat) : Nat :=
  1 <<< (7 + button)

/-- A resource that the X11 `hook_run` acquires: the hook structure, a display connection, the
record range, the record context, the button map of the input helper. -/
inductive Resource where
  | hook_structure
  | display (id : Nat)
  | range (id : Nat)
  | context (id : Nat)
  | button_table
  deriving DecidableEq, Repr

/-- Release of `r` under the discipline "last acquired, first released": `r` must be the resource
acquired last among those still held. -/
def release (r : Resource) : List Resource → Option (List Resource)
  | top :: rest => if top = r then some rest else none
  | [] => none

/-- The resources held after one call of the X11 runtime, the last acquired first; `none` when
the call releases something other than the resource acquired last, or releases `NULL`.  A
successful `load_input_helper` has allocated the button map; `unload_input_helper` releases it
when it frees a buffer. -/
def held_step (held : List Resource) : X11.Call → Option (List Resource)
  | X11.Call.malloc_hook (some _) => some (Resource.hook_structure :: held)
  | X11.Call.free_hook => release Resource.hook_structure held
  | X11.Call.XOpenDisplay (some d) => some (Resource.display d :: held)
  | X11.Call.XCloseDisplay (some d) => release (Resource.display d) held
  | X11.Call.XCloseDisplay none => none
  | X11.Call.XRecordAllocRange (some r) => some (Resource.range r :: held)
  | X11.Call.XFree (some r) => release (Resource.range r) held
  | X11.Call.XFree none => none
  | X11.Call.XRecordCreateContext _ _ _ c =>
    if c ≠ 0 then some (Resource.context c :: held) else some held
  | X11.Call.XRecordFreeContext _ c => release (Resource.context c) held
  | X11.Call.load_input_helper status =>
    if status = UIOHOOK_SUCCESS then some (Resource.button_table :: held) else some held
  | X11.Call.unload_input_helper (some _) => release Resource.button_table held
  | _ => some held

/-- The resources still held after the calls `calls`, starting with none held. -/
def held_after (calls : List X11.Call) : Option (List Resource) :=
  calls.foldlM held_step []

/-- The install step that a call of the X11 `hook_run` belongs to: 0 the allocation of the hook
structure, 1 a display open, 2 the XRecord version query, 3 the range allocation, 4 the context
creation, 5 the load of the input helper, 6 the context enable; `none` for any other call. -/
def install_step : X11.Call → Option Nat
  | X11.Call.malloc_hook _ => some 0
  | X11.Call.XOpenDisplay _ => some 1
  | X11.Call.XRecordQueryVersion _ _ => some 2
  | X11.Call.XRecordAllocRange _ => some 3
  | X11.Call.XRecordCreateContext _ _ _ _ => some 4
  | X11.Call.load_input_helper _ => some 5
  | X11.Call.XRecordEnableContext _ _ _ => some 6
  | _ => none

/-- The install steps attempted by the calls `calls`, in order. -/
def install_steps (calls : List X11.Call) : List Nat :=
  calls.filterMap install_step

/-- The timestamp that `hook_event_proc` passes on: the epoch time when it is configured, the
server time of the datum otherwise. -/
def datum_timestamp (epoch : Option Nat) (recorded_data : X11.XRecordInterceptData) : Nat :=
  match epoch with
  | some t => t
  | none => recorded_data.server_time

/-- The first install step of the X11 `hook_run` that fails on the server `S`, with the error code
that stands for that step, in the order of the steps: 0 the allocation of the hook structure
(out of memory), 1 the two display opens (open display), 2 the XRecord version query (record not
found), 3 the range allocation (alloc range), 4 the context creation (create context), 5 the load
of the input helper (its status, out of memory for the button map), 6 the context enable (enable
context); `none` when every step succeeds. -/
def first_failed_step (S : X11.Server) : Option (Nat × Status) :=
  if S.malloc_hook = none then some (0, UIOHOOK_ERROR_OUT_OF_MEMORY)
  else if S.XOpenDisplay_ctrl = none ∨ S.XOpenDisplay_data = none then
    some (1, UIOHOOK_ERROR_X_OPEN_DISPLAY)
  else if S.XRecordQueryVersion = false then some (2, UIOHOOK_ERROR_X_RECORD_NOT_FOUND)
  else if S.XRecordAllocRange = none then some (3, UIOHOOK_ERROR_X_RECORD_ALLOC_RANGE)
  else if S.XRecordCreateContext = 0 then some (4, UIOHOOK_ERROR_X_RECORD_CREATE_CONTEXT)
  else if S.malloc_button_table = none then some (5, UIOHOOK_ERROR_OUT_OF_MEMORY)
  else if S.XRecordEnableContext = false then some (6, UIOHOOK_ERROR_X_RECORD_ENABLE_CONTEXT)
  else none

/-- The install steps up to and with step `k`, in the order `hook_run` attempts them; step 1, the
display opens, stands twice, once for each display. -/
def steps_through (k : Nat) : List Nat :=
  [0, 1, 1, 2, 3, 4, 5, 6].filter fun i => decide (i ≤ k)

/-- Whether a call of the Windows runtime is `UnhookWindowsHookEx`. -/
def is_unhook : Windows.Call → Bool
  | Windows.Call.UnhookWindowsHookEx _ => true
  | _ => false

/-- Whether a call of the Windows runtime is `SetWindowsHookEx`. -/
def is_set_hook : Windows.Call → Bool
  | Windows.Call.SetWindowsHookEx _ _ _ => true
  | _ => false

/-! ## The table lookups -/

/-- The scan of `keysym_to_uiocode` ends with the code of the first matching row of the rows it
walks, or with the initial value. -/
theorem keysym_to_uiocode_loop_eq (H : Header) (keysym : Nat) (rows : List (VirtualCode × Nat))
    (init : Nat) :
    keysym_to_uiocode_loop H keysym rows init =
      match rows.find? (fun row => decide (row.2 = keysym)) with
      | some row => H.code row.1
      | none => init := by
  induction rows with
  | nil => rfl
  | cons row rest ih =>
    by_cases h : keysym = row.2
    · simp [keysym_to_uiocode_loop, List.find?, h, Nat.mod_eq_of_lt (H.code_lt row.1)]
    · have h' : ¬ row.2 = keysym := fun e => h e.symm
      simp [keysym_to_uiocode_loop, List.find?, h, h', ih]

/-- The scan of `keysym_to_uiocode` over the whole table computes `first_code_of_keysym`. -/
theorem keysym_to_uiocode_scan (H : Header) (keysym : Nat) :
    keysym_to_uiocode_loop H keysym uiocode_keysym_table (H.code VC_UNDEFINED % 65536) =
      first_code_of_keysym H keysym := by
  rw [keysym_to_uiocode_loop_eq, Nat.mod_eq_of_lt (H.code_lt _)]
  rfl

/-- OR-ing `0xEE00` into a 16-bit code stays within 16 bits. -/
theorem or_EE00_lt (c : Nat) (h : c < 65536) : (c ||| 0xEE00) % 65536 = c ||| 0xEE00 := by
  apply Nat.mod_eq_of_lt
  exact Nat.or_lt_two_pow (n := 16) h (by decide)

/-- The function `keysym_to_uiocode` is the keypad rule applied to the first matching row. -/
theorem keysym_to_uiocode_eq (H : Header) (s : HelperState) (keysym : Nat) :
    keysym_to_uiocode H s keysym
      = keypad_adjusted H s.modifier_mask (first_code_of_keysym H keysym) := by
  have hlt : first_code_of_keysym H keysym < 65536 := by
    unfold first_code_of_keysym
    split <;> exact H.code_lt _
  unfold keysym_to_uiocode keypad_adjusted
  simp only [keysym_to_uiocode_scan, get_modifiers, keypad_numlock_codes, List.mem_cons,
    List.mem_singleton, List.not_mem_nil, or_false]
  by_cases hm : s.modifier_mask &&& H.MASK_NUM_LOCK = 0
  · simp only [hm, if_true, true_and]
    split <;> rename_i h1
    · rw [if_pos (by tauto), or_EE00_lt _ hlt]
    · rw [if_neg (by tauto)]
  · simp [hm]

/-- C1: for every keysym and every modifier mask, `keysym_to_uiocode` returns the virtual code of
the first table row with that keysym (`VC_UNDEFINED` when there is none), with `0xEE00` OR-ed in
exactly when the NumLock bit of the mask is clear and that code is one of `VC_KP_0` .. `VC_KP_9`
or `VC_KP_SEPARATOR`, and unchanged otherwise; so `XK_KP_5` with NumLock off gives
`VC_KP_5 | 0xEE00`. -/
theorem keysym_to_uiocode_keypad_rule (H : Header) (s : HelperState) :
    (∀ keysym : Nat,
      keysym_to_uiocode H s keysym =
        if s.modifier_mask &&& H.MASK_NUM_LOCK = 0
            ∧ first_code_of_keysym H keysym ∈ keypad_numlock_codes H
        then first_code_of_keysym H keysym ||| 0xEE00
        else first_code_of_keysym H keysym)
    ∧ (s.modifier_mask &&& H.MASK_NUM_LOCK = 0 →
        keysym_to_uiocode H s XK_KP_5 = H.code VC_KP_5 ||| 0xEE00) := by
  refine ⟨fun keysym => ?_, fun hm => ?_⟩
  · rw [keysym_to_uiocode_eq]; rfl
  · rw [keysym_to_uiocode_eq]
    have h5 : first_code_of_keysym H XK_KP_5 = H.code VC_KP_5 := by
      simp [first_code_of_keysym, first_row_of_keysym, uiocode_keysym_table, List.find?]
    rw [h5, keypad_adjusted, if_pos ⟨hm, by simp [keypad_numlock_codes]⟩]

/-- Keypad 5 in the sample header: `0xEE65` with NumLock off, `0x65` with NumLock on. -/
theorem keysym_to_uiocode_kp5_sample :
    keysym_to_uiocode uiohook_h ⟨0, none, none⟩ XK_KP_5 = 0xEE65
    ∧ keysym_to_uiocode uiohook_h ⟨0x2000, none, none⟩ XK_KP_5 = 0x65 := by
  decide

/-- C3: a keysym that appears in no row of the table translates to `VC_UNDEFINED` in every
modifier-mask state.  The header value of `VC_UNDEFINED` is assumed not to be one of the keypad
digit or separator codes. -/
theorem keysym_to_uiocode_not_in_table (H : Header) (s : HelperState) (keysym : Nat)
    (hU : H.code VC_UNDEFINED ∉ keypad_numlock_codes H)
    (hk : ∀ row ∈ uiocode_keysym_table, row.2 ≠ keysym) :
    keysym_to_uiocode H s keysym = H.code VC_UNDEFINED := by
  have hnone : first_row_of_keysym keysym = none := by
    unfold first_row_of_keysym
    rw [List.find?_eq_none]
    intro row hrow
    simpa using hk row hrow
  have hcode : first_code_of_keysym H keysym = H.code VC_UNDEFINED := by
    simp [first_code_of_keysym, hnone]
  rw [keysym_to_uiocode_eq, hcode, keypad_adjusted, if_neg (fun h => hU h.2)]

/-- C3 at a concrete input: the keysym `0x12345` is in no row, and with the sample header it
translates to `VC_UNDEFINED` with the NumLock bit clear. -/
theorem keysym_to_uiocode_not_in_table_witness :
    keysym_to_uiocode uiohook_h ⟨0, none, none⟩ 0x12345 = uiohook_h.code VC_UNDEFINED :=
  keysym_to_uiocode_not_in_table uiohook_h ⟨0, none, none⟩ 0x12345 (by decide) (by decide)

/-- The loop of `uiocode_to_keycode` ends at the first row of the rows it walks whose code is
`uiocode`: it asks the X server once, for that row's keysym; with no such row the locals are
untouched. -/
theorem uiocode_to_keycode_loop_eq (H : Header) (X : Option Nat → Nat → Nat) (s : HelperState)
    (uiocode : Nat) (rows : List (VirtualCode × Nat)) (acc : KeycodeLookup) :
    uiocode_to_keycode_loop H X s uiocode rows acc =
      match rows.find? (fun row => decide (H.code row.1 = uiocode)) with
      | some row =>
        { keycode := X s.helper_disp row.2, keysym := row.2, queries := acc.queries ++ [row.2] }
      | none => acc := by
  induction rows with
  | nil => rfl
  | cons row rest ih =>
    by_cases h : uiocode = H.code row.1
    · simp [uiocode_to_keycode_loop, List.find?, h]
    · have h' : ¬ H.code row.1 = uiocode := fun e => h e.symm
      simp [uiocode_to_keycode_loop, List.find?, h, h', ih]

/-- The locals of `uiocode_to_keycode` in terms of the first row carrying the code. -/
theorem uiocode_to_keycode_run_eq (H : Header) (X : Option Nat → Nat → Nat) (s : HelperState)
    (uiocode : Nat) :
    uiocode_to_keycode_run H X s uiocode =
      match first_row_of_uiocode H uiocode with
      | some row => { keycode := X s.helper_disp row.2, keysym := row.2, queries := [row.2] }
      | none => { keycode := 0, keysym := NoSymbol, queries := [] } := by
  unfold uiocode_to_keycode_run first_row_of_uiocode
  rw [uiocode_to_keycode_loop_eq]
  split <;> simp

/-- C4: for every virtual code, `uiocode_to_keycode` takes the keysym of the first (lowest-index)
table row carrying that code and returns the keycode the X server gives for it, asking the server
only for that keysym; for a code in no row it returns `0` and asks the server nothing.  The
result does not depend on the modifier mask. -/
theorem uiocode_to_keycode_first_row (H : Header) (X : Option Nat → Nat → Nat) (s : HelperState)
    (uiocode : Nat) :
    (match first_row_of_uiocode H uiocode with
      | some row =>
        uiocode_to_keycode H X s uiocode = X s.helper_disp row.2
          ∧ (uiocode_to_keycode_run H X s uiocode).queries = [row.2]
      | none =>
        uiocode_to_keycode H X s uiocode = 0
          ∧ (uiocode_to_keycode_run H X s uiocode).queries = [])
    ∧ ∀ mask : Nat,
        uiocode_to_keycode H X { s with modifier_mask := mask } uiocode
          = uiocode_to_keycode H X s uiocode := by
  refine ⟨?_, fun mask => ?_⟩
  · unfold uiocode_to_keycode
    rw [uiocode_to_keycode_run_eq]
    split <;> simp
  · unfold uiocode_to_keycode
    rw [uiocode_to_keycode_run_eq, uiocode_to_keycode_run_eq]

/-- Two codes of the sample header through `uiocode_to_keycode`: `VC_ENTER` resolves through its
first row (`XK_Return`, not `XK_Linefeed`), and the value `0x1234`, which no row carries, gives `0`
with no query. -/
theorem uiocode_to_keycode_sample :
    uiocode_to_keycode_run uiohook_h (fun _ keysym => keysym % 256) ⟨0, some 1, none⟩ 0x000A
        = { keycode := 0x0d, keysym := XK_Return, queries := [XK_Return] }
    ∧ uiocode_to_keycode_run uiohook_h (fun _ keysym => keysym % 256) ⟨0, some 1, none⟩ 0x1234
        = { keycode := 0, keysym := NoSymbol, queries := [] } := by
  decide

/-- On names the round trip returns every name but the five shadowed ones. -/
theorem name_round_trip_eq (v : VirtualCode)
    (hv : v ∉ [VC_CONVERT, VC_SUN_STOP, VC_SUN_COPY, VC_SUN_PASTE, VC_SUN_CUT]) :
    name_round_trip v = some v := by
  cases v <;> first | rfl | simp at hv

/-- The first row with a given code value is also the first row with its own name. -/
theorem find?_name_of_find?_code (H : Header) (u : Nat) (rows : List (VirtualCode × Nat))
    (r : VirtualCode × Nat)
    (h : rows.find? (fun row => decide (H.code row.1 = u)) = some r) :
    rows.find? (fun row => decide (row.1 = r.1)) = some r := by
  induction rows with
  | nil => simp at h
  | cons x xs ih =>
    by_cases hx : H.code x.1 = u
    · simp [List.find?, hx] at h
      subst h
      simp [List.find?]
    · simp [List.find?, hx] at h
      have hr : H.code r.1 = u := by simpa using List.find?_some h
      have hne : ¬ x.1 = r.1 := fun e => hx (e ▸ hr)
      simp [List.find?, hne, ih h]

/-- C2, amended: for every virtual code of the table other than `VC_CONVERT`, `VC_SUN_STOP`,
`VC_SUN_COPY`, `VC_SUN_PASTE` and `VC_SUN_CUT`, the keysym of the first row of the code translates
back to the code itself when the NumLock bit is set or the code is not a keypad digit or separator
code, and to the code with `0xEE00` OR-ed in when NumLock is clear and it is one of those. -/
theorem uiocode_round_trip_amended (H : Header) (X : Option Nat → Nat → Nat) (s : HelperState)
    (uiocode : Nat)
    (hu : ∃ row ∈ uiocode_keysym_table, H.code row.1 = uiocode)
    (hs : uiocode ∉ shadowed_codes H) :
    uiocode_round_trip H X s uiocode =
      if s.modifier_mask &&& H.MASK_NUM_LOCK = 0 ∧ uiocode ∈ keypad_numlock_codes H
      then uiocode ||| 0xEE00 else uiocode := by
  obtain ⟨row, hrow, hcode⟩ := hu
  cases hfind : first_row_of_uiocode H uiocode with
  | none =>
    unfold first_row_of_uiocode at hfind
    rw [List.find?_eq_none] at hfind
    exact absurd hcode (by simpa using hfind row hrow)
  | some r =>
    have hr : H.code r.1 = uiocode := by
      unfold first_row_of_uiocode at hfind
      simpa using List.find?_some hfind
    have hname : r.1 ∉ [VC_CONVERT, VC_SUN_STOP, VC_SUN_COPY, VC_SUN_PASTE, VC_SUN_CUT] := by
      intro hmem
      apply hs
      simp only [List.mem_cons, List.mem_singleton, List.not_mem_nil, or_false] at hmem
      simp only [shadowed_codes, List.mem_cons, List.mem_singleton, List.not_mem_nil, or_false]
      rcases hmem with h | h | h | h | h <;> rw [← hr, h] <;> simp
    have hfirst : uiocode_keysym_table.find? (fun row => decide (row.1 = r.1)) = some r :=
      find?_name_of_find?_code H uiocode _ r hfind
    have hback := name_round_trip_eq r.1 hname
    unfold name_round_trip at hback
    rw [hfirst] at hback
    simp only [Option.some_bind, Option.map_eq_some', Prod.exists, exists_and_right,
      exists_eq_right] at hback
    obtain ⟨k, hk⟩ := hback
    have hcode' : first_code_of_keysym H r.2 = uiocode := by
      unfold first_code_of_keysym first_row_of_keysym
      rw [hk]
      exact hr
    unfold uiocode_round_trip
    rw [uiocode_to_keycode_run_eq, hfind, keysym_to_uiocode_eq]
    show keypad_adjusted H s.modifier_mask (first_code_of_keysym H r.2) = _
    rw [hcode']
    rfl

/-- C2 at a concrete input: `VC_A` of the sample header, with the NumLock bit set, goes to `XK_a`
and back to `VC_A`. -/
theorem uiocode_round_trip_amended_witness :
    uiocode_round_trip uiohook_h (fun _ keysym => keysym % 256) ⟨0x2000, some 1, none⟩ 0x0041
      = if 0x2000 &&& uiohook_h.MASK_NUM_LOCK = 0 ∧ 0x0041 ∈ keypad_numlock_codes uiohook_h
        then 0x0041 ||| 0xEE00 else 0x0041 :=
  uiocode_round_trip_amended uiohook_h (fun _ keysym => keysym % 256) ⟨0x2000, some 1, none⟩
    0x0041 ⟨(VC_A, XK_a), by decide, by decide⟩ (by decide)

/-- C2 as stated fails.  With the NumLock bit clear `VC_KP_5` goes to `XK_KP_5` and comes back as
`VC_KP_5 | 0xEE00`.  With the NumLock bit set `VC_CONVERT` goes to `XK_Kanji` and comes back as
`VC_KANJI`, and `VC_SUN_STOP`, `VC_SUN_COPY`, `VC_SUN_PASTE`, `VC_SUN_CUT` come back as `VC_F11`,
`VC_F16`, `VC_F18`, `VC_F20`.  All six codes appear in the table. -/
theorem uiocode_round_trip_counterexample :
    ((VC_KP_5, XK_KP_5) ∈ uiocode_keysym_table
      ∧ uiocode_round_trip uiohook_h (fun _ keysym => keysym % 256) ⟨0, some 1, none⟩
          (uiohook_h.code VC_KP_5) = uiohook_h.code VC_KP_5 ||| 0xEE00
      ∧ uiohook_h.code VC_KP_5 ||| 0xEE00 ≠ uiohook_h.code VC_KP_5)
    ∧ ((VC_CONVERT, XK_Kanji) ∈ uiocode_keysym_table
      ∧ uiocode_round_trip uiohook_h (fun _ keysym => keysym % 256) ⟨0x2000, some 1, none⟩
          (uiohook_h.code VC_CONVERT) = uiohook_h.code VC_KANJI
      ∧ uiohook_h.code VC_KANJI ≠ uiohook_h.code VC_CONVERT)
    ∧ ((VC_SUN_STOP, XK_L1) ∈ uiocode_keysym_table
      ∧ uiocode_round_trip uiohook_h (fun _ keysym => keysym % 256) ⟨0x2000, some 1, none⟩
          (uiohook_h.code VC_SUN_STOP) = uiohook_h.code VC_F11
      ∧ uiohook_h.code VC_F11 ≠ uiohook_h.code VC_SUN_STOP)
    ∧ ((VC_SUN_COPY, XK_L6) ∈ uiocode_keysym_table
      ∧ uiocode_round_trip uiohook_h (fun _ keysym => keysym % 256) ⟨0x2000, some 1, none⟩
          (uiohook_h.code VC_SUN_COPY) = uiohook_h.code VC_F16
      ∧ uiohook_h.code VC_F16 ≠ uiohook_h.code VC_SUN_COPY)
    ∧ ((VC_SUN_PASTE, XK_L8) ∈ uiocode_keysym_table
      ∧ uiocode_round_trip uiohook_h (fun _ keysym => keysym % 256) ⟨0x2000, some 1, none⟩
          (uiohook_h.code VC_SUN_PASTE) = uiohook_h.code VC_F18
      ∧ uiohook_h.code VC_F18 ≠ uiohook_h.code VC_SUN_PASTE)
    ∧ ((VC_SUN_CUT, XK_L10) ∈ uiocode_keysym_table
      ∧ uiocode_round_trip uiohook_h (fun _ keysym => keysym % 256) ⟨0x2000, some 1, none⟩
          (uiohook_h.code VC_SUN_CUT) = uiohook_h.code VC_F20
      ∧ uiohook_h.code VC_F20 ≠ uiohook_h.code VC_SUN_CUT) := by
  decide

/-! ## UTF-8 to UTF-16 -/

/-- Masking with `2^n - 1` on the left is the remainder modulo `2^n`. -/
theorem mask_and_eq_mod (n x : Nat) : (2 ^ n - 1) &&& x = x % 2 ^ n := by
  rw [Nat.and_comm, Nat.and_pow_two_sub_one_eq_mod]

/-- One step of the decoding loop in arithmetic form. -/
theorem decode_step_eq (c b : Nat) :
    ((c <<< 6) % 4294967296) ||| (0x3F &&& b) = (c * 64) % 4294967296 + b % 64 := by
  have h1 : (0x3F : Nat) &&& b = b % 64 := mask_and_eq_mod 6 b
  have h2 : (c <<< 6) % 4294967296 = 2 ^ 6 * (c % 67108864) := by
    rw [Nat.shiftLeft_eq]; omega
  have h3 : b % 64 < 2 ^ 6 := by omega
  rw [h1, h2, ← Nat.mul_add_lt_is_or h3]
  omega

/-- The entries of a buffer that starts with the list `bytes`. -/
theorem getElem?_of_take_eq (buffer bytes : List Nat) (h : buffer.take bytes.length = bytes)
    (i : Nat) (hi : i < bytes.length) : buffer[i]? = bytes[i]? := by
  rw [← List.getElem?_take_of_lt hi, h]

/-- The decoding step on a count of 1. -/
theorem utf8_decode_one (buffer : List Nat) (b0 : Nat) (h0 : buffer[0]? = some b0) :
    utf8_decode 1 buffer = some (b0 % 128) := by
  have m : (0x7F : Nat) &&& b0 = b0 % 128 := mask_and_eq_mod 7 b0
  simp only [utf8_decode, utf8_bitmask_table, h0]
  simp [m]

/-- The decoding step on a count of 2. -/
theorem utf8_decode_two (buffer : List Nat) (b0 b1 : Nat) (h0 : buffer[0]? = some b0)
    (h1 : buffer[1]? = some b1) :
    utf8_decode 2 buffer = some ((b0 % 32 * 64) % 4294967296 + b1 % 64) := by
  have m : (0x1F : Nat) &&& b0 = b0 % 32 := mask_and_eq_mod 5 b0
  have hs := decode_step_eq
  simp only [utf8_decode, utf8_bitmask_table, h0]
  simp [m, h1, List.range', hs]

/-- The decoding step on a count of 3. -/
theorem utf8_decode_three (buffer : List Nat) (b0 b1 b2 : Nat) (h0 : buffer[0]? = some b0)
    (h1 : buffer[1]? = some b1) (h2 : buffer[2]? = some b2) :
    utf8_decode 3 buffer
      = some (((b0 % 16 * 64) % 4294967296 + b1 % 64) * 64 % 4294967296 + b2 % 64) := by
  have m : (0x0F : Nat) &&& b0 = b0 % 16 := mask_and_eq_mod 4 b0
  have hs := decode_step_eq
  simp only [utf8_decode, utf8_bitmask_table, h0]
  simp [m, h1, h2, List.range', hs]

/-- The decoding step on a count of 4. -/
theorem utf8_decode_four (buffer : List Nat) (b0 b1 b2 b3 : Nat) (h0 : buffer[0]? = some b0)
    (h1 : buffer[1]? = some b1) (h2 : buffer[2]? = some b2) (h3 : buffer[3]? = some b3) :
    utf8_decode 4 buffer
      = some ((((b0 % 8 * 64) % 4294967296 + b1 % 64) * 64 % 4294967296 + b2 % 64) * 64
          % 4294967296 + b3 % 64) := by
  have m : (0x07 : Nat) &&& b0 = b0 % 8 := mask_and_eq_mod 3 b0
  have hs := decode_step_eq
  simp only [utf8_decode, utf8_bitmask_table, h0]
  simp [m, h1, h2, h3, List.range', hs]

/-- The decoding step of `event_to_unicode` inverts the UTF-8 encoding: on a buffer that starts
with the encoding of `cp`, with the length of the encoding as count, it yields `cp`. -/
theorem utf8_decode_encode (cp : Nat) (hcp : cp ≤ 0x10FFFF) (buffer : List Nat)
    (h : buffer.take (utf8_encode cp).length = utf8_encode cp) :
    utf8_decode (utf8_encode cp).length buffer = some cp := by
  have hb := getElem?_of_take_eq buffer (utf8_encode cp) h
  by_cases c1 : cp < 0x80
  · have e : utf8_encode cp = [cp] := by simp [utf8_encode, c1]
    rw [e] at hb ⊢
    rw [List.length_singleton, utf8_decode_one buffer cp ((hb 0 (by simp)).trans rfl)]
    congr 1; omega
  by_cases c2 : cp < 0x800
  · have e : utf8_encode cp = [0xC0 + cp / 64, 0x80 + cp % 64] := by simp [utf8_encode, c1, c2]
    rw [e] at hb ⊢
    rw [show [0xC0 + cp / 64, 0x80 + cp % 64].length = 2 from rfl,
      utf8_decode_two buffer (0xC0 + cp / 64) (0x80 + cp % 64) ((hb 0 (by simp)).trans rfl)
        ((hb 1 (by simp)).trans rfl)]
    congr 1; omega
  by_cases c3 : cp < 0x10000
  · have e : utf8_encode cp = [0xE0 + cp / 4096, 0x80 + cp / 64 % 64, 0x80 + cp % 64] := by
      simp [utf8_encode, c1, c2, c3]
    rw [e] at hb ⊢
    rw [show [0xE0 + cp / 4096, 0x80 + cp / 64 % 64, 0x80 + cp % 64].length = 3 from rfl,
      utf8_decode_three buffer (0xE0 + cp / 4096) (0x80 + cp / 64 % 64) (0x80 + cp % 64)
        ((hb 0 (by simp)).trans rfl) ((hb 1 (by simp)).trans rfl) ((hb 2 (by simp)).trans rfl)]
    congr 1; omega
  · have e : utf8_encode cp
        = [0xF0 + cp / 262144, 0x80 + cp / 4096 % 64, 0x80 + cp / 64 % 64, 0x80 + cp % 64] := by
      simp [utf8_encode, c1, c2, c3]
    rw [e] at hb ⊢
    rw [show [0xF0 + cp / 262144, 0x80 + cp / 4096 % 64, 0x80 + cp / 64 % 64,
        0x80 + cp % 64].length = 4 from rfl,
      utf8_decode_four buffer (0xF0 + cp / 262144) (0x80 + cp / 4096 % 64) (0x80 + cp / 64 % 64)
        (0x80 + cp % 64) ((hb 0 (by simp)).trans rfl) ((hb 1 (by simp)).trans rfl)
        ((hb 2 (by simp)).trans rfl) ((hb 3 (by simp)).trans rfl)]
    congr 1; omega

/-- The reference encoding on the boundary code points and on U+20AC, U+1F600. -/
theorem utf8_encode_sample :
    utf8_encode 0x7F = [0x7F] ∧ utf8_encode 0x80 = [0xC2, 0x80]
    ∧ utf8_encode 0x7FF = [0xDF, 0xBF] ∧ utf8_encode 0x800 = [0xE0, 0xA0, 0x80]
    ∧ utf8_encode 0x20AC = [0xE2, 0x82, 0xAC] ∧ utf8_encode 0xFFFF = [0xEF, 0xBF, 0xBF]
    ∧ utf8_encode 0x10000 = [0xF0, 0x90, 0x80, 0x80]
    ∧ utf8_encode 0x1F600 = [0xF0, 0x9F, 0x98, 0x80]
    ∧ utf8_encode 0x10FFFF = [0xF4, 0x8F, 0xBF, 0xBF] := by
  decide

/-- A property that every step of an `Option`-valued fold establishes holds of the result of the
fold. -/
theorem foldlM_option_invariant {α β : Type} (P : α → Prop) (f : α → β → Option α)
    (hf : ∀ a b r, f a b = some r → P r) (l : List β) (init r : α) (hinit : P init)
    (h : l.foldlM f init = some r) : P r := by
  induction l generalizing init with
  | nil =>
    simp only [List.foldlM, pure, Option.some.injEq] at h
    exact h ▸ hinit
  | cons b bs ih =>
    simp only [List.foldlM, bind, Option.bind] at h
    cases hfb : f init b with
    | none => simp [hfb] at h
    | some a =>
      simp only [hfb] at h
      exact ih a (hf init b a hfb) h

/-- Every code point the decoding step produces fits the `uint32_t` it is kept in. -/
theorem utf8_decode_lt (count : Nat) (buffer : List Nat) (cp : Nat)
    (h : utf8_decode count buffer = some cp) : cp < 4294967296 := by
  unfold utf8_decode at h
  simp only [bind, Option.bind] at h
  cases hm : utf8_bitmask_table[count]? with
  | none => simp [hm] at h
  | some first_mask =>
    cases hb : buffer[0]? with
    | none => simp [hm, hb] at h
    | some first =>
      simp only [hm, hb] at h
      have hmask : first_mask ≤ 127 := by
        have hmem := List.getElem?_mem hm
        simp only [utf8_bitmask_table, List.mem_cons, List.mem_singleton, List.not_mem_nil,
          or_false] at hmem
        omega
      refine foldlM_option_invariant (fun c => c < 4294967296) _ ?_ _ _ cp ?_ h
      · intro a b r hr
        cases h0 : utf8_bitmask_table[0]? with
        | none => simp [h0] at hr
        | some mask =>
          cases hbb : buffer[b]? with
          | none => simp [h0, hbb] at hr
          | some byte =>
            simp only [h0, hbb, pure, Option.some.injEq] at hr
            have hmask0 : mask = 63 := by
              simpa [utf8_bitmask_table] using h0.symm
            subst hr
            apply Nat.or_lt_two_pow (n := 32)
            · exact Nat.mod_lt _ (by decide)
            · exact Nat.lt_of_le_of_lt Nat.and_le_left (by omega)
      · exact Nat.lt_of_le_of_lt Nat.and_le_left (by omega)

/-- The conversion block of `event_to_unicode` once the bytes decode to `cp`, for a non-`NULL`
buffer of non-zero length. -/
theorem event_to_unicode_convert_decoded (r : LookupReturn) (units : List Nat) (length cp : Nat)
    (hcount : 0 < r.count) (hlen : 0 < length)
    (hdec : utf8_decode r.count r.buffer = some cp) :
    event_to_unicode_convert r (some units) length =
      if cp ≤ 0xFFFF then
        some { count := 1, surrogate := some (units.set 0 cp), keysym := r.keysym }
      else if 1 < length then
        some { count := 2,
               surrogate := some ((units.set 0 ((0xD7C0 + cp / 1024) % 4294967296)).set 1
                 ((0xDC00 + cp % 1024) % 4294967296)),
               keysym := r.keysym }
      else some { count := 0, surrogate := some units, keysym := r.keysym } := by
  have hl : ¬ length = 0 := by omega
  have e1 : cp >>> 10 = cp / 1024 := Nat.shiftRight_eq_div_pow cp 10
  have e2 : cp &&& 0x3FF = cp % 1024 := Nat.and_pow_two_sub_one_eq_mod cp 10
  have e3 : (0x10000 : Nat) >>> 10 = 64 := by decide
  unfold event_to_unicode_convert
  simp only [hcount, if_true, hl, if_false, hdec, bind, Option.bind, pure, e1, e2, e3]

/-- C5: for every Unicode scalar value `cp` in `[0, 0x10FFFF]` outside `[0xD800, 0xDFFF]`, when the
lookup of `event_to_unicode` yields the UTF-8 encoding of `cp` (1 to 4 bytes) and the output
buffer holds at least 2 units, the function outputs the UTF-16 encoding of `cp`: one unit equal to
`cp` when `cp <= 0xFFFF`, and otherwise a lead and a trail surrogate that decode back to `cp`. -/
theorem event_to_unicode_utf16 (X : XInputMethod) (x_event : XKeyEvent) (units : List Nat)
    (length cp : Nat)
    (hcp : cp ≤ 0x10FFFF) (_hsur : ¬ (0xD800 ≤ cp ∧ cp ≤ 0xDFFF))
    (hcount : (event_to_unicode_lookup X x_event).count = (utf8_encode cp).length)
    (hbytes : (event_to_unicode_lookup X x_event).buffer.take (utf8_encode cp).length
      = utf8_encode cp)
    (hlen : 2 ≤ length) (hunits : length ≤ units.length) :
    ∃ r, event_to_unicode X x_event (some units) length = some r
      ∧ (cp ≤ 0xFFFF → r.count = 1 ∧ r.surrogate.map (List.take 1) = some [cp])
      ∧ (0xFFFF < cp → r.count = 2
          ∧ ∃ lead trail, r.surrogate.map (List.take 2) = some [lead, trail]
            ∧ 0xD800 ≤ lead ∧ lead ≤ 0xDBFF ∧ 0xDC00 ≤ trail ∧ trail ≤ 0xDFFF
            ∧ utf16_pair_value lead trail = cp) := by
  have hdec := utf8_decode_encode cp hcp _ hbytes
  rw [← hcount] at hdec
  have hpos : 0 < (event_to_unicode_lookup X x_event).count := by
    rw [hcount]; unfold utf8_encode; split_ifs <;> simp
  obtain ⟨u0, u1, rest, rfl⟩ : ∃ u0 u1 rest, units = u0 :: u1 :: rest := by
    match units, hunits with
    | u0 :: u1 :: rest, _ => exact ⟨u0, u1, rest, rfl⟩
    | [_], h => simp at h; omega
    | [], h => simp at h; omega
  unfold event_to_unicode
  rw [event_to_unicode_convert_decoded _ _ length cp hpos (by omega) hdec]
  by_cases hs : cp ≤ 0xFFFF
  · refine ⟨_, by rw [if_pos hs], fun _ => ⟨rfl, by simp⟩, fun h => by omega⟩
  · refine ⟨_, by rw [if_neg hs, if_pos (by omega)], fun h => absurd h hs, fun _ => ⟨rfl, ?_⟩⟩
    refine ⟨(0xD7C0 + cp / 1024) % 4294967296, (0xDC00 + cp % 1024) % 4294967296, by simp, ?_⟩
    unfold utf16_pair_value
    omega

/-- C5 at a concrete input: the lookup yields `E2 82 AC`, the UTF-8 encoding of U+20AC, and the
function returns the single unit `0x20AC`. -/
theorem event_to_unicode_utf16_witness :
    ∃ r, event_to_unicode (sample_input_method 3 [0xE2, 0x82, 0xAC]) (sample_key_event KeyPress)
          (some [0, 0]) 2 = some r
      ∧ (0x20AC ≤ 0xFFFF → r.count = 1 ∧ r.surrogate.map (List.take 1) = some [0x20AC])
      ∧ (0xFFFF < 0x20AC → r.count = 2
          ∧ ∃ lead trail, r.surrogate.map (List.take 2) = some [lead, trail]
            ∧ 0xD800 ≤ lead ∧ lead ≤ 0xDBFF ∧ 0xDC00 ≤ trail ∧ trail ≤ 0xDFFF
            ∧ utf16_pair_value lead trail = 0x20AC) :=
  event_to_unicode_utf16 (sample_input_method 3 [0xE2, 0x82, 0xAC]) (sample_key_event KeyPress)
    [0, 0] 2 0x20AC (by decide) (by decide) (by decide) (by decide) (by decide) (by decide)

/-- C6: for every code point `cp > 0xFFFF` that the decoding step produces and an output buffer of
at least 2 units, `event_to_unicode` returns 2 code units, `0xD800 + ((cp - 0x10000) >> 10)` and
`0xDC00 + (cp & 0x3FF)`. -/
theorem event_to_unicode_surrogate_pair (X : XInputMethod) (x_event : XKeyEvent)
    (units : List Nat) (length cp : Nat)
    (hcount : 0 < (event_to_unicode_lookup X x_event).count)
    (hdec : utf8_decode (event_to_unicode_lookup X x_event).count
      (event_to_unicode_lookup X x_event).buffer = some cp)
    (hcp : 0xFFFF < cp) (hlen : 2 ≤ length) (hunits : length ≤ units.length) :
    ∃ r, event_to_unicode X x_event (some units) length = some r
      ∧ r.count = 2
      ∧ r.surrogate.map (List.take 2)
          = some [0xD800 + ((cp - 0x10000) >>> 10), 0xDC00 + (cp &&& 0x3FF)] := by
  have hlt := utf8_decode_lt _ _ cp hdec
  have e1 : (cp - 0x10000) >>> 10 = (cp - 0x10000) / 1024 := Nat.shiftRight_eq_div_pow _ 10
  have e2 : cp &&& 0x3FF = cp % 1024 := Nat.and_pow_two_sub_one_eq_mod cp 10
  obtain ⟨u0, u1, rest, rfl⟩ : ∃ u0 u1 rest, units = u0 :: u1 :: rest := by
    match units, hunits with
    | u0 :: u1 :: rest, _ => exact ⟨u0, u1, rest, rfl⟩
    | [_], h => simp at h; omega
    | [], h => simp at h; omega
  unfold event_to_unicode
  rw [event_to_unicode_convert_decoded _ _ length cp hcount (by omega) hdec,
    if_neg (by omega), if_pos (by omega)]
  refine ⟨_, rfl, rfl, ?_⟩
  rw [e1, e2]
  have l1 : (0xD7C0 + cp / 1024) % 4294967296 = 0xD800 + (cp - 0x10000) / 1024 := by omega
  have l2 : (0xDC00 + cp % 1024) % 4294967296 = 0xDC00 + cp % 1024 := by omega
  simp [l1, l2]

/-- C6 at a concrete input: the lookup yields `F0 9F 98 80`, which decodes to `0x1F600`, and the
function returns the pair `0xD83D`, `0xDE00`. -/
theorem event_to_unicode_surrogate_pair_witness :
    ∃ r, event_to_unicode (sample_input_method 4 [0xF0, 0x9F, 0x98, 0x80])
          (sample_key_event KeyPress) (some [0, 0]) 2 = some r
      ∧ r.count = 2
      ∧ r.surrogate.map (List.take 2)
          = some [0xD800 + ((0x1F600 - 0x10000) >>> 10), 0xDC00 + (0x1F600 &&& 0x3FF)] :=
  event_to_unicode_surrogate_pair (sample_input_method 4 [0xF0, 0x9F, 0x98, 0x80])
    (sample_key_event KeyPress) [0, 0] 2 0x1F600 (by decide) (by decide) (by decide) (by decide)
    (by decide)

/-- The code point `0x1F600` comes out of `event_to_unicode` as the units `0xD83D`, `0xDE00`. -/
theorem event_to_unicode_U1F600 :
    event_to_unicode (sample_input_method 4 [0xF0, 0x9F, 0x98, 0x80]) (sample_key_event KeyPress)
      (some [0, 0]) 2 = some { count := 2, surrogate := some [0xD83D, 0xDE00], keysym := 0x61 } := by
  decide

/-- C7 as stated fails: for a `KeyRelease` event whose `XLookupString` lookup returns the one byte
`0x61`, `event_to_unicode` returns 1 code unit, `0x61`. -/
theorem event_to_unicode_key_release_counterexample :
    (sample_key_event KeyRelease).type = KeyRelease
    ∧ ((sample_input_method 1 [0x61]).XLookupString (sample_key_event KeyRelease)).count = 1
    ∧ event_to_unicode (sample_input_method 1 [0x61]) (sample_key_event KeyRelease)
        (some [0, 0]) 2 = some { count := 1, surrogate := some [0x61, 0], keysym := 0x61 } := by
  decide

/-- C7, amended: for every key event whose type is `KeyRelease`, `event_to_unicode` opens no input
method and no input context and converts what `XLookupString` returns for the event; it returns 0
code units, leaving the buffer as it was, when `XLookupString` returns no bytes. -/
theorem event_to_unicode_key_release (X : XInputMethod) (x_event : XKeyEvent)
    (surrogate : Option (List Nat)) (length : Nat) (hev : x_event.type = KeyRelease) :
    event_to_unicode_xim X x_event = none
    ∧ event_to_unicode_xic X x_event = none
    ∧ event_to_unicode X x_event surrogate length
        = event_to_unicode_convert (X.XLookupString x_event) surrogate length
    ∧ ((X.XLookupString x_event).count = 0 →
        event_to_unicode X x_event surrogate length
          = some { count := 0, surrogate := surrogate,
                   keysym := (X.XLookupString x_event).keysym }) := by
  have hne : ¬ x_event.type = KeyPress := by rw [hev]; decide
  have hxim : event_to_unicode_xim X x_event = none := by simp [event_to_unicode_xim, hne]
  have hxic : event_to_unicode_xic X x_event = none := by simp [event_to_unicode_xic, hne]
  have hlookup : event_to_unicode_lookup X x_event = X.XLookupString x_event := by
    simp [event_to_unicode_lookup, hxic]
  refine ⟨hxim, hxic, ?_, ?_⟩
  · rw [event_to_unicode, hlookup]
  · intro h0
    rw [event_to_unicode, hlookup]
    simp [event_to_unicode_convert, h0]

/-- C7 at a concrete input: a `KeyRelease` event for which `XLookupString` returns no bytes. -/
theorem event_to_unicode_key_release_witness :
    event_to_unicode_xim (sample_input_method 0 []) (sample_key_event KeyRelease) = none
    ∧ event_to_unicode_xic (sample_input_method 0 []) (sample_key_event KeyRelease) = none
    ∧ event_to_unicode (sample_input_method 0 []) (sample_key_event KeyRelease) (some [0, 0]) 2
        = event_to_unicode_convert
            ((sample_input_method 0 []).XLookupString (sample_key_event KeyRelease))
            (some [0, 0]) 2
    ∧ (((sample_input_method 0 []).XLookupString (sample_key_event KeyRelease)).count = 0 →
        event_to_unicode (sample_input_method 0 []) (sample_key_event KeyRelease) (some [0, 0]) 2
          = some { count := 0, surrogate := some [0, 0],
                   keysym :=
                    ((sample_input_method 0 []).XLookupString (sample_key_event KeyRelease)).keysym }) :=
  event_to_unicode_key_release (sample_input_method 0 []) (sample_key_event KeyRelease)
    (some [0, 0]) 2 (by decide)

/-- C8: when the lookup produced text but the output cannot hold it, `event_to_unicode` returns 0
code units and leaves the buffer as it was: with a `NULL` buffer or a length of 0, and with a
decoded code point above `0xFFFF` and a length of 1. -/
theorem event_to_unicode_no_room (X : XInputMethod) (x_event : XKeyEvent)
    (surrogate : Option (List Nat)) (length : Nat)
    (hcount : 0 < (event_to_unicode_lookup X x_event).count) :
    (surrogate = none ∨ length = 0 →
      event_to_unicode X x_event surrogate length
        = some { count := 0, surrogate := surrogate,
                 keysym := (event_to_unicode_lookup X x_event).keysym })
    ∧ (∀ units cp, surrogate = some units → length = 1 →
        utf8_decode (event_to_unicode_lookup X x_event).count
          (event_to_unicode_lookup X x_event).buffer = some cp →
        0xFFFF < cp →
        event_to_unicode X x_event surrogate length
          = some { count := 0, surrogate := some units,
                   keysym := (event_to_unicode_lookup X x_event).keysym }) := by
  refine ⟨fun h => ?_, fun units cp hs hl hdec hcp => ?_⟩
  · unfold event_to_unicode event_to_unicode_convert
    rw [if_pos hcount]
    cases surrogate with
    | none => rfl
    | some units =>
      have hl : length = 0 := by simpa using h
      simp [hl]
  · subst hs hl
    unfold event_to_unicode
    rw [event_to_unicode_convert_decoded _ _ 1 cp hcount (by omega) hdec,
      if_neg (by omega), if_neg (by omega)]

/-- C8 at a concrete input: the lookup yields the four bytes of U+1F600 and the buffer holds one
unit. -/
theorem event_to_unicode_no_room_witness :
    (some [5] = (none : Option (List Nat)) ∨ 1 = 0 →
      event_to_unicode (sample_input_method 4 [0xF0, 0x9F, 0x98, 0x80])
          (sample_key_event KeyPress) (some [5]) 1
        = some { count := 0, surrogate := some [5],
                 keysym := (event_to_unicode_lookup (sample_input_method 4 [0xF0, 0x9F, 0x98, 0x80])
                   (sample_key_event KeyPress)).keysym })
    ∧ (∀ units cp, some [5] = some units → 1 = 1 →
        utf8_decode
          (event_to_unicode_lookup (sample_input_method 4 [0xF0, 0x9F, 0x98, 0x80])
            (sample_key_event KeyPress)).count
          (event_to_unicode_lookup (sample_input_method 4 [0xF0, 0x9F, 0x98, 0x80])
            (sample_key_event KeyPress)).buffer = some cp →
        0xFFFF < cp →
        event_to_unicode (sample_input_method 4 [0xF0, 0x9F, 0x98, 0x80])
            (sample_key_event KeyPress) (some [5]) 1
          = some { count := 0, surrogate := some units,
                   keysym := (event_to_unicode_lookup
                     (sample_input_method 4 [0xF0, 0x9F, 0x98, 0x80])
                     (sample_key_event KeyPress)).keysym }) :=
  event_to_unicode_no_room (sample_input_method 4 [0xF0, 0x9F, 0x98, 0x80])
    (sample_key_event KeyPress) (some [5]) 1 (by decide)

/-- The three cases of C8 evaluated: the bytes of U+1F600 with a `NULL` buffer, with length 0 and
with length 1 all give 0 code units. -/
theorem event_to_unicode_no_room_sample :
    event_to_unicode (sample_input_method 4 [0xF0, 0x9F, 0x98, 0x80]) (sample_key_event KeyPress)
        none 2 = some { count := 0, surrogate := none, keysym := 0x61 }
    ∧ event_to_unicode (sample_input_method 4 [0xF0, 0x9F, 0x98, 0x80])
        (sample_key_event KeyPress) (some [5, 6]) 0
          = some { count := 0, surrogate := some [5, 6], keysym := 0x61 }
    ∧ event_to_unicode (sample_input_method 4 [0xF0, 0x9F, 0x98, 0x80])
        (sample_key_event KeyPress) (some [5]) 1
          = some { count := 0, surrogate := some [5], keysym := 0x61 } := by
  decide

/-! ## Pointer buttons -/

/-- Exchanging 2 and 3 keeps a byte a byte. -/
theorem exchange_2_3_lt (x : Nat) (h : x < 256) : exchange_2_3 x < 256 := by
  unfold exchange_2_3
  split_ifs <;> omega

/-- The tail of `button_map_lookup`: the exchange of `Button2` and `Button3` and the return as a
`uint8_t`, for a byte. -/
theorem button_map_lookup_tail (x : Nat) (h : x < 256) :
    (if x = Button2 then Button3 else if x = Button3 then Button2 else x) % 256
      = exchange_2_3 x := by
  have := exchange_2_3_lt x h
  unfold exchange_2_3 at this ⊢
  exact Nat.mod_eq_of_lt this

/-- The OS remap of a byte through a mapping of bytes is a byte. -/
theorem os_remap_lt (pointer_map : List Nat) (button : Nat) (hb : button < 256)
    (hmap : ∀ x ∈ pointer_map, x < 256) : os_remap pointer_map button < 256 := by
  unfold os_remap
  split
  · rename_i h
    have hi : button - 1 < pointer_map.length := by omega
    rw [List.getD_eq_getElem?_getD, List.getElem?_eq_getElem hi]
    exact hmap _ (List.getElem_mem _)
  · exact hb

/-- The identity mapping sends every button to itself. -/
theorem os_remap_identity (n button : Nat) : os_remap (identity_pointer_map n) button = button := by
  unfold os_remap identity_pointer_map
  split
  · rename_i h
    rw [List.length_range'] at h
    have hi : button - 1 < (List.range' 1 n).length := by rw [List.length_range']; omega
    rw [List.getD_eq_getElem?_getD, List.getElem?_eq_getElem hi, List.getElem_range']
    simp only [Option.getD_some]
    omega
  · rfl

/-- C9 as stated fails: with `helper_disp` `NULL` and the OS mapping `[3, 2, 1]`,
`button_map_lookup(1)` is `1`, while the OS remap of `1` is `3` and the exchange makes it `2`. -/
theorem button_map_lookup_counterexample :
    (button_map_lookup [3, 2, 1] ⟨0, none, some (List.replicate 256 0)⟩ 1).1 = 1
    ∧ exchange_2_3 (os_remap [3, 2, 1] 1) = 2 := by
  decide

/-- C9, amended: when the helper display is open and the button-map buffer is allocated,
`button_map_lookup` returns the OS remap of the raw button (the button itself when it is `0` or
beyond the map size) with the values 2 and 3 exchanged; when either is unavailable it returns the
raw button with 2 and 3 exchanged.  With an identity OS mapping, in every state, it returns 3 for
2, 2 for 3 and every other button unchanged. -/
theorem button_map_lookup_remap (pointer_map : List Nat) (s : HelperState) (button : Nat)
    (hb : button < 256) (hmap : ∀ x ∈ pointer_map, x < 256) :
    (s.helper_disp ≠ none → s.mouse_button_table ≠ none →
      (button_map_lookup pointer_map s button).1 = exchange_2_3 (os_remap pointer_map button))
    ∧ (s.helper_disp = none ∨ s.mouse_button_table = none →
      (button_map_lookup pointer_map s button).1 = exchange_2_3 button)
    ∧ (∀ n, pointer_map = identity_pointer_map n →
      (button_map_lookup pointer_map s button).1
        = if button = 2 then 3 else if button = 3 then 2 else button) := by
  have hmod : button % 256 = button := Nat.mod_eq_of_lt hb
  have hopen : s.helper_disp ≠ none → s.mouse_button_table ≠ none →
      (button_map_lookup pointer_map s button).1
        = exchange_2_3 (os_remap pointer_map button) := by
    intro hd ht
    obtain ⟨d, hd⟩ := Option.ne_none_iff_exists'.mp hd
    obtain ⟨t, ht⟩ := Option.ne_none_iff_exists'.mp ht
    unfold button_map_lookup
    simp only [hd, ht, hmod]
    rw [← button_map_lookup_tail _ (os_remap_lt pointer_map button hb hmap)]
    unfold os_remap
    by_cases hin : 0 < button ∧ button ≤ pointer_map.length
    · have h1 : button - 1 < (List.take BUTTON_TABLE_MAX pointer_map).length := by
        rw [List.length_take]; simp only [BUTTON_TABLE_MAX]; omega
      have h2 : button - 1 < pointer_map.length := by omega
      simp only [hin, and_self, if_true, List.getD_eq_getElem?_getD,
        List.getElem?_append_left h1]
      rw [List.getElem?_take_of_lt (by simp only [BUTTON_TABLE_MAX]; omega)]
    · simp only [hin, if_false]
  have hclosed : s.helper_disp = none ∨ s.mouse_button_table = none →
      (button_map_lookup pointer_map s button).1 = exchange_2_3 button := by
    intro h
    unfold button_map_lookup
    rw [← button_map_lookup_tail _ hb]
    rcases h with h | h
    · simp only [h, hmod]
    · cases hd : s.helper_disp <;> simp only [h, hmod]
  refine ⟨hopen, hclosed, fun n hn => ?_⟩
  have hid : os_remap pointer_map button = button := by rw [hn, os_remap_identity]
  have hex : exchange_2_3 button = if button = 2 then 3 else if button = 3 then 2 else button :=
    rfl
  by_cases hd : s.helper_disp = none
  · rw [hclosed (Or.inl hd), hex]
  · by_cases ht : s.mouse_button_table = none
    · rw [hclosed (Or.inr ht), hex]
    · rw [hopen hd ht, hid, hex]

/-- C9 at a concrete input: button 1 under the OS mapping `[3, 2, 1]` with the display open and
the buffer allocated. -/
theorem button_map_lookup_remap_witness :
    ((some 1 : Option Nat) ≠ none → (some (List.replicate 256 0) : Option (List Nat)) ≠ none →
      (button_map_lookup [3, 2, 1] ⟨0, some 1, some (List.replicate 256 0)⟩ 1).1
        = exchange_2_3 (os_remap [3, 2, 1] 1))
    ∧ ((some 1 : Option Nat) = none ∨ (some (List.replicate 256 0) : Option (List Nat)) = none →
      (button_map_lookup [3, 2, 1] ⟨0, some 1, some (List.replicate 256 0)⟩ 1).1
        = exchange_2_3 1)
    ∧ (∀ n, [3, 2, 1] = identity_pointer_map n →
      (button_map_lookup [3, 2, 1] ⟨0, some 1, some (List.replicate 256 0)⟩ 1).1
        = if 1 = 2 then 3 else if 1 = 3 then 2 else 1) :=
  button_map_lookup_remap [3, 2, 1] ⟨0, some 1, some (List.replicate 256 0)⟩ 1 (by decide)
    (by decide)

/-- Buttons 1 to 3 under an identity mapping of five buttons and under the mapping `[3, 2, 1]`,
with the display open and the buffer allocated. -/
theorem button_map_lookup_sample :
    (button_map_lookup [1, 2, 3, 4, 5] ⟨0, some 1, some (List.replicate 256 0)⟩ 2).1 = 3
    ∧ (button_map_lookup [1, 2, 3, 4, 5] ⟨0, some 1, some (List.replicate 256 0)⟩ 3).1 = 2
    ∧ (button_map_lookup [1, 2, 3, 4, 5] ⟨0, some 1, some (List.replicate 256 0)⟩ 1).1 = 1
    ∧ (button_map_lookup [1, 2, 3, 4, 5] ⟨0, some 1, some (List.replicate 256 0)⟩ 9).1 = 9
    ∧ (button_map_lookup [3, 2, 1] ⟨0, some 1, some (List.replicate 256 0)⟩ 1).1 = 2
    ∧ (button_map_lookup [3, 2, 1] ⟨0, some 1, some (List.replicate 256 0)⟩ 3).1 = 1 := by
  decide

/-! ## Modifier mask -/

/-- The mask that `unset_modifier_mask` stores, bit by bit: a bit stays set exactly when it was set
and is not in `mask`. -/
theorem unset_modifier_mask_testBit (s : HelperState) (mask : Nat)
    (hs : s.modifier_mask < 65536) (i : Nat) :
    (get_modifiers (unset_modifier_mask s mask)).testBit i
      = (s.modifier_mask.testBit i && !mask.testBit i) := by
  have h32 : (0xFFFFFFFF : Nat) = 2 ^ 32 - 1 := by decide
  have h16 : (65536 : Nat) = 2 ^ 16 := by decide
  unfold get_modifiers unset_modifier_mask
  simp only [h32, h16, Nat.testBit_mod_two_pow, Nat.testBit_and, Nat.testBit_xor,
    Nat.testBit_two_pow_sub_one]
  by_cases hi : i < 16
  · have hi' : i < 32 := by omega
    simp [hi, hi']
  · have hbit : s.modifier_mask.testBit i = false := by
      apply Nat.testBit_lt_two_pow
      calc s.modifier_mask < 2 ^ 16 := by rw [← h16]; exact hs
        _ ≤ 2 ^ i := Nat.pow_le_pow_right (by decide) (by omega)
    simp [hi, hbit]

/-- C10: for every 16-bit tracker state `s` and mask `m`, `get_modifiers` after
`set_modifier_mask(m)` returns `s | m`, and after `unset_modifier_mask(m)` it returns `s & ~m`
(the 16-bit complement); a bit outside `m` keeps its value under both, and neither touches
anything but the mask, which `get_modifiers` only reads. -/
theorem modifier_mask_set_unset_get (s : HelperState) (m : Nat)
    (hs : s.modifier_mask < 65536) (hm : m < 65536) :
    get_modifiers (set_modifier_mask s m) = s.modifier_mask ||| m
    ∧ get_modifiers (unset_modifier_mask s m) = s.modifier_mask &&& (0xFFFF ^^^ m)
    ∧ (∀ i, (get_modifiers (unset_modifier_mask s m)).testBit i
        = (s.modifier_mask.testBit i && !m.testBit i))
    ∧ (∀ i, m.testBit i = false →
        (get_modifiers (set_modifier_mask s m)).testBit i = s.modifier_mask.testBit i
        ∧ (get_modifiers (unset_modifier_mask s m)).testBit i = s.modifier_mask.testBit i)
    ∧ set_modifier_mask s m = { s with modifier_mask := get_modifiers (set_modifier_mask s m) }
    ∧ unset_modifier_mask s m
        = { s with modifier_mask := get_modifiers (unset_modifier_mask s m) } := by
  have hset : get_modifiers (set_modifier_mask s m) = s.modifier_mask ||| m := by
    unfold get_modifiers set_modifier_mask
    exact Nat.mod_eq_of_lt (Nat.or_lt_two_pow (n := 16) hs hm)
  have hbits := unset_modifier_mask_testBit s m hs
  refine ⟨hset, ?_, hbits, fun i hi => ⟨?_, ?_⟩, rfl, rfl⟩
  · apply Nat.eq_of_testBit_eq
    intro i
    rw [hbits i]
    have h16 : (0xFFFF : Nat) = 2 ^ 16 - 1 := by decide
    simp only [h16, Nat.testBit_and, Nat.testBit_xor, Nat.testBit_two_pow_sub_one]
    by_cases hi : i < 16
    · simp [hi]
    · have hbit : s.modifier_mask.testBit i = false := by
        apply Nat.testBit_lt_two_pow
        calc s.modifier_mask < 2 ^ 16 := hs
          _ ≤ 2 ^ i := Nat.pow_le_pow_right (by decide) (by omega)
      simp [hbit]
  · rw [hset, Nat.testBit_or, hi, Bool.or_false]
  · rw [hbits i, hi]; simp

/-- C10 at a concrete input: the state `0x2101` and the mask `0x0110`. -/
theorem modifier_mask_set_unset_get_witness :
    get_modifiers (set_modifier_mask ⟨0x2101, none, none⟩ 0x0110) = 0x2101 ||| 0x0110
    ∧ get_modifiers (unset_modifier_mask ⟨0x2101, none, none⟩ 0x0110)
        = 0x2101 &&& (0xFFFF ^^^ 0x0110)
    ∧ (∀ i, (get_modifiers (unset_modifier_mask ⟨0x2101, none, none⟩ 0x0110)).testBit i
        = ((0x2101 : Nat).testBit i && !(0x0110 : Nat).testBit i))
    ∧ (∀ i, (0x0110 : Nat).testBit i = false →
        (get_modifiers (set_modifier_mask ⟨0x2101, none, none⟩ 0x0110)).testBit i
          = (0x2101 : Nat).testBit i
        ∧ (get_modifiers (unset_modifier_mask ⟨0x2101, none, none⟩ 0x0110)).testBit i
          = (0x2101 : Nat).testBit i)
    ∧ set_modifier_mask ⟨0x2101, none, none⟩ 0x0110
        = { (⟨0x2101, none, none⟩ : HelperState) with
            modifier_mask := get_modifiers (set_modifier_mask ⟨0x2101, none, none⟩ 0x0110) }
    ∧ unset_modifier_mask ⟨0x2101, none, none⟩ 0x0110
        = { (⟨0x2101, none, none⟩ : HelperState) with
            modifier_mask := get_modifiers (unset_modifier_mask ⟨0x2101, none, none⟩ 0x0110) } :=
  modifier_mask_set_unset_get ⟨0x2101, none, none⟩ 0x0110 (by decide) (by decide)

/-- The state `0x2101` under the mask `0x0110`: setting gives `0x2111`, clearing gives `0x2001`. -/
theorem modifier_mask_sample :
    get_modifiers (set_modifier_mask ⟨0x2101, none, none⟩ 0x0110) = 0x2111
    ∧ get_modifiers (unset_modifier_mask ⟨0x2101, none, none⟩ 0x0110) = 0x2001 := by
  decide

/-! ## Loading and unloading the helper -/

/-- Truncating to 16 bits does not change the bits under a 16-bit mask. -/
theorem mod_65536_and (x k : Nat) (hk : k < 65536) : (x % 65536) &&& k = x &&& k := by
  apply Nat.eq_of_testBit_eq
  intro i
  have h16 : (65536 : Nat) = 2 ^ 16 := by decide
  rw [h16, Nat.testBit_and, Nat.testBit_and, Nat.testBit_mod_two_pow]
  by_cases hi : i < 16
  · simp [hi]
  · have hbit : k.testBit i = false := by
      apply Nat.testBit_lt_two_pow
      calc k < 2 ^ 16 := hk
        _ ≤ 2 ^ i := Nat.pow_le_pow_right (by decide) (by omega)
    simp [hbit]

/-- A bitwise OR is zero exactly when both sides are. -/
theorem or_eq_zero_iff_both (a b : Nat) : a ||| b = 0 ↔ a = 0 ∧ b = 0 := by
  constructor
  · intro h
    have hbits : ∀ i, (a.testBit i || b.testBit i) = false := by
      intro i
      rw [← Nat.testBit_or, h, Nat.zero_testBit]
    constructor <;> apply Nat.eq_of_testBit_eq <;> intro i <;> have := hbits i <;>
      simp only [Bool.or_eq_false_iff] at this <;> simp [this]
  · rintro ⟨rfl, rfl⟩
    rfl

/-- The bits of the mask under `k` after `set_modifier_mask`. -/
theorem set_modifier_mask_and (s : HelperState) (m k : Nat) (hk : k < 65536) :
    (set_modifier_mask s m).modifier_mask &&& k ≠ 0
      ↔ s.modifier_mask &&& k ≠ 0 ∨ m &&& k ≠ 0 := by
  unfold set_modifier_mask
  simp only [mod_65536_and _ k hk, Nat.and_distrib_right, ne_eq, or_eq_zero_iff_both]
  tauto

/-- The bits of the mask under `k` after a conditional `set_modifier_mask`. -/
theorem set_modifier_mask_if_and (c : Bool) (s : HelperState) (m k : Nat) (hk : k < 65536) :
    (set_modifier_mask_if c s m).modifier_mask &&& k ≠ 0
      ↔ s.modifier_mask &&& k ≠ 0 ∨ (c = true ∧ m &&& k ≠ 0) := by
  unfold set_modifier_mask_if
  cases c
  · simp
  · simp [set_modifier_mask_and s m k hk]

/-- The helper display is the same before and after a conditional `set_modifier_mask`. -/
theorem set_modifier_mask_if_disp (c : Bool) (s : HelperState) (m : Nat) :
    (set_modifier_mask_if c s m).helper_disp = s.helper_disp := by
  unfold set_modifier_mask_if set_modifier_mask
  cases c <;> rfl

/-- `key_held` reads the helper display only. -/
theorem key_held_congr (X : XKeyboard) (s t : HelperState) (h : s.helper_disp = t.helper_disp)
    (keysym : Nat) : key_held X s keysym = key_held X t keysym := by
  unfold key_held
  rw [h]

/-- The bits of the mask that `initialize_modifiers` leaves under a 16-bit mask `k`: the bits of
the masks it sets, each under its own condition. -/
theorem initialize_modifiers_and (H : Header) (X : XKeyboard) (s : HelperState) (k : Nat)
    (hk : k < 65536) :
    (initialize_modifiers H X s).modifier_mask &&& k ≠ 0 ↔
      (pointer_gate X ShiftMask ∧ key_held X s XK_Shift_L = true ∧ H.MASK_SHIFT_L &&& k ≠ 0)
      ∨ (pointer_gate X ShiftMask ∧ key_held X s XK_Shift_R = true ∧ H.MASK_SHIFT_R &&& k ≠ 0)
      ∨ (pointer_gate X ControlMask ∧ key_held X s XK_Control_L = true ∧ H.MASK_CTRL_L &&& k ≠ 0)
      ∨ (pointer_gate X ControlMask ∧ key_held X s XK_Control_R = true ∧ H.MASK_CTRL_R &&& k ≠ 0)
      ∨ (pointer_gate X Mod1Mask ∧ key_held X s XK_Alt_L = true ∧ H.MASK_ALT_L &&& k ≠ 0)
      ∨ (pointer_gate X Mod1Mask ∧ key_held X s XK_Alt_R = true ∧ H.MASK_ALT_R &&& k ≠ 0)
      ∨ (pointer_gate X Mod4Mask ∧ key_held X s XK_Super_L = true ∧ H.MASK_META_L &&& k ≠ 0)
      ∨ (pointer_gate X Mod4Mask ∧ key_held X s XK_Super_R = true ∧ H.MASK_META_R &&& k ≠ 0)
      ∨ (pointer_button X Button1Mask ∧ H.MASK_BUTTON1 &&& k ≠ 0)
      ∨ (pointer_button X Button2Mask ∧ H.MASK_BUTTON2 &&& k ≠ 0)
      ∨ (pointer_button X Button3Mask ∧ H.MASK_BUTTON3 &&& k ≠ 0)
      ∨ (pointer_button X Button4Mask ∧ H.MASK_BUTTON4 &&& k ≠ 0)
      ∨ (pointer_button X Button5Mask ∧ H.MASK_BUTTON5 &&& k ≠ 0) := by
  have hz : ({ s with modifier_mask := 0x0000 } : HelperState).modifier_mask &&& k = 0 := by
    simp
  unfold initialize_modifiers pointer_gate pointer_button
  cases hq : X.XQueryPointer with
  | none =>
    simp only [set_modifier_mask_if_and _ _ _ k hk, key_held, set_modifier_mask_if_disp, hz]
    simp only [ne_eq, not_true_eq_false, false_or, true_and, false_and, or_false, or_assoc]
  | some mask =>
    simp only []
    by_cases g1 : mask &&& ShiftMask ≠ 0
    all_goals (first | simp only [if_pos g1] | simp only [if_neg g1])
    all_goals by_cases g2 : mask &&& ControlMask ≠ 0
    all_goals (first | simp only [if_pos g2] | simp only [if_neg g2])
    all_goals by_cases g3 : mask &&& Mod1Mask ≠ 0
    all_goals (first | simp only [if_pos g3] | simp only [if_neg g3])
    all_goals by_cases g4 : mask &&& Mod4Mask ≠ 0
    all_goals (first | simp only [if_pos g4] | simp only [if_neg g4])
    all_goals
      simp only [set_modifier_mask_if_and _ _ _ k hk, key_held, set_modifier_mask_if_disp, hz,
        decide_eq_true_eq]
    all_goals
      simp only [g1, g2, g3, g4, ne_eq, not_true_eq_false, not_false_eq_true, false_or, true_and,
        false_and, or_false, or_assoc]

/-- Under `modifier_masks_disjoint`, two masks at different places of `modifier_masks` have no bit
in common, whichever comes first, and every mask is non-zero and fits 16 bits. -/
theorem modifier_masks_facts (H : Header) (hH : modifier_masks_disjoint H) (i j : Nat)
    (hi : i < 13) (hj : j < 13) :
    (i ≠ j → (modifier_masks H).getD i 0 &&& (modifier_masks H).getD j 0 = 0)
    ∧ (modifier_masks H).getD i 0 ≠ 0 ∧ (modifier_masks H).getD i 0 < 65536 := by
  obtain ⟨hne, hp⟩ := hH
  have hlen : (modifier_masks H).length = 13 := rfl
  have hgi : (modifier_masks H).getD i 0 = (modifier_masks H)[i] := by
    rw [List.getD_eq_getElem?_getD, List.getElem?_eq_getElem (by omega)]; rfl
  have hgj : (modifier_masks H).getD j 0 = (modifier_masks H)[j] := by
    rw [List.getD_eq_getElem?_getD, List.getElem?_eq_getElem (by omega)]; rfl
  rw [hgi, hgj]
  refine ⟨fun hij => ?_, hne _ (List.getElem_mem _)⟩
  rw [List.pairwise_iff_getElem] at hp
  rcases Nat.lt_or_gt_of_ne hij with h | h
  · exact hp i j (by omega) (by omega) h
  · rw [Nat.and_comm]; exact hp j i (by omega) (by omega) h

/-- C12, amended: after a successful `load_input_helper()`, whatever the mask was before, each of
the eight left/right modifier bits is set exactly when the live keyboard map reports its key
(`Shift_L/R`, `Control_L/R`, `Alt_L/R`, `Super_L/R`) as held down and, when `XQueryPointer`
succeeds, the pointer state has the modifier bit of the key set (`ShiftMask`, `ControlMask`,
`Mod1Mask`, `Mod4Mask`); when `XQueryPointer` fails the keymap alone decides. -/
theorem load_input_helper_modifier_bits (H : Header) (X : XKeyboard) (buffer : List Nat)
    (s : HelperState) (hH : modifier_masks_disjoint H) :
    (load_input_helper H X (some buffer) s).1 = UIOHOOK_SUCCESS
    ∧ ((load_input_helper H X (some buffer) s).2.modifier_mask &&& H.MASK_SHIFT_L ≠ 0
        ↔ key_held X s XK_Shift_L = true ∧ pointer_gate X ShiftMask)
    ∧ ((load_input_helper H X (some buffer) s).2.modifier_mask &&& H.MASK_SHIFT_R ≠ 0
        ↔ key_held X s XK_Shift_R = true ∧ pointer_gate X ShiftMask)
    ∧ ((load_input_helper H X (some buffer) s).2.modifier_mask &&& H.MASK_CTRL_L ≠ 0
        ↔ key_held X s XK_Control_L = true ∧ pointer_gate X ControlMask)
    ∧ ((load_input_helper H X (some buffer) s).2.modifier_mask &&& H.MASK_CTRL_R ≠ 0
        ↔ key_held X s XK_Control_R = true ∧ pointer_gate X ControlMask)
    ∧ ((load_input_helper H X (some buffer) s).2.modifier_mask &&& H.MASK_ALT_L ≠ 0
        ↔ key_held X s XK_Alt_L = true ∧ pointer_gate X Mod1Mask)
    ∧ ((load_input_helper H X (some buffer) s).2.modifier_mask &&& H.MASK_ALT_R ≠ 0
        ↔ key_held X s XK_Alt_R = true ∧ pointer_gate X Mod1Mask)
    ∧ ((load_input_helper H X (some buffer) s).2.modifier_mask &&& H.MASK_META_L ≠ 0
        ↔ key_held X s XK_Super_L = true ∧ pointer_gate X Mod4Mask)
    ∧ ((load_input_helper H X (some buffer) s).2.modifier_mask &&& H.MASK_META_R ≠ 0
        ↔ key_held X s XK_Super_R = true ∧ pointer_gate X Mod4Mask) := by
  have hload : (load_input_helper H X (some buffer) s).2
      = initialize_modifiers H X { s with mouse_button_table := some buffer } := rfl
  have hheld : ∀ keysym, key_held X { s with mouse_button_table := some buffer } keysym
      = key_held X s keysym := fun keysym => key_held_congr X _ _ rfl keysym
  have hf := modifier_masks_facts H hH
  have hself : ∀ m : Nat, m &&& m = m := Nat.and_self
  refine ⟨rfl, ?_, ?_, ?_, ?_, ?_, ?_, ?_, ?_⟩
  · have nz : H.MASK_SHIFT_L ≠ 0 := (hf 0 0 (by decide) (by decide)).2.1
    have lt : H.MASK_SHIFT_L < 65536 := (hf 0 0 (by decide) (by decide)).2.2
    have e1 : H.MASK_SHIFT_R &&& H.MASK_SHIFT_L = 0 :=
      (hf 1 0 (by decide) (by decide)).1 (by decide)
    have e2 : H.MASK_CTRL_L &&& H.MASK_SHIFT_L = 0 :=
      (hf 2 0 (by decide) (by decide)).1 (by decide)
    have e3 : H.MASK_CTRL_R &&& H.MASK_SHIFT_L = 0 :=
      (hf 3 0 (by decide) (by decide)).1 (by decide)
    have e4 : H.MASK_ALT_L &&& H.MASK_SHIFT_L = 0 :=
      (hf 4 0 (by decide) (by decide)).1 (by decide)
    have e5 : H.MASK_ALT_R &&& H.MASK_SHIFT_L = 0 :=
      (hf 5 0 (by decide) (by decide)).1 (by decide)
    have e6 : H.MASK_META_L &&& H.MASK_SHIFT_L = 0 :=
      (hf 6 0 (by decide) (by decide)).1 (by decide)
    have e7 : H.MASK_META_R &&& H.MASK_SHIFT_L = 0 :=
      (hf 7 0 (by decide) (by decide)).1 (by decide)
    have e8 : H.MASK_BUTTON1 &&& H.MASK_SHIFT_L = 0 :=
      (hf 8 0 (by decide) (by decide)).1 (by decide)
    have e9 : H.MASK_BUTTON2 &&& H.MASK_SHIFT_L = 0 :=
      (hf 9 0 (by decide) (by decide)).1 (by decide)
    have e10 : H.MASK_BUTTON3 &&& H.MASK_SHIFT_L = 0 :=
      (hf 10 0 (by decide) (by decide)).1 (by decide)
    have e11 : H.MASK_BUTTON4 &&& H.MASK_SHIFT_L = 0 :=
      (hf 11 0 (by decide) (by decide)).1 (by decide)
    have e12 : H.MASK_BUTTON5 &&& H.MASK_SHIFT_L = 0 :=
      (hf 12 0 (by decide) (by decide)).1 (by decide)
    rw [hload, initialize_modifiers_and H X _ _ lt]
    simp only [e1, e2, e3, e4, e5, e6, e7, e8, e9, e10, e11, e12, hself, hheld, nz, ne_eq, not_true_eq_false, not_false_eq_true,
      and_false, and_true, false_or, or_false]
    exact and_comm
  · have nz : H.MASK_SHIFT_R ≠ 0 := (hf 1 1 (by decide) (by decide)).2.1
    have lt : H.MASK_SHIFT_R < 65536 := (hf 1 1 (by decide) (by decide)).2.2
    have e0 : H.MASK_SHIFT_L &&& H.MASK_SHIFT_R = 0 :=
      (hf 0 1 (by decide) (by decide)).1 (by decide)
    have e2 : H.MASK_CTRL_L &&& H.MASK_SHIFT_R = 0 :=
      (hf 2 1 (by decide) (by decide)).1 (by decide)
    have e3 : H.MASK_CTRL_R &&& H.MASK_SHIFT_R = 0 :=
      (hf 3 1 (by decide) (by decide)).1 (by decide)
    have e4 : H.MASK_ALT_L &&& H.MASK_SHIFT_R = 0 :=
      (hf 4 1 (by decide) (by decide)).1 (by decide)
    have e5 : H.MASK_ALT_R &&& H.MASK_SHIFT_R = 0 :=
      (hf 5 1 (by decide) (by decide)).1 (by decide)
    have e6 : H.MASK_META_L &&& H.MASK_SHIFT_R = 0 :=
      (hf 6 1 (by decide) (by decide)).1 (by decide)
    have e7 : H.MASK_META_R &&& H.MASK_SHIFT_R = 0 :=
      (hf 7 1 (by decide) (by decide)).1 (by decide)
    have e8 : H.MASK_BUTTON1 &&& H.MASK_SHIFT_R = 0 :=
      (hf 8 1 (by decide) (by decide)).1 (by decide)
    have e9 : H.MASK_BUTTON2 &&& H.MASK_SHIFT_R = 0 :=
      (hf 9 1 (by decide) (by decide)).1 (by decide)
    have e10 : H.MASK_BUTTON3 &&& H.MASK_SHIFT_R = 0 :=
      (hf 10 1 (by decide) (by decide)).1 (by decide)
    have e11 : H.MASK_BUTTON4 &&& H.MASK_SHIFT_R = 0 :=
      (hf 11 1 (by decide) (by decide)).1 (by decide)
    have e12 : H.MASK_BUTTON5 &&& H.MASK_SHIFT_R = 0 :=
      (hf 12 1 (by decide) (by decide)).1 (by decide)
    rw [hload, initialize_modifiers_and H X _ _ lt]
    simp only [e0, e2, e3, e4, e5, e6, e7, e8, e9, e10, e11, e12, hself, hheld, nz, ne_eq, not_true_eq_false, not_false_eq_true,
      and_false, and_true, false_or, or_false]
    exact and_comm
  · have nz : H.MASK_CTRL_L ≠ 0 := (hf 2 2 (by decide) (by decide)).2.1
    have lt : H.MASK_CTRL_L < 65536 := (hf 2 2 (by decide) (by decide)).2.2
    have e0 : H.MASK_SHIFT_L &&& H.MASK_CTRL_L = 0 :=
      (hf 0 2 (by decide) (by decide)).1 (by decide)
    have e1 : H.MASK_SHIFT_R &&& H.MASK_CTRL_L = 0 :=
      (hf 1 2 (by decide) (by decide)).1 (by decide)
    have e3 : H.MASK_CTRL_R &&& H.MASK_CTRL_L = 0 :=
      (hf 3 2 (by decide) (by decide)).1 (by decide)
    have e4 : H.MASK_ALT_L &&& H.MASK_CTRL_L = 0 :=
      (hf 4 2 (by decide) (by decide)).1 (by decide)
    have e5 : H.MASK_ALT_R &&& H.MASK_CTRL_L = 0 :=
      (hf 5 2 (by decide) (by decide)).1 (by decide)
    have e6 : H.MASK_META_L &&& H.MASK_CTRL_L = 0 :=
      (hf 6 2 (by decide) (by decide)).1 (by decide)
    have e7 : H.MASK_META_R &&& H.MASK_CTRL_L = 0 :=
      (hf 7 2 (by decide) (by decide)).1 (by decide)
    have e8 : H.MASK_BUTTON1 &&& H.MASK_CTRL_L = 0 :=
      (hf 8 2 (by decide) (by decide)).1 (by decide)
    have e9 : H.MASK_BUTTON2 &&& H.MASK_CTRL_L = 0 :=
      (hf 9 2 (by decide) (by decide)).1 (by decide)
    have e10 : H.MASK_BUTTON3 &&& H.MASK_CTRL_L = 0 :=
      (hf 10 2 (by decide) (by decide)).1 (by decide)
    have e11 : H.MASK_BUTTON4 &&& H.MASK_CTRL_L = 0 :=
      (hf 11 2 (by decide) (by decide)).1 (by decide)
    have e12 : H.MASK_BUTTON5 &&& H.MASK_CTRL_L = 0 :=
      (hf 12 2 (by decide) (by decide)).1 (by decide)
    rw [hload, initialize_modifiers_and H X _ _ lt]
    simp only [e0, e1, e3, e4, e5, e6, e7, e8, e9, e10, e11, e12, hself, hheld, nz, ne_eq, not_true_eq_false, not_false_eq_true,
      and_false, and_true, false_or, or_false]
    exact and_comm
  · have nz : H.MASK_CTRL_R ≠ 0 := (hf 3 3 (by decide) (by decide)).2.1
    have lt : H.MASK_CTRL_R < 65536 := (hf 3 3 (by decide) (by decide)).2.2
    have e0 : H.MASK_SHIFT_L &&& H.MASK_CTRL_R = 0 :=
      (hf 0 3 (by decide) (by decide)).1 (by decide)
    have e1 : H.MASK_SHIFT_R &&& H.MASK_CTRL_R = 0 :=
      (hf 1 3 (by decide) (by decide)).1 (by decide)
    have e2 : H.MASK_CTRL_L &&& H.MASK_CTRL_R = 0 :=
      (hf 2 3 (by decide) (by decide)).1 (by decide)
    have e4 : H.MASK_ALT_L &&& H.MASK_CTRL_R = 0 :=
      (hf 4 3 (by decide) (by decide)).1 (by decide)
    have e5 : H.MASK_ALT_R &&& H.MASK_CTRL_R = 0 :=
      (hf 5 3 (by decide) (by decide)).1 (by decide)
    have e6 : H.MASK_META_L &&& H.MASK_CTRL_R = 0 :=
      (hf 6 3 (by decide) (by decide)).1 (by decide)
    have e7 : H.MASK_META_R &&& H.MASK_CTRL_R = 0 :=
      (hf 7 3 (by decide) (by decide)).1 (by decide)
    have e8 : H.MASK_BUTTON1 &&& H.MASK_CTRL_R = 0 :=
      (hf 8 3 (by decide) (by decide)).1 (by decide)
    have e9 : H.MASK_BUTTON2 &&& H.MASK_CTRL_R = 0 :=
      (hf 9 3 (by decide) (by decide)).1 (by decide)
    have e10 : H.MASK_BUTTON3 &&& H.MASK_CTRL_R = 0 :=
      (hf 10 3 (by decide) (by decide)).1 (by decide)
    have e11 : H.MASK_BUTTON4 &&& H.MASK_CTRL_R = 0 :=
      (hf 11 3 (by decide) (by decide)).1 (by decide)
    have e12 : H.MASK_BUTTON5 &&& H.MASK_CTRL_R = 0 :=
      (hf 12 3 (by decide) (by decide)).1 (by decide)
    rw [hload, initialize_modifiers_and H X _ _ lt]
    simp only [e0, e1, e2, e4, e5, e6, e7, e8, e9, e10, e11, e12, hself, hheld, nz, ne_eq, not_true_eq_false, not_false_eq_true,
      and_false, and_true, false_or, or_false]
    exact and_comm
  · have nz : H.MASK_ALT_L ≠ 0 := (hf 4 4 (by decide) (by decide)).2.1
    have lt : H.MASK_ALT_L < 65536 := (hf 4 4 (by decide) (by decide)).2.2
    have e0 : H.MASK_SHIFT_L &&& H.MASK_ALT_L = 0 :=
      (hf 0 4 (by decide) (by decide)).1 (by decide)
    have e1 : H.MASK_SHIFT_R &&& H.MASK_ALT_L = 0 :=
      (hf 1 4 (by decide) (by decide)).1 (by decide)
    have e2 : H.MASK_CTRL_L &&& H.MASK_ALT_L = 0 :=
      (hf 2 4 (by decide) (by decide)).1 (by decide)
    have e3 : H.MASK_CTRL_R &&& H.MASK_ALT_L = 0 :=
      (hf 3 4 (by decide) (by decide)).1 (by decide)
    have e5 : H.MASK_ALT_R &&& H.MASK_ALT_L = 0 :=
      (hf 5 4 (by decide) (by decide)).1 (by decide)
    have e6 : H.MASK_META_L &&& H.MASK_ALT_L = 0 :=
      (hf 6 4 (by decide) (by decide)).1 (by decide)
    have e7 : H.MASK_META_R &&& H.MASK_ALT_L = 0 :=
      (hf 7 4 (by decide) (by decide)).1 (by decide)
    have e8 : H.MASK_BUTTON1 &&& H.MASK_ALT_L = 0 :=
      (hf 8 4 (by decide) (by decide)).1 (by decide)
    have e9 : H.MASK_BUTTON2 &&& H.MASK_ALT_L = 0 :=
      (hf 9 4 (by decide) (by decide)).1 (by decide)
    have e10 : H.MASK_BUTTON3 &&& H.MASK_ALT_L = 0 :=
      (hf 10 4 (by decide) (by decide)).1 (by decide)
    have e11 : H.MASK_BUTTON4 &&& H.MASK_ALT_L = 0 :=
      (hf 11 4 (by decide) (by decide)).1 (by decide)
    have e12 : H.MASK_BUTTON5 &&& H.MASK_ALT_L = 0 :=
      (hf 12 4 (by decide) (by decide)).1 (by decide)
    rw [hload, initialize_modifiers_and H X _ _ lt]
    simp only [e0, e1, e2, e3, e5, e6, e7, e8, e9, e10, e11, e12, hself, hheld, nz, ne_eq, not_true_eq_false, not_false_eq_true,
      and_false, and_true, false_or, or_false]
    exact and_comm
  · have nz : H.MASK_ALT_R ≠ 0 := (hf 5 5 (by decide) (by decide)).2.1
    have lt : H.MASK_ALT_R < 65536 := (hf 5 5 (by decide) (by decide)).2.2
    have e0 : H.MASK_SHIFT_L &&& H.MASK_ALT_R = 0 :=
      (hf 0 5 (by decide) (by decide)).1 (by decide)
    have e1 : H.MASK_SHIFT_R &&& H.MASK_ALT_R = 0 :=
      (hf 1 5 (by decide) (by decide)).1 (by decide)
    have e2 : H.MASK_CTRL_L &&& H.MASK_ALT_R = 0 :=
      (hf 2 5 (by decide) (by decide)).1 (by decide)
    have e3 : H.MASK_CTRL_R &&& H.MASK_ALT_R = 0 :=
      (hf 3 5 (by decide) (by decide)).1 (by decide)
    have e4 : H.MASK_ALT_L &&& H.MASK_ALT_R = 0 :=
      (hf 4 5 (by decide) (by decide)).1 (by decide)
    have e6 : H.MASK_META_L &&& H.MASK_ALT_R = 0 :=
      (hf 6 5 (by decide) (by decide)).1 (by decide)
    have e7 : H.MASK_META_R &&& H.MASK_ALT_R = 0 :=
      (hf 7 5 (by decide) (by decide)).1 (by decide)
    have e8 : H.MASK_BUTTON1 &&& H.MASK_ALT_R = 0 :=
      (hf 8 5 (by decide) (by decide)).1 (by decide)
    have e9 : H.MASK_BUTTON2 &&& H.MASK_ALT_R = 0 :=
      (hf 9 5 (by decide) (by decide)).1 (by decide)
    have e10 : H.MASK_BUTTON3 &&& H.MASK_ALT_R = 0 :=
      (hf 10 5 (by decide) (by decide)).1 (by decide)
    have e11 : H.MASK_BUTTON4 &&& H.MASK_ALT_R = 0 :=
      (hf 11 5 (by decide) (by decide)).1 (by decide)
    have e12 : H.MASK_BUTTON5 &&& H.MASK_ALT_R = 0 :=
      (hf 12 5 (by decide) (by decide)).1 (by decide)
    rw [hload, initialize_modifiers_and H X _ _ lt]
    simp only [e0, e1, e2, e3, e4, e6, e7, e8, e9, e10, e11, e12, hself, hheld, nz, ne_eq, not_true_eq_false, not_false_eq_true,
      and_false, and_true, false_or, or_false]
    exact and_comm
  · have nz : H.MASK_META_L ≠ 0 := (hf 6 6 (by decide) (by decide)).2.1
    have lt : H.MASK_META_L < 65536 := (hf 6 6 (by decide) (by decide)).2.2
    have e0 : H.MASK_SHIFT_L &&& H.MASK_META_L = 0 :=
      (hf 0 6 (by decide) (by decide)).1 (by decide)
    have e1 : H.MASK_SHIFT_R &&& H.MASK_META_L = 0 :=
      (hf 1 6 (by decide) (by decide)).1 (by decide)
    have e2 : H.MASK_CTRL_L &&& H.MASK_META_L = 0 :=
      (hf 2 6 (by decide) (by decide)).1 (by decide)
    have e3 : H.MASK_CTRL_R &&& H.MASK_META_L = 0 :=
      (hf 3 6 (by decide) (by decide)).1 (by decide)
    have e4 : H.MASK_ALT_L &&& H.MASK_META_L = 0 :=
      (hf 4 6 (by decide) (by decide)).1 (by decide)
    have e5 : H.MASK_ALT_R &&& H.MASK_META_L = 0 :=
      (hf 5 6 (by decide) (by decide)).1 (by decide)
    have e7 : H.MASK_META_R &&& H.MASK_META_L = 0 :=
      (hf 7 6 (by decide) (by decide)).1 (by decide)
    have e8 : H.MASK_BUTTON1 &&& H.MASK_META_L = 0 :=
      (hf 8 6 (by decide) (by decide)).1 (by decide)
    have e9 : H.MASK_BUTTON2 &&& H.MASK_META_L = 0 :=
      (hf 9 6 (by decide) (by decide)).1 (by decide)
    have e10 : H.MASK_BUTTON3 &&& H.MASK_META_L = 0 :=
      (hf 10 6 (by decide) (by decide)).1 (by decide)
    have e11 : H.MASK_BUTTON4 &&& H.MASK_META_L = 0 :=
      (hf 11 6 (by decide) (by decide)).1 (by decide)
    have e12 : H.MASK_BUTTON5 &&& H.MASK_META_L = 0 :=
      (hf 12 6 (by decide) (by decide)).1 (by decide)
    rw [hload, initialize_modifiers_and H X _ _ lt]
    simp only [e0, e1, e2, e3, e4, e5, e7, e8, e9, e10, e11, e12, hself, hheld, nz, ne_eq, not_true_eq_false, not_false_eq_true,
      and_false, and_true, false_or, or_false]
    exact and_comm
  · have nz : H.MASK_META_R ≠ 0 := (hf 7 7 (by decide) (by decide)).2.1
    have lt : H.MASK_META_R < 65536 := (hf 7 7 (by decide) (by decide)).2.2
    have e0 : H.MASK_SHIFT_L &&& H.MASK_META_R = 0 :=
      (hf 0 7 (by decide) (by decide)).1 (by decide)
    have e1 : H.MASK_SHIFT_R &&& H.MASK_META_R = 0 :=
      (hf 1 7 (by decide) (by decide)).1 (by decide)
    have e2 : H.MASK_CTRL_L &&& H.MASK_META_R = 0 :=
      (hf 2 7 (by decide) (by decide)).1 (by decide)
    have e3 : H.MASK_CTRL_R &&& H.MASK_META_R = 0 :=
      (hf 3 7 (by decide) (by decide)).1 (by decide)
    have e4 : H.MASK_ALT_L &&& H.MASK_META_R = 0 :=
      (hf 4 7 (by decide) (by decide)).1 (by decide)
    have e5 : H.MASK_ALT_R &&& H.MASK_META_R = 0 :=
      (hf 5 7 (by decide) (by decide)).1 (by decide)
    have e6 : H.MASK_META_L &&& H.MASK_META_R = 0 :=
      (hf 6 7 (by decide) (by decide)).1 (by decide)
    have e8 : H.MASK_BUTTON1 &&& H.MASK_META_R = 0 :=
      (hf 8 7 (by decide) (by decide)).1 (by decide)
    have e9 : H.MASK_BUTTON2 &&& H.MASK_META_R = 0 :=
      (hf 9 7 (by decide) (by decide)).1 (by decide)
    have e10 : H.MASK_BUTTON3 &&& H.MASK_META_R = 0 :=
      (hf 10 7 (by decide) (by decide)).1 (by decide)
    have e11 : H.MASK_BUTTON4 &&& H.MASK_META_R = 0 :=
      (hf 11 7 (by decide) (by decide)).1 (by decide)
    have e12 : H.MASK_BUTTON5 &&& H.MASK_META_R = 0 :=
      (hf 12 7 (by decide) (by decide)).1 (by decide)
    rw [hload, initialize_modifiers_and H X _ _ lt]
    simp only [e0, e1, e2, e3, e4, e5, e6, e8, e9, e10, e11, e12, hself, hheld, nz, ne_eq, not_true_eq_false, not_false_eq_true,
      and_false, and_true, false_or, or_false]
    exact and_comm

/-- C12 at a concrete input: the sample header, `Shift_L` and `Super_L` down, a pointer state with
`ShiftMask` and `Mod4Mask` set, and a mask of `0xFFFF` before the load. -/
theorem load_input_helper_modifier_bits_witness :
    (load_input_helper uiohook_h (sample_keyboard 0 [50, 133] (some 0x41)) (some (List.replicate 256 0)) ⟨0xFFFF, some 1, none⟩).1 = UIOHOOK_SUCCESS
    ∧ ((load_input_helper uiohook_h (sample_keyboard 0 [50, 133] (some 0x41)) (some (List.replicate 256 0)) ⟨0xFFFF, some 1, none⟩).2.modifier_mask
          &&& uiohook_h.MASK_SHIFT_L ≠ 0
        ↔ key_held (sample_keyboard 0 [50, 133] (some 0x41)) ⟨0xFFFF, some 1, none⟩ XK_Shift_L = true ∧ pointer_gate (sample_keyboard 0 [50, 133] (some 0x41)) ShiftMask)
    ∧ ((load_input_helper uiohook_h (sample_keyboard 0 [50, 133] (some 0x41)) (some (List.replicate 256 0)) ⟨0xFFFF, some 1, none⟩).2.modifier_mask
          &&& uiohook_h.MASK_SHIFT_R ≠ 0
        ↔ key_held (sample_keyboard 0 [50, 133] (some 0x41)) ⟨0xFFFF, some 1, none⟩ XK_Shift_R = true ∧ pointer_gate (sample_keyboard 0 [50, 133] (some 0x41)) ShiftMask)
    ∧ ((load_input_helper uiohook_h (sample_keyboard 0 [50, 133] (some 0x41)) (some (List.replicate 256 0)) ⟨0xFFFF, some 1, none⟩).2.modifier_mask
          &&& uiohook_h.MASK_CTRL_L ≠ 0
        ↔ key_held (sample_keyboard 0 [50, 133] (some 0x41)) ⟨0xFFFF, some 1, none⟩ XK_Control_L = true ∧ pointer_gate (sample_keyboard 0 [50, 133] (some 0x41)) ControlMask)
    ∧ ((load_input_helper uiohook_h (sample_keyboard 0 [50, 133] (some 0x41)) (some (List.replicate 256 0)) ⟨0xFFFF, some 1, none⟩).2.modifier_mask
          &&& uiohook_h.MASK_CTRL_R ≠ 0
        ↔ key_held (sample_keyboard 0 [50, 133] (some 0x41)) ⟨0xFFFF, some 1, none⟩ XK_Control_R = true ∧ pointer_gate (sample_keyboard 0 [50, 133] (some 0x41)) ControlMask)
    ∧ ((load_input_helper uiohook_h (sample_keyboard 0 [50, 133] (some 0x41)) (some (List.replicate 256 0)) ⟨0xFFFF, some 1, none⟩).2.modifier_mask
          &&& uiohook_h.MASK_ALT_L ≠ 0
        ↔ key_held (sample_keyboard 0 [50, 133] (some 0x41)) ⟨0xFFFF, some 1, none⟩ XK_Alt_L = true ∧ pointer_gate (sample_keyboard 0 [50, 133] (some 0x41)) Mod1Mask)
    ∧ ((load_input_helper uiohook_h (sample_keyboard 0 [50, 133] (some 0x41)) (some (List.replicate 256 0)) ⟨0xFFFF, some 1, none⟩).2.modifier_mask
          &&& uiohook_h.MASK_ALT_R ≠ 0
        ↔ key_held (sample_keyboard 0 [50, 133] (some 0x41)) ⟨0xFFFF, some 1, none⟩ XK_Alt_R = true ∧ pointer_gate (sample_keyboard 0 [50, 133] (some 0x41)) Mod1Mask)
    ∧ ((load_input_helper uiohook_h (sample_keyboard 0 [50, 133] (some 0x41)) (some (List.replicate 256 0)) ⟨0xFFFF, some 1, none⟩).2.modifier_mask
          &&& uiohook_h.MASK_META_L ≠ 0
        ↔ key_held (sample_keyboard 0 [50, 133] (some 0x41)) ⟨0xFFFF, some 1, none⟩ XK_Super_L = true ∧ pointer_gate (sample_keyboard 0 [50, 133] (some 0x41)) Mod4Mask)
    ∧ ((load_input_helper uiohook_h (sample_keyboard 0 [50, 133] (some 0x41)) (some (List.replicate 256 0)) ⟨0xFFFF, some 1, none⟩).2.modifier_mask
          &&& uiohook_h.MASK_META_R ≠ 0
        ↔ key_held (sample_keyboard 0 [50, 133] (some 0x41)) ⟨0xFFFF, some 1, none⟩ XK_Super_R = true ∧ pointer_gate (sample_keyboard 0 [50, 133] (some 0x41)) Mod4Mask) :=
  load_input_helper_modifier_bits uiohook_h (sample_keyboard 0 [50, 133] (some 0x41)) (List.replicate 256 0) ⟨0xFFFF, some 1, none⟩
    (by unfold modifier_masks_disjoint; decide)

/-- The mask that `load_input_helper` leaves with `Shift_L` and `Super_L` down and a pointer state
with `ShiftMask` and `Mod4Mask` set: the bits `MASK_SHIFT_L` and `MASK_META_L`. -/
theorem load_input_helper_sample :
    load_input_helper uiohook_h (sample_keyboard 0 [50, 133] (some 0x41))
        (some (List.replicate 256 0)) ⟨0xFFFF, some 1, none⟩
      = (UIOHOOK_SUCCESS, ⟨0x0005, some 1, some (List.replicate 256 0)⟩) := by
  decide

/-- C12 as stated fails: with `Super_L` down in the keymap and a pointer state of `0` (no
`Mod4Mask`), a successful `load_input_helper()` leaves the `MASK_META_L` bit clear. -/
theorem load_input_helper_modifier_bits_counterexample :
    key_held (sample_keyboard 0 [133] (some 0)) ⟨0, some 1, none⟩ XK_Super_L = true
    ∧ (load_input_helper uiohook_h (sample_keyboard 0 [133] (some 0))
        (some (List.replicate 256 0)) ⟨0, some 1, none⟩).1 = UIOHOOK_SUCCESS
    ∧ (load_input_helper uiohook_h (sample_keyboard 0 [133] (some 0))
        (some (List.replicate 256 0)) ⟨0, some 1, none⟩).2.modifier_mask
          &&& uiohook_h.MASK_META_L = 0 := by
  decide

/-- The LED state plays no part in `load_input_helper`: the result is the same whatever
`XkbGetIndicatorState` would answer. -/
theorem load_input_helper_ignores_leds (H : Header) (X : XKeyboard) (leds : Option Nat)
    (malloc : Option (List Nat)) (s : HelperState) :
    load_input_helper H { X with XkbGetIndicatorState := leds } malloc s
      = load_input_helper H X malloc s := by
  cases malloc <;> rfl

/-- C11 fails on the code: with the CapsLock, NumLock and ScrollLock LEDs all on (LED mask `0x07`),
a successful `load_input_helper()` leaves the three lock bits of the mask clear, because it calls
`initialize_modifiers` only; `initialize_locks` on the same state would set the three bits. -/
theorem load_input_helper_lock_bits_clear :
    (sample_keyboard 0x07 [] (some 0)).XkbGetIndicatorState = some 0x07
    ∧ (load_input_helper uiohook_h (sample_keyboard 0x07 [] (some 0))
        (some (List.replicate 256 0)) ⟨0, some 1, none⟩).1 = UIOHOOK_SUCCESS
    ∧ (load_input_helper uiohook_h (sample_keyboard 0x07 [] (some 0))
        (some (List.replicate 256 0)) ⟨0, some 1, none⟩).2.modifier_mask
          &&& uiohook_h.MASK_CAPS_LOCK = 0
    ∧ (load_input_helper uiohook_h (sample_keyboard 0x07 [] (some 0))
        (some (List.replicate 256 0)) ⟨0, some 1, none⟩).2.modifier_mask
          &&& uiohook_h.MASK_NUM_LOCK = 0
    ∧ (load_input_helper uiohook_h (sample_keyboard 0x07 [] (some 0))
        (some (List.replicate 256 0)) ⟨0, some 1, none⟩).2.modifier_mask
          &&& uiohook_h.MASK_SCROLL_LOCK = 0
    ∧ (initialize_locks uiohook_h (sample_keyboard 0x07 [] (some 0))
        (load_input_helper uiohook_h (sample_keyboard 0x07 [] (some 0))
          (some (List.replicate 256 0)) ⟨0, some 1, none⟩).2).modifier_mask = 0xE000 := by
  decide

/-- C13 as stated fails: with the mask `0x2000` and the buffer allocated,
`unload_input_helper()` releases the buffer and `get_modifiers()` still returns `0x2000`. -/
theorem unload_input_helper_counterexample :
    unload_input_helper ⟨0x2000, some 1, some (List.replicate 256 0)⟩
      = (⟨0x2000, some 1, none⟩, some (List.replicate 256 0))
    ∧ get_modifiers (unload_input_helper ⟨0x2000, some 1, some (List.replicate 256 0)⟩).1
      = 0x2000 := by
  decide

/-- C13, amended: after `unload_input_helper()` the button-map buffer is released (the buffer that
was allocated is passed to `free` and the pointer is `NULL`) and `get_modifiers()` returns the
mask it returned before the call, for every state; the mask is zeroed by the next successful
`load_input_helper()`, whose result does not depend on the mask it finds. -/
theorem unload_input_helper_releases (s : HelperState) :
    (unload_input_helper s).1.mouse_button_table = none
    ∧ (unload_input_helper s).2 = s.mouse_button_table
    ∧ get_modifiers (unload_input_helper s).1 = get_modifiers s
    ∧ (unload_input_helper s).1.helper_disp = s.helper_disp
    ∧ ∀ (H : Header) (X : XKeyboard) (buffer : List Nat) (mask : Nat),
        load_input_helper H X (some buffer)
            { (unload_input_helper s).1 with modifier_mask := mask }
          = load_input_helper H X (some buffer)
            { (unload_input_helper s).1 with modifier_mask := 0 } := by
  refine ⟨?_, ?_, ?_, ?_, ?_⟩
  · unfold unload_input_helper; split <;> simp_all
  · unfold unload_input_helper; split <;> simp_all
  · unfold unload_input_helper; split <;> rfl
  · unfold unload_input_helper; split <;> rfl
  · intro H X buffer mask
    rfl

/-- C14: `unload_input_helper()` is idempotent.  A second call frees nothing and leaves the state
as the first call left it; a call with no buffer allocated, as before any load, frees nothing and
changes nothing; and after a `load_input_helper()` that failed to allocate the buffer, a call
frees nothing and changes nothing. -/
theorem unload_input_helper_idempotent (s : HelperState) :
    unload_input_helper (unload_input_helper s).1 = ((unload_input_helper s).1, none)
    ∧ (s.mouse_button_table = none → unload_input_helper s = (s, none))
    ∧ ∀ (H : Header) (X : XKeyboard),
        (load_input_helper H X none s).1 = UIOHOOK_ERROR_OUT_OF_MEMORY
        ∧ unload_input_helper (load_input_helper H X none s).2
          = ((load_input_helper H X none s).2, none) := by
  have hnone : ∀ t : HelperState, t.mouse_button_table = none →
      unload_input_helper t = (t, none) := by
    intro t ht
    unfold unload_input_helper
    rw [ht]
  refine ⟨hnone _ ?_, hnone s, fun H X => ⟨rfl, hnone _ rfl⟩⟩
  unfold unload_input_helper
  split <;> simp_all

/-- Two calls of `unload_input_helper()` on a loaded helper: the first frees the buffer, the
second frees nothing. -/
theorem unload_input_helper_twice_sample :
    unload_input_helper ⟨0x0005, some 1, some [1, 2, 3]⟩ = (⟨0x0005, some 1, none⟩, some [1, 2, 3])
    ∧ unload_input_helper (unload_input_helper ⟨0x0005, some 1, some [1, 2, 3]⟩).1
      = (⟨0x0005, some 1, none⟩, none) := by
  decide

/-! ## The hook runtimes -/

/-- When the X11 `hook_run` returns, the file-scope pointer `hook` is `NULL`, on every path. -/
theorem x11_hook_run_clears_hook (H : Header) (S : X11.Server) (st : X11.HookState) :
    (X11.hook_run H S st).2.1.hook = none := by
  unfold X11.hook_run
  cases h : S.malloc_hook <;> simp [h]

/-- The X11 `hook_run` does not read the pointer `hook` it finds: the result is the same whatever
the pointer was. -/
theorem x11_hook_run_ignores_hook (H : Header) (S : X11.Server) (st : X11.HookState)
    (found : Option X11.hook_info) :
    X11.hook_run H S { st with hook := found } = X11.hook_run H S st := by
  unfold X11.hook_run
  cases h : S.malloc_hook <;> simp [h]

/-- The function `unregister_running_hooks` leaves both hook handles `NULL` and touches nothing
else. -/
theorem unregister_running_hooks_state (st : Windows.HookState) :
    (Windows.unregister_running_hooks st).1
      = ⟨st.hook_thread_id, none, none, st.hInst⟩ := by
  obtain ⟨thread, keyboard, mouse, hInst⟩ := st
  cases keyboard <;> cases mouse <;> simp [Windows.unregister_running_hooks]

/-- The calls of `unregister_running_hooks`: one `UnhookWindowsHookEx` for each handle that is
set, the keyboard hook first. -/
theorem unregister_running_hooks_calls (st : Windows.HookState) :
    (Windows.unregister_running_hooks st).2
      = (if st.keyboard_event_hhook ≠ none
          then [Windows.Call.UnhookWindowsHookEx st.keyboard_event_hhook] else [])
        ++ (if st.mouse_event_hhook ≠ none
          then [Windows.Call.UnhookWindowsHookEx st.mouse_event_hhook] else []) := by
  obtain ⟨thread, keyboard, mouse, hInst⟩ := st
  cases keyboard <;> cases mouse <;> simp [Windows.unregister_running_hooks]

/-- The status and the calls of the Windows `hook_run` do not depend on the thread id and the
hook handles it finds, and the thread id it leaves is the one of the calling thread. -/
theorem windows_hook_run_ignores_handles (H : Header) (S : Windows.Server) (hInst : Option Nat)
    (thread thread' : Nat) (keyboard mouse keyboard' mouse' : Option Nat) :
    (Windows.hook_run H S ⟨thread, keyboard, mouse, hInst⟩).1
      = (Windows.hook_run H S ⟨thread', keyboard', mouse', hInst⟩).1
    ∧ (Windows.hook_run H S ⟨thread, keyboard, mouse, hInst⟩).2.2
      = (Windows.hook_run H S ⟨thread', keyboard', mouse', hInst⟩).2.2
    ∧ (Windows.hook_run H S ⟨thread, keyboard, mouse, hInst⟩).2.1.hook_thread_id
      = S.GetCurrentThreadId := by
  unfold Windows.hook_run
  simp only [unregister_running_hooks_state, unregister_running_hooks_calls]
  split_ifs <;> simp_all [Windows.message_loop]

/-- C15 as stated fails.  On X11, `hook_run()` called while a run is active (the pointer `hook`
set, the helper loaded) is not rejected: with every install step succeeding it returns
`UIOHOOK_SUCCESS` and leaves the pointer `NULL`.  On Windows, called while thread 7 runs with the
hook handles 11 and 12, it returns `UIOHOOK_SUCCESS` and leaves the thread id 9 and both handles
`NULL`. -/
theorem hook_run_while_active_counterexample :
    (X11.hook_run uiohook_h sample_x11_server
      ⟨some ⟨some 6, some 7, some 5, 8⟩, ⟨0, some 1, some (List.replicate 256 0)⟩⟩).1
        = UIOHOOK_SUCCESS
    ∧ (X11.hook_run uiohook_h sample_x11_server
      ⟨some ⟨some 6, some 7, some 5, 8⟩, ⟨0, some 1, some (List.replicate 256 0)⟩⟩).2.1.hook
        = none
    ∧ (Windows.hook_run uiohook_h sample_windows_server ⟨7, some 11, some 12, some 1⟩).1
        = UIOHOOK_SUCCESS
    ∧ (Windows.hook_run uiohook_h sample_windows_server ⟨7, some 11, some 12, some 1⟩).2.1
        = ⟨9, none, none, some 1⟩ := by
  decide

/-- C15, amended: `hook_run()` has no check for a run that is still active.  Called while a
previous `hook_run()` is active it runs as a first call does, with the same calls and the same
status, and it overwrites the hook state of the active run: on X11 the pointer `hook` is replaced
by the new allocation and is `NULL` when the call returns; on Windows the saved thread id is
replaced by the id of the calling thread, and status and calls are those of a call that finds no
thread id and no hook handle. -/
theorem hook_run_while_active (H : Header) :
    (∀ (S : X11.Server) (active : X11.hook_info) (helper : HelperState),
      X11.hook_run H S ⟨some active, helper⟩ = X11.hook_run H S ⟨none, helper⟩
      ∧ (X11.hook_run H S ⟨some active, helper⟩).2.1.hook = none)
    ∧ (∀ (S : Windows.Server) (hInst : Option Nat) (thread : Nat) (keyboard mouse : Option Nat),
      (Windows.hook_run H S ⟨thread, keyboard, mouse, hInst⟩).1
        = (Windows.hook_run H S ⟨0, none, none, hInst⟩).1
      ∧ (Windows.hook_run H S ⟨thread, keyboard, mouse, hInst⟩).2.2
        = (Windows.hook_run H S ⟨0, none, none, hInst⟩).2.2
      ∧ (Windows.hook_run H S ⟨thread, keyboard, mouse, hInst⟩).2.1.hook_thread_id
        = S.GetCurrentThreadId) := by
  refine ⟨fun S active helper => ⟨?_, x11_hook_run_clears_hook H S _⟩,
    fun S hInst thread keyboard mouse =>
      windows_hook_run_ignores_handles H S hInst thread 0 keyboard mouse none none⟩
  exact x11_hook_run_ignores_hook H S ⟨none, helper⟩ (some active)

/-- C16: on X11, `hook_stop()` called while the pointer `hook` is `NULL` makes no call and returns
`UIOHOOK_FAILURE`; the pointer is `NULL` before any `hook_run` (the initial value of the static)
and after every `hook_run` that has returned. -/
theorem x11_hook_stop_not_running (X : X11.StopServer) (helper : HelperState) (H : Header)
    (S : X11.Server) (st : X11.HookState) :
    X11.hook_stop X ⟨none, helper⟩ = (UIOHOOK_FAILURE, [])
    ∧ (X11.hook_run H S st).2.1.hook = none
    ∧ X11.hook_stop X (X11.hook_run H S st).2.1 = (UIOHOOK_FAILURE, []) := by
  refine ⟨rfl, x11_hook_run_clears_hook H S st, ?_⟩
  have h := x11_hook_run_clears_hook H S st
  unfold X11.hook_stop
  rw [h]

/-- The X11 `hook_stop()` after a complete run on the sample server: no call, `UIOHOOK_FAILURE`. -/
theorem x11_hook_stop_not_running_sample :
    X11.hook_stop ⟨true, some true, true⟩
        (X11.hook_run uiohook_h sample_x11_server ⟨none, ⟨0, some 1, none⟩⟩).2.1
      = (UIOHOOK_FAILURE, []) := by
  decide

/-- C17 as stated fails.  After a `hook_run` on thread 9 has returned (no hook is installed),
`hook_stop()` still posts `WM_QUIT` to thread 9 and, the post succeeding, returns
`UIOHOOK_SUCCESS`; before any `hook_run` it calls `PostThreadMessage` for thread id 0. -/
theorem windows_hook_stop_not_running_counterexample :
    (Windows.hook_run uiohook_h sample_windows_server ⟨0, none, none, some 1⟩).2.1
      = ⟨9, none, none, some 1⟩
    ∧ Windows.hook_stop (fun idThread _ => decide (idThread = 9))
        (Windows.hook_run uiohook_h sample_windows_server ⟨0, none, none, some 1⟩).2.1
      = (UIOHOOK_SUCCESS, [Windows.Call.PostThreadMessage 9 Windows.WM_QUIT true])
    ∧ Windows.hook_stop (fun idThread _ => decide (idThread = 9)) ⟨0, none, none, none⟩
      = (UIOHOOK_FAILURE, [Windows.Call.PostThreadMessage 0 Windows.WM_QUIT false]) := by
  decide

/-- C17, amended: on Windows `hook_stop()` makes no check for an active run; it always calls
`PostThreadMessage` once, for `WM_QUIT` on the saved thread id, and returns `UIOHOOK_SUCCESS`
when the post succeeds and `UIOHOOK_FAILURE` when it fails.  The saved thread id is whatever the
last `hook_run` stored, also after that run has returned. -/
theorem windows_hook_stop_always_posts (PostThreadMessage : Nat → Nat → Bool)
    (st : Windows.HookState) :
    Windows.hook_stop PostThreadMessage st
      = (if PostThreadMessage st.hook_thread_id Windows.WM_QUIT then UIOHOOK_SUCCESS
          else UIOHOOK_FAILURE,
         [Windows.Call.PostThreadMessage st.hook_thread_id Windows.WM_QUIT
           (PostThreadMessage st.hook_thread_id Windows.WM_QUIT)])
    ∧ ∀ (H : Header) (S : Windows.Server) (before : Windows.HookState),
        (Windows.hook_run H S before).2.1.hook_thread_id = S.GetCurrentThreadId := by
  refine ⟨rfl, fun H S before => ?_⟩
  obtain ⟨thread, keyboard, mouse, hInst⟩ := before
  exact (windows_hook_run_ignores_handles H S hInst thread 0 keyboard mouse none none).2.2

/-- C18: `hook_stop()` returns `UIOHOOK_SUCCESS` exactly when the stop signal was delivered.  On
Windows: exactly when the post of `WM_QUIT` to the saved thread id succeeds.  On X11: exactly when
`XRecordDisableContext` was called and succeeded, which is exactly when the hook structure has a
control display and a context, the `XRecordState` was allocated, `XRecordGetContext` found the
context, the context is enabled and `XRecordDisableContext` succeeds; the calls are then the
allocation, `XRecordGetContext`, `XRecordDisableContext`, `XSync` on the control display and the
release of the state, in this order. -/
theorem hook_stop_success_iff_delivered :
    (∀ (PostThreadMessage : Nat → Nat → Bool) (st : Windows.HookState),
      (Windows.hook_stop PostThreadMessage st).1 = UIOHOOK_SUCCESS
        ↔ PostThreadMessage st.hook_thread_id Windows.WM_QUIT = true)
    ∧ (∀ (X : X11.StopServer) (st : X11.HookState),
      ((X11.hook_stop X st).1 = UIOHOOK_SUCCESS
        ↔ ∃ hook, st.hook = some hook ∧ hook.ctrl_display ≠ none ∧ hook.ctrl_context ≠ 0
            ∧ X.malloc_state = true ∧ X.XRecordGetContext = some true
            ∧ X.XRecordDisableContext = true)
      ∧ ((X11.hook_stop X st).1 = UIOHOOK_SUCCESS
        ↔ ∃ display context,
            X11.Call.XRecordDisableContext display context true ∈ (X11.hook_stop X st).2)
      ∧ ((X11.hook_stop X st).1 = UIOHOOK_SUCCESS →
          ∃ hook, st.hook = some hook
            ∧ (X11.hook_stop X st).2
              = [X11.Call.malloc_state true,
                 X11.Call.XRecordGetContext hook.ctrl_display hook.ctrl_context (some true),
                 X11.Call.XRecordDisableContext hook.ctrl_display hook.ctrl_context true,
                 X11.Call.XSync hook.ctrl_display, X11.Call.free_state])) := by
  refine ⟨fun P st => ?_, fun X st => ?_⟩
  · unfold Windows.hook_stop
    cases P st.hook_thread_id Windows.WM_QUIT <;> simp
  · obtain ⟨hook, helper⟩ := st
    obtain ⟨malloc_state, get, disable⟩ := X
    cases hook with
    | none => simp [X11.hook_stop]
    | some hook =>
      by_cases hd : hook.ctrl_display = none
      · simp [X11.hook_stop, hd]
      by_cases hc : hook.ctrl_context = 0
      · simp [X11.hook_stop, hc]
      cases malloc_state
      · simp [X11.hook_stop, hd, hc]
      cases get with
      | none => simp [X11.hook_stop, hd, hc]
      | some enabled =>
        cases enabled <;> cases disable <;> simp [X11.hook_stop, hd, hc]

/-- The X11 `hook_stop()` on an active run, evaluated: with the context found, enabled and
disabled it returns `UIOHOOK_SUCCESS` after `XSync`; with the context found but not enabled it
returns `UIOHOOK_FAILURE`; with the context not found `UIOHOOK_ERROR_X_RECORD_GET_CONTEXT`. -/
theorem x11_hook_stop_sample :
    X11.hook_stop ⟨true, some true, true⟩ ⟨some ⟨some 6, some 7, some 5, 8⟩, ⟨0, some 1, none⟩⟩
      = (UIOHOOK_SUCCESS,
         [X11.Call.malloc_state true, X11.Call.XRecordGetContext (some 5) 8 (some true),
          X11.Call.XRecordDisableContext (some 5) 8 true, X11.Call.XSync (some 5),
          X11.Call.free_state])
    ∧ X11.hook_stop ⟨true, some false, true⟩
        ⟨some ⟨some 6, some 7, some 5, 8⟩, ⟨0, some 1, none⟩⟩
      = (UIOHOOK_FAILURE,
         [X11.Call.malloc_state true, X11.Call.XRecordGetContext (some 5) 8 (some false),
          X11.Call.free_state])
    ∧ X11.hook_stop ⟨true, none, true⟩ ⟨some ⟨some 6, some 7, some 5, 8⟩, ⟨0, some 1, none⟩⟩
      = (UIOHOOK_ERROR_X_RECORD_GET_CONTEXT,
         [X11.Call.malloc_state true, X11.Call.XRecordGetContext (some 5) 8 none,
          X11.Call.free_state]) := by
  decide

/-- The `switch` of the mouse hook procedure calls neither `dispatch_hook_enable` nor
`dispatch_hook_disable`. -/
theorem mouse_hook_event_switch_no_bracket (H : Header) (timestamp wParam : Nat)
    (mshook : Windows.MSLLHOOKSTRUCT) (consumed : Bool) :
    (Windows.mouse_hook_event_switch H timestamp wParam mshook consumed).2.countP is_hook_enable
      = 0
    ∧ (Windows.mouse_hook_event_switch H timestamp wParam mshook consumed).2.countP
      is_hook_disable = 0 := by
  unfold Windows.mouse_hook_event_switch
  simp only []
  by_cases h2_0 : wParam = Windows.WM_LBUTTONDOWN
  · rw [if_pos h2_0]
    exact ⟨rfl, rfl⟩
  rw [if_neg h2_0]
  by_cases h2_1 : wParam = Windows.WM_RBUTTONDOWN
  · rw [if_pos h2_1]
    exact ⟨rfl, rfl⟩
  rw [if_neg h2_1]
  by_cases h2_2 : wParam = Windows.WM_MBUTTONDOWN
  · rw [if_pos h2_2]
    exact ⟨rfl, rfl⟩
  rw [if_neg h2_2]
  by_cases h2_3 : wParam = Windows.WM_XBUTTONDOWN ∨ wParam = Windows.WM_NCXBUTTONDOWN
  · rw [if_pos h2_3]
    by_cases h4_0 : Windows.HIWORD mshook.mouseData = Windows.XBUTTON1
    · rw [if_pos h4_0]
      exact ⟨rfl, rfl⟩
    rw [if_neg h4_0]
    by_cases h4_1 : Windows.HIWORD mshook.mouseData = Windows.XBUTTON2
    · rw [if_pos h4_1]
      exact ⟨rfl, rfl⟩
    rw [if_neg h4_1]
    by_cases h4_2 : Windows.HIWORD mshook.mouseData = 4
    · rw [if_pos h4_2]
      exact ⟨rfl, rfl⟩
    rw [if_neg h4_2]
    by_cases h4_3 : Windows.HIWORD mshook.mouseData = 5
    · rw [if_pos h4_3]
      exact ⟨rfl, rfl⟩
    rw [if_neg h4_3]
    exact ⟨rfl, rfl⟩
  rw [if_neg h2_3]
  by_cases h2_4 : wParam = Windows.WM_LBUTTONUP
  · rw [if_pos h2_4]
    exact ⟨rfl, rfl⟩
  rw [if_neg h2_4]
  by_cases h2_5 : wParam = Windows.WM_RBUTTONUP
  · rw [if_pos h2_5]
    exact ⟨rfl, rfl⟩
  rw [if_neg h2_5]
  by_cases h2_6 : wParam = Windows.WM_MBUTTONUP
  · rw [if_pos h2_6]
    exact ⟨rfl, rfl⟩
  rw [if_neg h2_6]
  by_cases h2_7 : wParam = Windows.WM_XBUTTONUP ∨ wParam = Windows.WM_NCXBUTTONUP
  · rw [if_pos h2_7]
    by_cases h4_0 : Windows.HIWORD mshook.mouseData = Windows.XBUTTON1
    · rw [if_pos h4_0]
      exact ⟨rfl, rfl⟩
    rw [if_neg h4_0]
    by_cases h4_1 : Windows.HIWORD mshook.mouseData = Windows.XBUTTON2
    · rw [if_pos h4_1]
      exact ⟨rfl, rfl⟩
    rw [if_neg h4_1]
    by_cases h4_2 : Windows.HIWORD mshook.mouseData = 4
    · rw [if_pos h4_2]
      exact ⟨rfl, rfl⟩
    rw [if_neg h4_2]
    by_cases h4_3 : Windows.HIWORD mshook.mouseData = 5
    · rw [if_pos h4_3]
      exact ⟨rfl, rfl⟩
    rw [if_neg h4_3]
    exact ⟨rfl, rfl⟩
  rw [if_neg h2_7]
  by_cases h2_8 : wParam = Windows.WM_MOUSEMOVE
  · rw [if_pos h2_8]
    exact ⟨rfl, rfl⟩
  rw [if_neg h2_8]
  by_cases h2_9 : wParam = Windows.WM_MOUSEWHEEL
  · rw [if_pos h2_9]
    exact ⟨rfl, rfl⟩
  rw [if_neg h2_9]
  by_cases h2_10 : wParam = Windows.WM_MOUSEHWHEEL
  · rw [if_pos h2_10]
    exact ⟨rfl, rfl⟩
  rw [if_neg h2_10]
  exact ⟨rfl, rfl⟩

/-- No invocation of a hook procedure calls `dispatch_hook_enable` or `dispatch_hook_disable`. -/
theorem hook_callback_no_bracket (H : Header) (st : Windows.HookState)
    (callback : Windows.HookCallback) :
    (Windows.hook_callback H st callback).countP is_hook_enable = 0
    ∧ (Windows.hook_callback H st callback).countP is_hook_disable = 0 := by
  cases callback with
  | keyboard epoch nCode wParam kbhook consumed next =>
    unfold Windows.hook_callback Windows.keyboard_hook_event_proc
    simp only []
    split_ifs <;> exact ⟨rfl, rfl⟩
  | mouse epoch nCode wParam mshook consumed next =>
    have h1 := fun t w m c => (mouse_hook_event_switch_no_bracket H t w m c).1
    have h2 := fun t w m c => (mouse_hook_event_switch_no_bracket H t w m c).2
    unfold Windows.hook_callback Windows.mouse_hook_event_proc
    simp only []
    split_ifs
    · simp only [List.countP_append, h1, h2]
      exact ⟨rfl, rfl⟩
    · exact ⟨h1 _ _ _ _, h2 _ _ _ _⟩

/-- The message loop calls neither `dispatch_hook_enable` nor `dispatch_hook_disable`. -/
theorem message_loop_no_bracket (H : Header) (S : Windows.Server) (st : Windows.HookState) :
    (Windows.message_loop H S st).countP is_hook_enable = 0
    ∧ (Windows.message_loop H S st).countP is_hook_disable = 0 := by
  have hcb : ∀ (p : Windows.Call → Bool),
      (∀ callback, (Windows.hook_callback H st callback).countP p = 0) →
      ∀ callbacks : List Windows.HookCallback,
        ((callbacks.map (Windows.hook_callback H st)).flatten).countP p = 0 := by
    intro p hp callbacks
    induction callbacks with
    | nil => rfl
    | cons c cs ih => simp only [List.map_cons, List.flatten_cons, List.countP_append, hp, ih]
  have hloop : ∀ (p : Windows.Call → Bool),
      (∀ callback, (Windows.hook_callback H st callback).countP p = 0) →
      p (Windows.Call.GetMessage 1) = false → p Windows.Call.TranslateMessage = false →
      p Windows.Call.DispatchMessage = false →
      p (Windows.Call.GetMessage (if S.quit_error then -1 else 0)) = false →
      (Windows.message_loop H S st).countP p = 0 := by
    intro p hp g1 g2 g3 g4
    unfold Windows.message_loop
    have hmsgs : ∀ messages : List (List Windows.HookCallback),
        ((messages.map fun callbacks =>
          (callbacks.map (Windows.hook_callback H st)).flatten
            ++ [Windows.Call.GetMessage 1, Windows.Call.TranslateMessage,
                Windows.Call.DispatchMessage]).flatten).countP p = 0 := by
      intro messages
      induction messages with
      | nil => rfl
      | cons m ms ih =>
        simp only [List.map_cons, List.flatten_cons, List.countP_append, hcb p hp, ih,
          List.countP_cons, List.countP_nil, g1, g2, g3]
        rfl
    simp only [List.countP_append, hmsgs, hcb p hp, List.countP_cons, List.countP_nil, g4]
    rfl
  refine ⟨hloop _ (fun cb => (hook_callback_no_bracket H st cb).1) rfl rfl rfl rfl,
    hloop _ (fun cb => (hook_callback_no_bracket H st cb).2) rfl rfl rfl rfl⟩

/-- C19: on Windows, a `hook_run()` that returns `UIOHOOK_SUCCESS` calls `dispatch_hook_enable`
exactly once and `dispatch_hook_disable` exactly once: its calls are the prologue, the two
`SetWindowsHookEx` calls (both successful), `load_input_helper`, `dispatch_hook_enable`, the
message loop, `dispatch_hook_disable`, `unload_input_helper` and the two `UnhookWindowsHookEx`
calls, in this order.  A `hook_run()` that returns any other code calls neither dispatcher. -/
theorem windows_hook_run_brackets (H : Header) (S : Windows.Server) (st : Windows.HookState) :
    ((Windows.hook_run H S st).1 = UIOHOOK_SUCCESS →
      S.SetWindowsHookEx_keyboard ≠ none ∧ S.SetWindowsHookEx_mouse ≠ none
      ∧ (Windows.hook_run H S st).2.2
        = run_prologue S st
          ++ [Windows.Call.SetWindowsHookEx Windows.WH_KEYBOARD_LL (run_module_handle S st)
                S.SetWindowsHookEx_keyboard,
              Windows.Call.SetWindowsHookEx Windows.WH_MOUSE_LL (run_module_handle S st)
                S.SetWindowsHookEx_mouse,
              Windows.Call.load_input_helper UIOHOOK_SUCCESS,
              Windows.Call.dispatch_hook_enable S.start_time]
          ++ Windows.message_loop H S (running_state S st)
          ++ [Windows.Call.dispatch_hook_disable S.end_time, Windows.Call.unload_input_helper,
              Windows.Call.UnhookWindowsHookEx S.SetWindowsHookEx_keyboard,
              Windows.Call.UnhookWindowsHookEx S.SetWindowsHookEx_mouse]
      ∧ (Windows.hook_run H S st).2.2.countP is_hook_enable = 1
      ∧ (Windows.hook_run H S st).2.2.countP is_hook_disable = 1)
    ∧ ((Windows.hook_run H S st).1 ≠ UIOHOOK_SUCCESS →
      (Windows.hook_run H S st).2.2.countP is_hook_enable = 0
      ∧ (Windows.hook_run H S st).2.2.countP is_hook_disable = 0) := by
  have hloop := message_loop_no_bracket H S (running_state S st)
  obtain ⟨thread, keyboard, mouse, hInst⟩ := st
  unfold Windows.hook_run
  simp only [unregister_running_hooks_state, unregister_running_hooks_calls, run_prologue,
    run_module_handle, running_state] at hloop ⊢
  cases hInst <;> cases hg : S.GetModuleHandle <;> cases hk : S.SetWindowsHookEx_keyboard <;>
    cases hm : S.SetWindowsHookEx_mouse <;>
    by_cases hl : S.load_input_helper = UIOHOOK_SUCCESS <;>
    simp [hg, hk, hm, hl, List.countP_append, List.countP_cons, is_hook_enable,
      is_hook_disable] at hloop ⊢ <;>
    exact hloop

/-- A successful Windows `hook_run` on the sample system: the calls made, with
`dispatch_hook_enable` after the two `SetWindowsHookEx` calls and before the first `GetMessage`,
and `dispatch_hook_disable` after the last callback and before the `UnhookWindowsHookEx` calls. -/
theorem windows_hook_run_sample :
    Windows.hook_run uiohook_h sample_windows_server ⟨0, none, none, some 1⟩
      = (UIOHOOK_SUCCESS, ⟨9, none, none, some 1⟩,
         [Windows.Call.GetCurrentThreadId 9,
          Windows.Call.SetWindowsHookEx Windows.WH_KEYBOARD_LL (some 1) (some 21),
          Windows.Call.SetWindowsHookEx Windows.WH_MOUSE_LL (some 1) (some 22),
          Windows.Call.load_input_helper UIOHOOK_SUCCESS,
          Windows.Call.dispatch_hook_enable 500]
         ++ Windows.message_loop uiohook_h sample_windows_server ⟨9, some 21, some 22, some 1⟩
         ++ [Windows.Call.dispatch_hook_disable 2000, Windows.Call.unload_input_helper,
             Windows.Call.UnhookWindowsHookEx (some 21),
             Windows.Call.UnhookWindowsHookEx (some 22)])
    ∧ (Windows.message_loop uiohook_h sample_windows_server
        ⟨9, some 21, some 22, some 1⟩).length = 9 := by
  refine ⟨by decide, by decide⟩

/-- The extra-button branch of `mouse_hook_event_switch`: when the high word of `mouseData` is
neither `XBUTTON1` nor `XBUTTON2`, a `WM_XBUTTONDOWN` message dispatches a press with that high
word as button index, and the `WM_XBUTTONUP` message with the same `mouseData` dispatches a
release with `MOUSE_BUTTON5`. -/
theorem mouse_hook_event_switch_extra_button (H : Header) (timestamp : Nat)
    (mshook : Windows.MSLLHOOKSTRUCT) (consumed : Bool)
    (h1 : Windows.HIWORD mshook.mouseData ≠ Windows.XBUTTON1)
    (h2 : Windows.HIWORD mshook.mouseData ≠ Windows.XBUTTON2) :
    (Windows.mouse_hook_event_switch H timestamp Windows.WM_XBUTTONDOWN mshook consumed).2.filter
        (fun c => is_press_of (Windows.HIWORD mshook.mouseData) c)
      = [Windows.Call.dispatch_button_press timestamp mshook (Windows.HIWORD mshook.mouseData)]
    ∧ (Windows.mouse_hook_event_switch H timestamp Windows.WM_XBUTTONUP mshook consumed).2.filter
        (fun c => is_release_of H.MOUSE_BUTTON5 c)
      = [Windows.Call.dispatch_button_release timestamp mshook H.MOUSE_BUTTON5] := by
  unfold Windows.mouse_hook_event_switch
  simp only [Windows.WM_XBUTTONDOWN, Windows.WM_XBUTTONUP, Windows.WM_LBUTTONDOWN,
    Windows.WM_RBUTTONDOWN, Windows.WM_MBUTTONDOWN, Windows.WM_NCXBUTTONDOWN,
    Windows.WM_LBUTTONUP, Windows.WM_RBUTTONUP, Windows.WM_MBUTTONUP, Windows.WM_NCXBUTTONUP,
    if_neg h1, if_neg h2]
  constructor
  · by_cases h4 : Windows.HIWORD mshook.mouseData = 4
    · simp [h4, is_press_of]
    · by_cases h5 : Windows.HIWORD mshook.mouseData = 5
      · simp [h5, is_press_of]
      · simp [h4, h5, is_press_of]
  · by_cases h4 : Windows.HIWORD mshook.mouseData = 4
    · simp [h4, is_release_of]
    · by_cases h5 : Windows.HIWORD mshook.mouseData = 5
      · simp [h5, is_release_of]
      · simp [h4, h5, is_release_of]

/-- C20: on Windows, a `WM_XBUTTONDOWN` message followed by the `WM_XBUTTONUP` message with the
same `mouseData` `0x00040000` (high word 4, an extra button) dispatches the press with button
index 4 and the release with button index 5 (`MOUSE_BUTTON5`): over this sequence button 4 has
one press dispatch and no release dispatch, and button 5 has one release dispatch and no press
dispatch. -/
theorem windows_button_release_index :
    mouse_messages_calls uiohook_h ⟨9, some 21, some 22, some 1⟩
        [(Windows.WM_XBUTTONDOWN, sample_mshook 0x00040000),
         (Windows.WM_XBUTTONUP, sample_mshook 0x00040000)]
      = [Windows.Call.set_modifier_mask 4,
         Windows.Call.dispatch_button_press 1000 (sample_mshook 0x00040000) 4,
         Windows.Call.CallNextHookEx (some 22) 0 Windows.WM_XBUTTONDOWN 0,
         Windows.Call.unset_modifier_mask 4,
         Windows.Call.dispatch_button_release 1000 (sample_mshook 0x00040000) 5,
         Windows.Call.CallNextHookEx (some 22) 0 Windows.WM_XBUTTONUP 0]
    ∧ (mouse_messages_calls uiohook_h ⟨9, some 21, some 22, some 1⟩
        [(Windows.WM_XBUTTONDOWN, sample_mshook 0x00040000),
         (Windows.WM_XBUTTONUP, sample_mshook 0x00040000)]).countP (is_press_of 4) = 1
    ∧ (mouse_messages_calls uiohook_h ⟨9, some 21, some 22, some 1⟩
        [(Windows.WM_XBUTTONDOWN, sample_mshook 0x00040000),
         (Windows.WM_XBUTTONUP, sample_mshook 0x00040000)]).countP (is_release_of 4) = 0
    ∧ (mouse_messages_calls uiohook_h ⟨9, some 21, some 22, some 1⟩
        [(Windows.WM_XBUTTONDOWN, sample_mshook 0x00040000),
         (Windows.WM_XBUTTONUP, sample_mshook 0x00040000)]).countP (is_press_of 5) = 0
    ∧ (mouse_messages_calls uiohook_h ⟨9, some 21, some 22, some 1⟩
        [(Windows.WM_XBUTTONDOWN, sample_mshook 0x00040000),
         (Windows.WM_XBUTTONUP, sample_mshook 0x00040000)]).countP (is_release_of 5) = 1 := by
  refine ⟨by decide, by decide, by decide, by decide, by decide⟩

/-- The standard buttons on Windows: a button-down message for the left, right or middle button,
or for `XBUTTON1` or `XBUTTON2`, followed by its button-up message dispatches the press and the
release with the same button index. -/
theorem windows_standard_button_pairs :
    (mouse_messages_calls uiohook_h ⟨9, some 21, some 22, some 1⟩
        [(Windows.WM_LBUTTONDOWN, sample_mshook 0), (Windows.WM_LBUTTONUP, sample_mshook 0),
         (Windows.WM_RBUTTONDOWN, sample_mshook 0), (Windows.WM_RBUTTONUP, sample_mshook 0),
         (Windows.WM_MBUTTONDOWN, sample_mshook 0), (Windows.WM_MBUTTONUP, sample_mshook 0),
         (Windows.WM_XBUTTONDOWN, sample_mshook 0x00010000),
         (Windows.WM_XBUTTONUP, sample_mshook 0x00010000),
         (Windows.WM_XBUTTONDOWN, sample_mshook 0x00020000),
         (Windows.WM_XBUTTONUP, sample_mshook 0x00020000)]).filterMap
      (fun c => match c with
        | Windows.Call.dispatch_button_press _ _ b => some (true, b)
        | Windows.Call.dispatch_button_release _ _ b => some (false, b)
        | _ => none)
      = [(true, 1), (false, 1), (true, 2), (false, 2), (true, 3), (false, 3),
         (true, 4), (false, 4), (true, 5), (false, 5)] := by
  decide

/-! ## Hook procedures, install and release of a run, intercepted data -/

/-- After the `switch` of the mouse hook procedure, `consumed` holds the answer of the dispatcher
when the message is one that the procedure dispatches, and `false` otherwise. -/
theorem mouse_hook_event_switch_consumed (H : Header) (timestamp wParam : Nat)
    (mshook : Windows.MSLLHOOKSTRUCT) (consumed : Bool) :
    (Windows.mouse_hook_event_switch H timestamp wParam mshook consumed).1
      = mouse_event_consumed wParam consumed := by
  unfold Windows.mouse_hook_event_switch mouse_event_consumed
  simp only []
  by_cases h0 : wParam = Windows.WM_LBUTTONDOWN
  · rw [if_pos h0]
    simp [h0]
  rw [if_neg h0]
  by_cases h1 : wParam = Windows.WM_RBUTTONDOWN
  · rw [if_pos h1]
    simp [h1]
  rw [if_neg h1]
  by_cases h2 : wParam = Windows.WM_MBUTTONDOWN
  · rw [if_pos h2]
    simp [h2]
  rw [if_neg h2]
  by_cases h3 : wParam = Windows.WM_XBUTTONDOWN ∨ wParam = Windows.WM_NCXBUTTONDOWN
  · rw [if_pos h3]
    by_cases g3_0 : Windows.HIWORD mshook.mouseData = Windows.XBUTTON1
    · rw [if_pos g3_0]
      rcases h3 with h | h <;> simp [h]
    rw [if_neg g3_0]
    by_cases g3_1 : Windows.HIWORD mshook.mouseData = Windows.XBUTTON2
    · rw [if_pos g3_1]
      rcases h3 with h | h <;> simp [h]
    rw [if_neg g3_1]
    by_cases g3_2 : Windows.HIWORD mshook.mouseData = 4
    · rw [if_pos g3_2]
      rcases h3 with h | h <;> simp [h]
    rw [if_neg g3_2]
    by_cases g3_3 : Windows.HIWORD mshook.mouseData = 5
    · rw [if_pos g3_3]
      rcases h3 with h | h <;> simp [h]
    rw [if_neg g3_3]
    rcases h3 with h | h <;> simp [h]
  rw [if_neg h3]
  by_cases h4 : wParam = Windows.WM_LBUTTONUP
  · rw [if_pos h4]
    simp [h4]
  rw [if_neg h4]
  by_cases h5 : wParam = Windows.WM_RBUTTONUP
  · rw [if_pos h5]
    simp [h5]
  rw [if_neg h5]
  by_cases h6 : wParam = Windows.WM_MBUTTONUP
  · rw [if_pos h6]
    simp [h6]
  rw [if_neg h6]
  by_cases h7 : wParam = Windows.WM_XBUTTONUP ∨ wParam = Windows.WM_NCXBUTTONUP
  · rw [if_pos h7]
    by_cases g7_0 : Windows.HIWORD mshook.mouseData = Windows.XBUTTON1
    · rw [if_pos g7_0]
      rcases h7 with h | h <;> simp [h]
    rw [if_neg g7_0]
    by_cases g7_1 : Windows.HIWORD mshook.mouseData = Windows.XBUTTON2
    · rw [if_pos g7_1]
      rcases h7 with h | h <;> simp [h]
    rw [if_neg g7_1]
    by_cases g7_2 : Windows.HIWORD mshook.mouseData = 4
    · rw [if_pos g7_2]
      rcases h7 with h | h <;> simp [h]
    rw [if_neg g7_2]
    by_cases g7_3 : Windows.HIWORD mshook.mouseData = 5
    · rw [if_pos g7_3]
      rcases h7 with h | h <;> simp [h]
    rw [if_neg g7_3]
    rcases h7 with h | h <;> simp [h]
  rw [if_neg h7]
  by_cases h8 : wParam = Windows.WM_MOUSEMOVE
  · rw [if_pos h8]
    simp [h8]
  rw [if_neg h8]
  by_cases h9 : wParam = Windows.WM_MOUSEWHEEL
  · rw [if_pos h9]
    simp [h9]
  rw [if_neg h9]
  by_cases h10 : wParam = Windows.WM_MOUSEHWHEEL
  · rw [if_pos h10]
    simp [h10]
  rw [if_neg h10]
  simp [h0, h1, h2, h3, h4, h5, h6, h7, h8, h9, h10]

/-- The `switch` of the mouse hook procedure does not call `CallNextHookEx`. -/
theorem mouse_hook_event_switch_no_next (H : Header) (timestamp wParam : Nat)
    (mshook : Windows.MSLLHOOKSTRUCT) (consumed : Bool) :
    (Windows.mouse_hook_event_switch H timestamp wParam mshook consumed).2.countP is_call_next
      = 0 := by
  unfold Windows.mouse_hook_event_switch
  simp only []
  by_cases h0 : wParam = Windows.WM_LBUTTONDOWN
  · rw [if_pos h0]
    rfl
  rw [if_neg h0]
  by_cases h1 : wParam = Windows.WM_RBUTTONDOWN
  · rw [if_pos h1]
    rfl
  rw [if_neg h1]
  by_cases h2 : wParam = Windows.WM_MBUTTONDOWN
  · rw [if_pos h2]
    rfl
  rw [if_neg h2]
  by_cases h3 : wParam = Windows.WM_XBUTTONDOWN ∨ wParam = Windows.WM_NCXBUTTONDOWN
  · rw [if_pos h3]
    by_cases g3_0 : Windows.HIWORD mshook.mouseData = Windows.XBUTTON1
    · rw [if_pos g3_0]
      rfl
    rw [if_neg g3_0]
    by_cases g3_1 : Windows.HIWORD mshook.mouseData = Windows.XBUTTON2
    · rw [if_pos g3_1]
      rfl
    rw [if_neg g3_1]
    by_cases g3_2 : Windows.HIWORD mshook.mouseData = 4
    · rw [if_pos g3_2]
      rfl
    rw [if_neg g3_2]
    by_cases g3_3 : Windows.HIWORD mshook.mouseData = 5
    · rw [if_pos g3_3]
      rfl
    rw [if_neg g3_3]
    rfl
  rw [if_neg h3]
  by_cases h4 : wParam = Windows.WM_LBUTTONUP
  · rw [if_pos h4]
    rfl
  rw [if_neg h4]
  by_cases h5 : wParam = Windows.WM_RBUTTONUP
  · rw [if_pos h5]
    rfl
  rw [if_neg h5]
  by_cases h6 : wParam = Windows.WM_MBUTTONUP
  · rw [if_pos h6]
    rfl
  rw [if_neg h6]
  by_cases h7 : wParam = Windows.WM_XBUTTONUP ∨ wParam = Windows.WM_NCXBUTTONUP
  · rw [if_pos h7]
    by_cases g7_0 : Windows.HIWORD mshook.mouseData = Windows.XBUTTON1
    · rw [if_pos g7_0]
      rfl
    rw [if_neg g7_0]
    by_cases g7_1 : Windows.HIWORD mshook.mouseData = Windows.XBUTTON2
    · rw [if_pos g7_1]
      rfl
    rw [if_neg g7_1]
    by_cases g7_2 : Windows.HIWORD mshook.mouseData = 4
    · rw [if_pos g7_2]
      rfl
    rw [if_neg g7_2]
    by_cases g7_3 : Windows.HIWORD mshook.mouseData = 5
    · rw [if_pos g7_3]
      rfl
    rw [if_neg g7_3]
    rfl
  rw [if_neg h7]
  by_cases h8 : wParam = Windows.WM_MOUSEMOVE
  · rw [if_pos h8]
    rfl
  rw [if_neg h8]
  by_cases h9 : wParam = Windows.WM_MOUSEWHEEL
  · rw [if_pos h9]
    rfl
  rw [if_neg h9]
  by_cases h10 : wParam = Windows.WM_MOUSEHWHEEL
  · rw [if_pos h10]
    rfl
  rw [if_neg h10]
  rfl

/-- The tail of both Windows hook procedures, `if (nCode < 0 || !consumed) { hook_result =
CallNextHookEx(..); }` with `hook_result` starting as `-1`, after dispatch calls `calls` that do
not call `CallNextHookEx`. -/
theorem hook_proc_tail (hhook : Option Nat) (nCode : Int) (wParam : Nat) (next : Int)
    (consumed : Bool) (calls : List Windows.Call) (hc : calls.countP is_call_next = 0) :
    ((nCode < 0 ∨ consumed = false) →
      (if nCode < 0 ∨ consumed = false then
          (next, calls ++ [Windows.Call.CallNextHookEx hhook nCode wParam next])
        else ((-1 : Int), calls)).1 = next
      ∧ (if nCode < 0 ∨ consumed = false then
          (next, calls ++ [Windows.Call.CallNextHookEx hhook nCode wParam next])
        else ((-1 : Int), calls)).2.countP is_call_next = 1
      ∧ (if nCode < 0 ∨ consumed = false then
          (next, calls ++ [Windows.Call.CallNextHookEx hhook nCode wParam next])
        else ((-1 : Int), calls)).2.getLast?
        = some (Windows.Call.CallNextHookEx hhook nCode wParam next))
    ∧ (¬ (nCode < 0 ∨ consumed = false) →
      (if nCode < 0 ∨ consumed = false then
          (next, calls ++ [Windows.Call.CallNextHookEx hhook nCode wParam next])
        else ((-1 : Int), calls)).1 = -1
      ∧ (if nCode < 0 ∨ consumed = false then
          (next, calls ++ [Windows.Call.CallNextHookEx hhook nCode wParam next])
        else ((-1 : Int), calls)).2.countP is_call_next = 0) := by
  constructor
  · intro h
    rw [if_pos h]
    refine ⟨rfl, ?_, ?_⟩
    · rw [List.countP_append, hc]; rfl
    · simp
  · intro h
    rw [if_neg h]
    exact ⟨rfl, hc⟩

/-- The `switch` of the keyboard hook procedure: `consumed` after it and the calls made. -/
theorem keyboard_hook_event_proc_eq (st : Windows.HookState) (epoch : Option Nat) (nCode : Int)
    (wParam : Nat) (kbhook : Windows.KBDLLHOOKSTRUCT) (consumed : Bool) (next : Int) :
    ∃ calls : List Windows.Call, calls.countP is_call_next = 0
      ∧ Windows.keyboard_hook_event_proc st epoch nCode wParam kbhook consumed next
        = (if nCode < 0 ∨ keyboard_event_consumed wParam consumed = false then
            (next, calls ++ [Windows.Call.CallNextHookEx st.keyboard_event_hhook nCode wParam
              next])
          else ((-1 : Int), calls)) := by
  have key : ∀ timestamp : Nat, ∃ calls : List Windows.Call, calls.countP is_call_next = 0
      ∧ (if nCode < 0
            ∨ (if wParam = Windows.WM_KEYDOWN ∨ wParam = Windows.WM_SYSKEYDOWN then
                (consumed, [Windows.Call.dispatch_key_press timestamp kbhook])
              else if wParam = Windows.WM_KEYUP ∨ wParam = Windows.WM_SYSKEYUP then
                (consumed, [Windows.Call.dispatch_key_release timestamp kbhook])
              else (false, [])).1 = false then
          (next,
            (if wParam = Windows.WM_KEYDOWN ∨ wParam = Windows.WM_SYSKEYDOWN then
                (consumed, [Windows.Call.dispatch_key_press timestamp kbhook])
              else if wParam = Windows.WM_KEYUP ∨ wParam = Windows.WM_SYSKEYUP then
                (consumed, [Windows.Call.dispatch_key_release timestamp kbhook])
              else (false, [])).2
              ++ [Windows.Call.CallNextHookEx st.keyboard_event_hhook nCode wParam next])
        else ((-1 : Int),
            (if wParam = Windows.WM_KEYDOWN ∨ wParam = Windows.WM_SYSKEYDOWN then
                (consumed, [Windows.Call.dispatch_key_press timestamp kbhook])
              else if wParam = Windows.WM_KEYUP ∨ wParam = Windows.WM_SYSKEYUP then
                (consumed, [Windows.Call.dispatch_key_release timestamp kbhook])
              else (false, [])).2))
        = (if nCode < 0 ∨ keyboard_event_consumed wParam consumed = false then
            (next, calls ++ [Windows.Call.CallNextHookEx st.keyboard_event_hhook nCode wParam
              next])
          else ((-1 : Int), calls)) := by
    intro timestamp
    unfold keyboard_event_consumed
    by_cases h0 : wParam = Windows.WM_KEYDOWN ∨ wParam = Windows.WM_SYSKEYDOWN
    · rw [if_pos h0]
      refine ⟨[Windows.Call.dispatch_key_press timestamp kbhook], rfl, ?_⟩
      rcases h0 with h | h <;> simp [h]
    rw [if_neg h0]
    by_cases h1 : wParam = Windows.WM_KEYUP ∨ wParam = Windows.WM_SYSKEYUP
    · rw [if_pos h1]
      refine ⟨[Windows.Call.dispatch_key_release timestamp kbhook], rfl, ?_⟩
      rcases h1 with h | h <;> simp [h]
    rw [if_neg h1]
    refine ⟨[], rfl, ?_⟩
    have h0a : ¬ wParam = Windows.WM_KEYDOWN := fun h => h0 (Or.inl h)
    have h0b : ¬ wParam = Windows.WM_SYSKEYDOWN := fun h => h0 (Or.inr h)
    have h1a : ¬ wParam = Windows.WM_KEYUP := fun h => h1 (Or.inl h)
    have h1b : ¬ wParam = Windows.WM_SYSKEYUP := fun h => h1 (Or.inr h)
    simp [h0a, h0b, h1a, h1b]
  unfold Windows.keyboard_hook_event_proc
  exact key _

/-- C21: in both Windows hook procedures the next hook is called, once and as the last call, and
its result returned, exactly when `nCode < 0` or the dispatcher did not consume the event; when
`nCode >= 0` and the dispatcher consumed the event, `CallNextHookEx` is not called and the
procedure returns `-1`. -/
theorem windows_hook_proc_call_next (H : Header) (st : Windows.HookState) (epoch : Option Nat)
    (nCode : Int) (wParam : Nat) (kbhook : Windows.KBDLLHOOKSTRUCT)
    (mshook : Windows.MSLLHOOKSTRUCT) (consumed : Bool) (next : Int) :
    ((nCode < 0 ∨ keyboard_event_consumed wParam consumed = false) →
      (Windows.keyboard_hook_event_proc st epoch nCode wParam kbhook consumed next).1 = next
      ∧ (Windows.keyboard_hook_event_proc st epoch nCode wParam kbhook consumed next).2.countP
          is_call_next = 1
      ∧ (Windows.keyboard_hook_event_proc st epoch nCode wParam kbhook consumed next).2.getLast?
          = some (Windows.Call.CallNextHookEx st.keyboard_event_hhook nCode wParam next))
    ∧ (¬ (nCode < 0 ∨ keyboard_event_consumed wParam consumed = false) →
      (Windows.keyboard_hook_event_proc st epoch nCode wParam kbhook consumed next).1 = -1
      ∧ (Windows.keyboard_hook_event_proc st epoch nCode wParam kbhook consumed next).2.countP
          is_call_next = 0)
    ∧ ((nCode < 0 ∨ mouse_event_consumed wParam consumed = false) →
      (Windows.mouse_hook_event_proc H st epoch nCode wParam mshook consumed next).1 = next
      ∧ (Windows.mouse_hook_event_proc H st epoch nCode wParam mshook consumed next).2.countP
          is_call_next = 1
      ∧ (Windows.mouse_hook_event_proc H st epoch nCode wParam mshook consumed next).2.getLast?
          = some (Windows.Call.CallNextHookEx st.mouse_event_hhook nCode wParam next))
    ∧ (¬ (nCode < 0 ∨ mouse_event_consumed wParam consumed = false) →
      (Windows.mouse_hook_event_proc H st epoch nCode wParam mshook consumed next).1 = -1
      ∧ (Windows.mouse_hook_event_proc H st epoch nCode wParam mshook consumed next).2.countP
          is_call_next = 0) := by
  obtain ⟨calls, hc, hk⟩ := keyboard_hook_event_proc_eq st epoch nCode wParam kbhook consumed next
  have hkt := hook_proc_tail st.keyboard_event_hhook nCode wParam next
    (keyboard_event_consumed wParam consumed) calls hc
  rw [← hk] at hkt
  have hs := fun t => mouse_hook_event_switch_consumed H t wParam mshook consumed
  have hn := fun t => mouse_hook_event_switch_no_next H t wParam mshook consumed
  have hm : ∃ calls : List Windows.Call, calls.countP is_call_next = 0
      ∧ Windows.mouse_hook_event_proc H st epoch nCode wParam mshook consumed next
        = (if nCode < 0 ∨ mouse_event_consumed wParam consumed = false then
            (next, calls ++ [Windows.Call.CallNextHookEx st.mouse_event_hhook nCode wParam next])
          else ((-1 : Int), calls)) := by
    unfold Windows.mouse_hook_event_proc
    simp only [hs]
    exact ⟨_, hn _, rfl⟩
  obtain ⟨mcalls, hmc, hme⟩ := hm
  have hmt := hook_proc_tail st.mouse_event_hhook nCode wParam next
    (mouse_event_consumed wParam consumed) mcalls hmc
  rw [← hme] at hmt
  exact ⟨hkt.1, hkt.2, hmt.1, hmt.2⟩

/-- The two Windows hook procedures on a key-down and a left-button-down message: with the event
not consumed the next hook is called and its result 0 returned; with the event consumed and
`nCode = 0` the result is `-1` and the dispatcher call is the only call; with the event consumed
and `nCode = -1` the next hook is called all the same. -/
theorem windows_hook_proc_sample :
    Windows.keyboard_hook_event_proc ⟨9, some 21, some 22, some 1⟩ none 0 Windows.WM_KEYDOWN
        sample_kbhook false 0
      = (0, [Windows.Call.dispatch_key_press 1000 sample_kbhook,
             Windows.Call.CallNextHookEx (some 21) 0 Windows.WM_KEYDOWN 0])
    ∧ Windows.keyboard_hook_event_proc ⟨9, some 21, some 22, some 1⟩ none 0 Windows.WM_KEYDOWN
        sample_kbhook true 0
      = (-1, [Windows.Call.dispatch_key_press 1000 sample_kbhook])
    ∧ Windows.mouse_hook_event_proc uiohook_h ⟨9, some 21, some 22, some 1⟩ none 0
        Windows.WM_LBUTTONDOWN (sample_mshook 0) true 0
      = (-1, [Windows.Call.set_modifier_mask 0x0100,
              Windows.Call.dispatch_button_press 1000 (sample_mshook 0) 1])
    ∧ Windows.mouse_hook_event_proc uiohook_h ⟨9, some 21, some 22, some 1⟩ none (-1)
        Windows.WM_LBUTTONDOWN (sample_mshook 0) true 7
      = (7, [Windows.Call.set_modifier_mask 0x0100,
             Windows.Call.dispatch_button_press 1000 (sample_mshook 0) 1,
             Windows.Call.CallNextHookEx (some 22) (-1) Windows.WM_LBUTTONDOWN 7]) := by
  decide

/-- The statement `if (c) { set_modifier_mask(mask); }` leaves the button map pointer. -/
theorem set_modifier_mask_if_table (c : Bool) (s : HelperState) (m : Nat) :
    (set_modifier_mask_if c s m).mouse_button_table = s.mouse_button_table := by
  cases c <;> rfl

/-- The function `initialize_modifiers` leaves the button map pointer. -/
theorem initialize_modifiers_table (H : Header) (X : XKeyboard) (s : HelperState) :
    (initialize_modifiers H X s).mouse_button_table = s.mouse_button_table := by
  unfold initialize_modifiers
  cases X.XQueryPointer with
  | none => simp only [set_modifier_mask_if_table]
  | some mask =>
    simp only []
    split_ifs <;> simp only [set_modifier_mask_if_table]

/-- The status of `load_input_helper` and the button map pointer it leaves: `UIOHOOK_SUCCESS`
with the new buffer when the allocation succeeds, `UIOHOOK_ERROR_OUT_OF_MEMORY` with `NULL` when
it fails. -/
theorem load_input_helper_status (H : Header) (X : XKeyboard) (malloc : Option (List Nat))
    (s : HelperState) :
    (load_input_helper H X malloc s).1
      = (if malloc = none then UIOHOOK_ERROR_OUT_OF_MEMORY else UIOHOOK_SUCCESS)
    ∧ (load_input_helper H X malloc s).2.mouse_button_table = malloc := by
  cases malloc with
  | none => exact ⟨rfl, rfl⟩
  | some b =>
    refine ⟨rfl, ?_⟩
    show (initialize_modifiers H X _).mouse_button_table = some b
    rw [initialize_modifiers_table]

/-- The function `xrecord_block`: its status, its calls, and the button map pointer it leaves. -/
theorem xrecord_block_eq (H : Header) (S : X11.Server) (hook : X11.hook_info)
    (helper : HelperState) :
    (X11.xrecord_block H S hook helper).1
      = (if S.malloc_button_table = none then UIOHOOK_ERROR_OUT_OF_MEMORY
          else if S.XRecordEnableContext then UIOHOOK_SUCCESS
          else UIOHOOK_ERROR_X_RECORD_ENABLE_CONTEXT)
    ∧ (X11.xrecord_block H S hook helper).2.2
      = (if S.malloc_button_table = none then
          [X11.Call.load_input_helper UIOHOOK_ERROR_OUT_OF_MEMORY,
           X11.Call.unload_input_helper none]
        else
          [X11.Call.load_input_helper UIOHOOK_SUCCESS,
           X11.Call.XRecordEnableContext hook.data_display hook.ctrl_context
             S.XRecordEnableContext,
           X11.Call.unload_input_helper (some S.events_button_table)])
    ∧ (X11.xrecord_block H S hook helper).2.1.mouse_button_table = none := by
  have hl := load_input_helper_status H S.keyboard S.malloc_button_table helper
  unfold X11.xrecord_block
  cases hm : S.malloc_button_table with
  | none =>
    rw [hm] at hl
    simp [hl.1, hl.2, unload_input_helper]
  | some b =>
    rw [hm] at hl
    simp [hl.1, hl.2, unload_input_helper]

/-- C22: on X11, on every path through `hook_run()` every resource acquired has been released
when it returns.  The calls of the run release each resource acquired, the last acquired first,
and leave none held: each display opened is closed, the record range and the record context are
freed, the button map of the loaded input helper is freed, and the hook structure is freed.  On
return the pointer `hook` is `NULL`, and when the run has called `load_input_helper` it has
called `unload_input_helper` and the button map pointer of the helper is `NULL`. -/
theorem x11_hook_run_releases (H : Header) (S : X11.Server) (st : X11.HookState) :
    held_after (X11.hook_run H S st).2.2 = some []
    ∧ (X11.hook_run H S st).2.1.hook = none
    ∧ ∀ status, X11.Call.load_input_helper status ∈ (X11.hook_run H S st).2.2 →
        (∃ freed, X11.Call.unload_input_helper freed ∈ (X11.hook_run H S st).2.2)
        ∧ (X11.hook_run H S st).2.1.helper.mouse_button_table = none := by
  refine ⟨?_, x11_hook_run_clears_hook H S st, ?_⟩
  · obtain ⟨hook, helper⟩ := st
    have hb := fun hook => xrecord_block_eq H S hook helper
    cases hmh : S.malloc_hook with
    | none => simp [X11.hook_run, hmh, held_after, held_step]
    | some info =>
      cases hc : S.XOpenDisplay_ctrl <;> cases hd : S.XOpenDisplay_data <;>
        cases hq : S.XRecordQueryVersion <;> cases hr : S.XRecordAllocRange <;>
        cases ht : S.malloc_button_table <;>
        by_cases hx : S.XRecordCreateContext = 0 <;>
        simp [X11.hook_run, X11.xrecord_start, X11.xrecord_query, X11.xrecord_alloc, hb,
          held_after, held_step, release, hmh, hc, hd, hq, hr, ht, hx]
  · obtain ⟨hook, helper⟩ := st
    have hb := fun hook => xrecord_block_eq H S hook helper
    cases hmh : S.malloc_hook with
    | none => simp [X11.hook_run, hmh]
    | some info =>
      cases hc : S.XOpenDisplay_ctrl <;> cases hd : S.XOpenDisplay_data <;>
        cases hq : S.XRecordQueryVersion <;> cases hr : S.XRecordAllocRange <;>
        cases ht : S.malloc_button_table <;>
        by_cases hx : S.XRecordCreateContext = 0 <;>
        simp [X11.hook_run, X11.xrecord_start, X11.xrecord_query, X11.xrecord_alloc, hb,
          hmh, hc, hd, hq, hr, ht, hx]

/-- The calls of a complete X11 `hook_run` on the sample server, and the resource accounting on
them: nothing is held at the end, while the same calls without the last `XCloseDisplay` leave the
accounting stuck at `free`, and without `XFree` at the first `XCloseDisplay`. -/
theorem x11_hook_run_sample :
    (X11.hook_run uiohook_h sample_x11_server ⟨none, ⟨0, some 1, none⟩⟩).2.2
      = [X11.Call.malloc_hook (some ⟨none, none, none, 0⟩),
         X11.Call.XOpenDisplay (some 101), X11.Call.XOpenDisplay (some 102),
         X11.Call.XkbSetDetectableAutoRepeat (some 1) true,
         X11.Call.XRecordQueryVersion (some 101) true,
         X11.Call.XSynchronize (some 102), X11.Call.XRecordAllocRange (some 103),
         X11.Call.XRecordCreateContext (some 102) KeyPress MappingNotify 104,
         X11.Call.load_input_helper UIOHOOK_SUCCESS,
         X11.Call.XRecordEnableContext (some 102) 104 true,
         X11.Call.unload_input_helper (some (List.replicate 256 0)),
         X11.Call.XRecordFreeContext (some 102) 104, X11.Call.XFree (some 103),
         X11.Call.XCloseDisplay (some 102), X11.Call.XCloseDisplay (some 101),
         X11.Call.free_hook]
    ∧ held_after (X11.hook_run uiohook_h sample_x11_server ⟨none, ⟨0, some 1, none⟩⟩).2.2
      = some []
    ∧ held_after
        [X11.Call.malloc_hook (some ⟨none, none, none, 0⟩),
         X11.Call.XOpenDisplay (some 101), X11.Call.XOpenDisplay (some 102),
         X11.Call.XCloseDisplay (some 102), X11.Call.free_hook] = none
    ∧ held_after
        [X11.Call.malloc_hook (some ⟨none, none, none, 0⟩),
         X11.Call.XOpenDisplay (some 101), X11.Call.XOpenDisplay (some 102),
         X11.Call.XRecordAllocRange (some 103),
         X11.Call.XCloseDisplay (some 102), X11.Call.XCloseDisplay (some 101),
         X11.Call.free_hook] = none
    ∧ held_after
        [X11.Call.malloc_hook (some ⟨none, none, none, 0⟩),
         X11.Call.XOpenDisplay (some 101)] = some [Resource.display 101, Resource.hook_structure]
        := by
  decide

/-- C24: on X11, `hook_run()` returns `UIOHOOK_SUCCESS` exactly when every install step succeeds,
and then all steps were attempted in order.  Otherwise it returns the error code of the first
step that failed (out of memory for the hook structure, open display when either display open
fails, record not found, alloc range, create context, the load status of the input helper, enable
context), a code other than `UIOHOOK_SUCCESS`, and the steps attempted are those up to the failed
one: no later step is attempted. -/
theorem x11_hook_run_status (H : Header) (S : X11.Server) (st : X11.HookState) :
    ((X11.hook_run H S st).1 = UIOHOOK_SUCCESS ↔ first_failed_step S = none)
    ∧ (first_failed_step S = none → install_steps (X11.hook_run H S st).2.2 = steps_through 6)
    ∧ (∀ k code, first_failed_step S = some (k, code) →
        (X11.hook_run H S st).1 = code ∧ code ≠ UIOHOOK_SUCCESS
        ∧ install_steps (X11.hook_run H S st).2.2 = steps_through k)
    ∧ (∀ code, first_failed_step S = some (5, code) →
        code = (load_input_helper H S.keyboard S.malloc_button_table st.helper).1) := by
  obtain ⟨hook, helper⟩ := st
  have hb := fun hook => xrecord_block_eq H S hook helper
  have hl := (load_input_helper_status H S.keyboard S.malloc_button_table helper).1
  have h123 : ((X11.hook_run H S ⟨hook, helper⟩).1 = UIOHOOK_SUCCESS ↔ first_failed_step S = none)
      ∧ (first_failed_step S = none →
          install_steps (X11.hook_run H S ⟨hook, helper⟩).2.2 = steps_through 6)
      ∧ (∀ k code, first_failed_step S = some (k, code) →
          (X11.hook_run H S ⟨hook, helper⟩).1 = code ∧ code ≠ UIOHOOK_SUCCESS
          ∧ install_steps (X11.hook_run H S ⟨hook, helper⟩).2.2 = steps_through k) := by
    cases hmh : S.malloc_hook with
    | none =>
      simp [X11.hook_run, hmh, first_failed_step, install_steps, install_step, steps_through]
    | some info =>
      cases hc : S.XOpenDisplay_ctrl with
      | none =>
        cases hd : S.XOpenDisplay_data <;>
        simp [X11.hook_run, X11.xrecord_start, X11.xrecord_query, X11.xrecord_alloc, hb,
          first_failed_step, install_steps, install_step, steps_through, hmh, hc, hd]
      | some ctrl =>
        cases hd : S.XOpenDisplay_data with
        | none =>
          simp [X11.hook_run, X11.xrecord_start, X11.xrecord_query, X11.xrecord_alloc, hb,
            first_failed_step, install_steps, install_step, steps_through, hmh, hc, hd]
        | some data =>
          cases hq : S.XRecordQueryVersion with
          | false =>
            simp [X11.hook_run, X11.xrecord_start, X11.xrecord_query, X11.xrecord_alloc, hb,
              first_failed_step, install_steps, install_step, steps_through, hmh, hc, hd, hq]
          | true =>
            cases hr : S.XRecordAllocRange with
            | none =>
              simp [X11.hook_run, X11.xrecord_start, X11.xrecord_query, X11.xrecord_alloc, hb,
                first_failed_step, install_steps, install_step, steps_through, hmh, hc, hd, hq, hr]
            | some range =>
              by_cases hx : S.XRecordCreateContext = 0
              · simp [X11.hook_run, X11.xrecord_start, X11.xrecord_query, X11.xrecord_alloc, hb,
                  first_failed_step, install_steps, install_step, steps_through, hmh, hc, hd, hq, hr, hx]
              · cases ht : S.malloc_button_table <;> cases he : S.XRecordEnableContext <;>
                simp [X11.hook_run, X11.xrecord_start, X11.xrecord_query, X11.xrecord_alloc, hb,
                  first_failed_step, install_steps, install_step, steps_through, hmh, hc, hd, hq, hr, hx, ht, he]
  refine ⟨h123.1, h123.2.1, h123.2.2, ?_⟩
  intro code hcode
  rw [hl]
  unfold first_failed_step at hcode
  split_ifs at hcode with h0 h1 h2 h3 h4 h5 h6 <;> simp_all

/-- The X11 `hook_run` on the sample server, where every step succeeds, and on the same server
without the XRecord extension and with a failing second display open: the status and the install
steps attempted. -/
theorem x11_hook_run_status_sample :
    first_failed_step sample_x11_server = none
    ∧ (X11.hook_run uiohook_h sample_x11_server ⟨none, ⟨0, some 1, none⟩⟩).1 = UIOHOOK_SUCCESS
    ∧ install_steps (X11.hook_run uiohook_h sample_x11_server ⟨none, ⟨0, some 1, none⟩⟩).2.2
      = [0, 1, 1, 2, 3, 4, 5, 6]
    ∧ (X11.hook_run uiohook_h { sample_x11_server with XRecordQueryVersion := false }
        ⟨none, ⟨0, some 1, none⟩⟩).1 = UIOHOOK_ERROR_X_RECORD_NOT_FOUND
    ∧ install_steps (X11.hook_run uiohook_h { sample_x11_server with XRecordQueryVersion := false }
        ⟨none, ⟨0, some 1, none⟩⟩).2.2 = [0, 1, 1, 2]
    ∧ (X11.hook_run uiohook_h { sample_x11_server with XOpenDisplay_data := none }
        ⟨none, ⟨0, some 1, none⟩⟩).1 = UIOHOOK_ERROR_X_OPEN_DISPLAY
    ∧ (X11.hook_run uiohook_h { sample_x11_server with XOpenDisplay_data := none }
        ⟨none, ⟨0, some 1, none⟩⟩).2.2
      = [X11.Call.malloc_hook (some ⟨none, none, none, 0⟩), X11.Call.XOpenDisplay (some 101),
         X11.Call.XOpenDisplay none, X11.Call.XCloseDisplay (some 101), X11.Call.free_hook] := by
  decide

/-- C23, as the code has it: on Windows, a `hook_run()` that fails for the module handle installs
no hook and leaves the hook handles as it found them; one that fails because a `SetWindowsHookEx`
call failed unhooks the hook that was installed and leaves both handles `NULL`; but one that
fails because `load_input_helper` failed returns right after `unload_input_helper`, without
`unregister_running_hooks`: it calls `UnhookWindowsHookEx` for neither hook, and both handles
still hold the installed hooks on return. -/
theorem windows_hook_run_failure_hooks (H : Header) (S : Windows.Server)
    (st : Windows.HookState) :
    (run_module_handle S st = none →
      (Windows.hook_run H S st).1 = UIOHOOK_ERROR_GET_MODULE_HANDLE
      ∧ (Windows.hook_run H S st).2.2.countP is_set_hook = 0
      ∧ (Windows.hook_run H S st).2.1.keyboard_event_hhook = st.keyboard_event_hhook
      ∧ (Windows.hook_run H S st).2.1.mouse_event_hhook = st.mouse_event_hhook)
    ∧ (run_module_handle S st ≠ none →
        (S.SetWindowsHookEx_keyboard = none ∨ S.SetWindowsHookEx_mouse = none) →
      (Windows.hook_run H S st).1 = UIOHOOK_ERROR_SET_WINDOWS_HOOK_EX
      ∧ (Windows.hook_run H S st).2.1.keyboard_event_hhook = none
      ∧ (Windows.hook_run H S st).2.1.mouse_event_hhook = none
      ∧ (∀ hhook, S.SetWindowsHookEx_keyboard = some hhook →
          (Windows.hook_run H S st).2.2.getLast?
            = some (Windows.Call.UnhookWindowsHookEx (some hhook)))
      ∧ (∀ hhook, S.SetWindowsHookEx_mouse = some hhook →
          (Windows.hook_run H S st).2.2.getLast?
            = some (Windows.Call.UnhookWindowsHookEx (some hhook))))
    ∧ (run_module_handle S st ≠ none → S.SetWindowsHookEx_keyboard ≠ none →
        S.SetWindowsHookEx_mouse ≠ none → S.load_input_helper ≠ UIOHOOK_SUCCESS →
      (Windows.hook_run H S st).1 = S.load_input_helper
      ∧ (Windows.hook_run H S st).2.2.countP is_set_hook = 2
      ∧ (Windows.hook_run H S st).2.2.countP is_unhook = 0
      ∧ (Windows.hook_run H S st).2.1.keyboard_event_hhook = S.SetWindowsHookEx_keyboard
      ∧ (Windows.hook_run H S st).2.1.mouse_event_hhook = S.SetWindowsHookEx_mouse) := by
  obtain ⟨thread, keyboard, mouse, hInst⟩ := st
  unfold Windows.hook_run
  simp only [unregister_running_hooks_state, unregister_running_hooks_calls, run_module_handle]
  cases hInst <;> cases hg : S.GetModuleHandle <;> cases hk : S.SetWindowsHookEx_keyboard <;>
    cases hm : S.SetWindowsHookEx_mouse <;>
    by_cases hl : S.load_input_helper = UIOHOOK_SUCCESS <;>
    simp [hg, hk, hm, hl, List.countP_cons, is_set_hook, is_unhook]

/-- C23 at a failing input: both `SetWindowsHookEx` calls succeed (handles 21 and 22) and
`load_input_helper` returns `UIOHOOK_ERROR_OUT_OF_MEMORY`.  The run returns that code after five
calls, none of them `UnhookWindowsHookEx`, and leaves both hook handles set. -/
theorem windows_hook_run_load_failure_sample :
    Windows.hook_run uiohook_h
        ⟨9, some 1, some 21, some 22, 500, UIOHOOK_ERROR_OUT_OF_MEMORY, [], [], false, 2000⟩
        ⟨0, none, none, some 1⟩
      = (UIOHOOK_ERROR_OUT_OF_MEMORY, ⟨9, some 21, some 22, some 1⟩,
         [Windows.Call.GetCurrentThreadId 9,
          Windows.Call.SetWindowsHookEx Windows.WH_KEYBOARD_LL (some 1) (some 21),
          Windows.Call.SetWindowsHookEx Windows.WH_MOUSE_LL (some 1) (some 22),
          Windows.Call.load_input_helper UIOHOOK_ERROR_OUT_OF_MEMORY,
          Windows.Call.unload_input_helper])
    ∧ Windows.hook_run uiohook_h
        ⟨9, some 1, some 21, none, 500, UIOHOOK_SUCCESS, [], [], false, 2000⟩
        ⟨0, none, none, some 1⟩
      = (UIOHOOK_ERROR_SET_WINDOWS_HOOK_EX, ⟨9, none, none, some 1⟩,
         [Windows.Call.GetCurrentThreadId 9,
          Windows.Call.SetWindowsHookEx Windows.WH_KEYBOARD_LL (some 1) (some 21),
          Windows.Call.SetWindowsHookEx Windows.WH_MOUSE_LL (some 1) none,
          Windows.Call.UnhookWindowsHookEx (some 21)]) := by
  decide

/-- C25: for every intercepted datum the X11 `hook_event_proc` makes exactly one dispatcher call
when the category is `XRecordStartOfData` (`dispatch_hook_enabled`), `XRecordEndOfData`
(`dispatch_hook_disabled`), or `XRecordFromServer` with the wire type `KeyPress`, `KeyRelease`,
`ButtonPress`, `ButtonRelease` or `MotionNotify` (`dispatch_key_press`, `dispatch_key_release`,
`dispatch_mouse_press`, `dispatch_mouse_release`, `dispatch_mouse_move`, with the event that
`wire_data_to_event` decoded), passing the timestamp of the datum (the server time when epoch
time is not configured), and makes no dispatcher call for any other datum. -/
theorem hook_event_proc_dispatch (s : HelperState) (epoch : Option Nat)
    (recorded_data : X11.XRecordInterceptData) (event : X11.XEvent) :
    (recorded_data.category = XRecordStartOfData →
      X11.hook_event_proc s epoch recorded_data event
        = [X11.EventCall.dispatch_hook_enabled (datum_timestamp epoch recorded_data)])
    ∧ (recorded_data.category = XRecordEndOfData →
      X11.hook_event_proc s epoch recorded_data event
        = [X11.EventCall.dispatch_hook_disabled (datum_timestamp epoch recorded_data)])
    ∧ (recorded_data.category = XRecordFromServer → recorded_data.data.type = KeyPress →
      X11.hook_event_proc s epoch recorded_data event
        = [X11.EventCall.dispatch_key_press (datum_timestamp epoch recorded_data)
            (X11.wire_data_to_event s recorded_data event)])
    ∧ (recorded_data.category = XRecordFromServer → recorded_data.data.type = KeyRelease →
      X11.hook_event_proc s epoch recorded_data event
        = [X11.EventCall.dispatch_key_release (datum_timestamp epoch recorded_data)
            (X11.wire_data_to_event s recorded_data event)])
    ∧ (recorded_data.category = XRecordFromServer → recorded_data.data.type = ButtonPress →
      X11.hook_event_proc s epoch recorded_data event
        = [X11.EventCall.dispatch_mouse_press (datum_timestamp epoch recorded_data)
            (X11.wire_data_to_event s recorded_data event)])
    ∧ (recorded_data.category = XRecordFromServer → recorded_data.data.type = ButtonRelease →
      X11.hook_event_proc s epoch recorded_data event
        = [X11.EventCall.dispatch_mouse_release (datum_timestamp epoch recorded_data)
            (X11.wire_data_to_event s recorded_data event)])
    ∧ (recorded_data.category = XRecordFromServer → recorded_data.data.type = MotionNotify →
      X11.hook_event_proc s epoch recorded_data event
        = [X11.EventCall.dispatch_mouse_move (datum_timestamp epoch recorded_data)
            (X11.wire_data_to_event s recorded_data event)])
    ∧ (recorded_data.category ≠ XRecordStartOfData → recorded_data.category ≠ XRecordEndOfData →
        ¬ (recorded_data.category = XRecordFromServer
          ∧ recorded_data.data.type ∈ [KeyPress, KeyRelease, ButtonPress, ButtonRelease,
              MotionNotify]) →
      X11.hook_event_proc s epoch recorded_data event = []) := by
  cases epoch
  all_goals
    unfold X11.hook_event_proc datum_timestamp
    simp only []
    refine ⟨?_, ?_, ?_, ?_, ?_, ?_, ?_, ?_⟩
    · intro h; simp [h]
    · intro h; simp [h]
    · intro h h'; simp [h, h']
    · intro h h'; simp [h, h']
    · intro h h'; simp [h, h']
    · intro h h'; simp [h, h']
    · intro h h'; simp [h, h']
    · intro h1 h2 h3
      rw [if_neg h1, if_neg h2]
      by_cases hc : recorded_data.category = XRecordFromServer
      · rw [if_pos hc]
        simp only [hc, true_and, List.mem_cons, List.mem_singleton, List.not_mem_nil, or_false,
          not_or] at h3
        simp [h3.1, h3.2.1, h3.2.2.1, h3.2.2.2.1, h3.2.2.2.2]
      · rw [if_neg hc]

/-- The X11 `hook_event_proc` on sample data at server time 5000: a `KeyPress` datum gives one
`dispatch_key_press` call with the decoded event, the start of data one `dispatch_hook_enabled`
call, and a datum from a client no call; with epoch time configured the epoch time is passed. -/
theorem hook_event_proc_sample :
    X11.hook_event_proc ⟨0, some 1, none⟩ none ⟨5000, XRecordFromServer, sample_wire KeyPress 38⟩
        sample_stale_event
      = [X11.EventCall.dispatch_key_press 5000
          ⟨KeyPress, 77, false, some 1, 301, 300, 302, 7000, -3, 5, -2, 40, 0x0011, 38, 1⟩]
    ∧ X11.hook_event_proc ⟨0, some 1, none⟩ none ⟨5000, XRecordStartOfData, sample_wire 0 0⟩
        sample_stale_event
      = [X11.EventCall.dispatch_hook_enabled 5000]
    ∧ X11.hook_event_proc ⟨0, some 1, none⟩ (some 1700000000000)
        ⟨5000, XRecordEndOfData, sample_wire 0 0⟩ sample_stale_event
      = [X11.EventCall.dispatch_hook_disabled 1700000000000]
    ∧ X11.hook_event_proc ⟨0, some 1, none⟩ none ⟨5000, XRecordFromClient, sample_wire KeyPress 38⟩
        sample_stale_event
      = [] := by
  decide

/-- C26 fails on the code: for every datum of category `XRecordFromServer` with the wire type
`MappingNotify`, `hook_event_proc` makes no call at all; the keyboard map is not refreshed (the
case holds a `FIXME` and a commented-out `XRefreshKeyboardMapping` only). -/
theorem hook_event_proc_mapping_notify (s : HelperState) (epoch : Option Nat) (server_time : Nat)
    (data : X11.xEvent) (event : X11.XEvent) :
    X11.hook_event_proc s epoch
        ⟨server_time, XRecordFromServer, { data with type := MappingNotify }⟩ event
      = [] := by
  cases epoch <;> rfl

/-- The conversion `cvtINT16toInt` is the sign extension of the 16-bit pattern: the result lies in
`-32768 .. 32767` and is congruent to the pattern modulo `65536`. -/
theorem cvtINT16toInt_sign_extends (val : Nat) :
    -32768 ≤ cvtINT16toInt val ∧ cvtINT16toInt val < 32768
    ∧ (cvtINT16toInt val - (val : Int)) % 65536 = 0 := by
  unfold cvtINT16toInt
  split_ifs with h <;> omega

/-- The decoding of `wire_data_to_event` for a datum of category `XRecordFromServer` whose wire
type byte is `KeyPress`, `KeyRelease`, `ButtonPress`, `ButtonRelease` or `MotionNotify`: the type
is that event code, `send_event` is false, the display is `helper_disp`, `serial` is left, the
windows, the time, the state and `same_screen` are the wire fields, the coordinates are the sign
extended wire coordinates, and `keycode`, `button`, `is_hint` are the wire detail byte. -/
theorem wire_data_to_event_decodes (s : HelperState) (recorded_data : X11.XRecordInterceptData)
    (x_event : X11.XEvent) (hc : recorded_data.category = XRecordFromServer)
    (ht : recorded_data.data.type ∈ [KeyPress, KeyRelease, ButtonPress, ButtonRelease,
      MotionNotify]) :
    X11.wire_data_to_event s recorded_data x_event
      = ⟨recorded_data.data.type, x_event.serial, false, s.helper_disp,
          recorded_data.data.event, recorded_data.data.root, recorded_data.data.child,
          recorded_data.data.time, cvtINT16toInt recorded_data.data.eventX,
          cvtINT16toInt recorded_data.data.eventY, cvtINT16toInt recorded_data.data.rootX,
          cvtINT16toInt recorded_data.data.rootY, recorded_data.data.state,
          recorded_data.data.detail, recorded_data.data.sameScreen⟩
    ∧ (X11.wire_data_to_event s recorded_data x_event).button = recorded_data.data.detail
    ∧ (X11.wire_data_to_event s recorded_data x_event).is_hint = recorded_data.data.detail := by
  unfold X11.wire_data_to_event X11.XEvent.button X11.XEvent.is_hint
  simp only [List.mem_cons, List.mem_singleton, List.not_mem_nil, or_false] at ht
  rcases ht with h | h | h | h | h <;> simp [hc, h] <;> decide

/-- For a datum of any category other than `XRecordFromServer`, `wire_data_to_event` leaves the
event as it was. -/
theorem wire_data_to_event_other_category (s : HelperState)
    (recorded_data : X11.XRecordInterceptData) (x_event : X11.XEvent)
    (hc : recorded_data.category ≠ XRecordFromServer) :
    X11.wire_data_to_event s recorded_data x_event = x_event := by
  unfold X11.wire_data_to_event
  rw [if_neg hc]

/-- For a datum of category `XRecordFromServer` whose wire type byte has the send-event bit `0x80`
set, `wire_data_to_event` stores the whole byte as the type, the display and `send_event = true`,
and copies no other field: no case of the inner `switch (data->type)` has that value. -/
theorem wire_data_to_event_send_event (s : HelperState)
    (recorded_data : X11.XRecordInterceptData) (x_event : X11.XEvent)
    (hc : recorded_data.category = XRecordFromServer)
    (ht : recorded_data.data.type &&& 0x80 ≠ 0) (hb : recorded_data.data.type < 256) :
    X11.wire_data_to_event s recorded_data x_event
      = ⟨recorded_data.data.type, x_event.serial, true, s.helper_disp, x_event.window,
          x_event.root, x_event.subwindow, x_event.time, x_event.x, x_event.y, x_event.x_root,
          x_event.y_root, x_event.state, x_event.keycode, x_event.same_screen⟩ := by
  unfold X11.wire_data_to_event
  have h : ∀ t : Nat, t < 256 → t &&& 0x80 ≠ 0 →
      t ≠ KeyPress ∧ t ≠ KeyRelease ∧ t ≠ ButtonPress ∧ t ≠ ButtonRelease ∧ t ≠ MotionNotify := by
    decide
  obtain ⟨h1, h2, h3, h4, h5⟩ := h _ hb ht
  simp [hc, ht, h1, h2, h3, h4, h5]

/-- C27 fails on the code when the send-event bit is set.  For the datum of category
`XRecordFromServer` with the wire type byte `0x82` (`KeyPress` with bit `0x80`) and detail 38,
`wire_data_to_event` leaves an event of type `0x82`, not `KeyPress`, with `send_event` true, and
the windows, time, coordinates, state, `same_screen` and `keycode` still hold what the event held
before (77 each); for the same datum with the wire type byte `0x02` every field is decoded. -/
theorem wire_data_to_event_send_event_bit :
    X11.wire_data_to_event ⟨0, some 1, none⟩ ⟨5000, XRecordFromServer, sample_wire 0x82 38⟩
        sample_stale_event
      = ⟨0x82, 77, true, some 1, 77, 77, 77, 77, 77, 77, 77, 77, 77, 77, 77⟩
    ∧ (X11.wire_data_to_event ⟨0, some 1, none⟩ ⟨5000, XRecordFromServer, sample_wire 0x82 38⟩
        sample_stale_event).type ≠ KeyPress
    ∧ (X11.wire_data_to_event ⟨0, some 1, none⟩ ⟨5000, XRecordFromServer, sample_wire 0x82 38⟩
        sample_stale_event).keycode ≠ (sample_wire 0x82 38).detail
    ∧ X11.wire_data_to_event ⟨0, some 1, none⟩ ⟨5000, XRecordFromServer, sample_wire 0x02 38⟩
        sample_stale_event
      = ⟨KeyPress, 77, false, some 1, 301, 300, 302, 7000, -3, 5, -2, 40, 0x0011, 38, 1⟩ := by
  decide

/-- The standard buttons on Windows, with the sample header: for the left, right and middle button
and for `XBUTTON1` and `XBUTTON2`, the mask at the press dispatch has exactly the bit
`MASK_BUTTON N` of the dispatched index `N` added, and the mask at the release dispatch has
exactly that bit removed. -/
theorem windows_standard_button_mask :
    (∀ m ∈ [(Windows.WM_LBUTTONDOWN, 0, 1), (Windows.WM_RBUTTONDOWN, 0, 2),
            (Windows.WM_MBUTTONDOWN, 0, 3), (Windows.WM_XBUTTONDOWN, 0x00010000, 4),
            (Windows.WM_XBUTTONDOWN, 0x00020000, 5)],
      (Windows.mouse_hook_event_switch uiohook_h 1000 m.1 (sample_mshook m.2.1) false).2.getLast?
          = some (Windows.Call.dispatch_button_press 1000 (sample_mshook m.2.1) m.2.2)
        ∧ windows_mask_at_button_dispatch 0x0003
            (Windows.mouse_hook_event_switch uiohook_h 1000 m.1 (sample_mshook m.2.1) false).2
          = some (0x0003 ||| mask_of_button uiohook_h m.2.2))
    ∧ (∀ m ∈ [(Windows.WM_LBUTTONUP, 0, 1), (Windows.WM_RBUTTONUP, 0, 2),
              (Windows.WM_MBUTTONUP, 0, 3), (Windows.WM_XBUTTONUP, 0x00010000, 4),
              (Windows.WM_XBUTTONUP, 0x00020000, 5)],
      (Windows.mouse_hook_event_switch uiohook_h 1000 m.1 (sample_mshook m.2.1) false).2.getLast?
          = some (Windows.Call.dispatch_button_release 1000 (sample_mshook m.2.1) m.2.2)
        ∧ windows_mask_at_button_dispatch 0x1F03
            (Windows.mouse_hook_event_switch uiohook_h 1000 m.1 (sample_mshook m.2.1) false).2
          = some (0x1F03 - mask_of_button uiohook_h m.2.2)) := by
  decide

/-- C28 fails on the code in the extra-button branch.  With the sample header: `WM_XBUTTONDOWN`
with the high word 4 in `mouseData` dispatches a press with index 4 after
`set_modifier_mask(MOUSE_BUTTON4)`, so that from the mask 0 the mask at the dispatch is `0x0004`,
the bit of `MASK_META_L`, and the bit `MASK_BUTTON4` is clear; with the high word 3 it dispatches
a press with index 3 after no mask call at all; and `WM_XBUTTONUP` with the high word 5
dispatches a release with index 5 after `unset_modifier_mask(MOUSE_BUTTON5)`, so that from the
mask `0x1005` the mask at the dispatch is `0x1000`: `MASK_BUTTON5` is still set, and the bits of
`MASK_SHIFT_L` and `MASK_META_L` are gone. -/
theorem windows_extra_button_mask :
    (Windows.mouse_hook_event_switch uiohook_h 1000 Windows.WM_XBUTTONDOWN
        (sample_mshook 0x00040000) false).2
      = [Windows.Call.set_modifier_mask uiohook_h.MOUSE_BUTTON4,
         Windows.Call.dispatch_button_press 1000 (sample_mshook 0x00040000) 4]
    ∧ windows_mask_at_button_dispatch 0
        (Windows.mouse_hook_event_switch uiohook_h 1000 Windows.WM_XBUTTONDOWN
          (sample_mshook 0x00040000) false).2 = some 0x0004
    ∧ 0x0004 &&& mask_of_button uiohook_h 4 = 0
    ∧ uiohook_h.MASK_META_L = 0x0004
    ∧ (Windows.mouse_hook_event_switch uiohook_h 1000 Windows.WM_XBUTTONDOWN
        (sample_mshook 0x00030000) false).2
      = [Windows.Call.dispatch_button_press 1000 (sample_mshook 0x00030000) 3]
    ∧ (Windows.mouse_hook_event_switch uiohook_h 1000 Windows.WM_XBUTTONUP
        (sample_mshook 0x00050000) false).2
      = [Windows.Call.unset_modifier_mask uiohook_h.MOUSE_BUTTON5,
         Windows.Call.dispatch_button_release 1000 (sample_mshook 0x00050000) 5]
    ∧ windows_mask_at_button_dispatch 0x1005
        (Windows.mouse_hook_event_switch uiohook_h 1000 Windows.WM_XBUTTONUP
          (sample_mshook 0x00050000) false).2 = some 0x1000
    ∧ 0x1000 &&& mask_of_button uiohook_h 5 ≠ 0 := by
  decide

/-- The button bits after a successful `load_input_helper()`, under `modifier_masks_disjoint`: the
bit `MASK_BUTTON N` is set exactly when `XQueryPointer` succeeds and its state has the bit
`ButtonNMask`, for `N` from 1 to 5.  The initial mask numbers the buttons as the X server does,
without the exchange of 2 and 3 that `button_map_lookup` makes. -/
theorem load_input_helper_button_bits (H : Header) (X : XKeyboard) (buffer : List Nat)
    (s : HelperState) (hH : modifier_masks_disjoint H) :
    ((load_input_helper H X (some buffer) s).2.modifier_mask &&& H.MASK_BUTTON1 ≠ 0
        ↔ pointer_button X Button1Mask)
    ∧ ((load_input_helper H X (some buffer) s).2.modifier_mask &&& H.MASK_BUTTON2 ≠ 0
        ↔ pointer_button X Button2Mask)
    ∧ ((load_input_helper H X (some buffer) s).2.modifier_mask &&& H.MASK_BUTTON3 ≠ 0
        ↔ pointer_button X Button3Mask)
    ∧ ((load_input_helper H X (some buffer) s).2.modifier_mask &&& H.MASK_BUTTON4 ≠ 0
        ↔ pointer_button X Button4Mask)
    ∧ ((load_input_helper H X (some buffer) s).2.modifier_mask &&& H.MASK_BUTTON5 ≠ 0
        ↔ pointer_button X Button5Mask) := by
  have hload : (load_input_helper H X (some buffer) s).2
      = initialize_modifiers H X { s with mouse_button_table := some buffer } := rfl
  have hf := modifier_masks_facts H hH
  have hself : ∀ m : Nat, m &&& m = m := Nat.and_self
  refine ⟨?_, ?_, ?_, ?_, ?_⟩
  · have nz : H.MASK_BUTTON1 ≠ 0 := (hf 8 8 (by decide) (by decide)).2.1
    have lt : H.MASK_BUTTON1 < 65536 := (hf 8 8 (by decide) (by decide)).2.2
    have e0 : H.MASK_SHIFT_L &&& H.MASK_BUTTON1 = 0 :=
      (hf 0 8 (by decide) (by decide)).1 (by decide)
    have e1 : H.MASK_SHIFT_R &&& H.MASK_BUTTON1 = 0 :=
      (hf 1 8 (by decide) (by decide)).1 (by decide)
    have e2 : H.MASK_CTRL_L &&& H.MASK_BUTTON1 = 0 :=
      (hf 2 8 (by decide) (by decide)).1 (by decide)
    have e3 : H.MASK_CTRL_R &&& H.MASK_BUTTON1 = 0 :=
      (hf 3 8 (by decide) (by decide)).1 (by decide)
    have e4 : H.MASK_ALT_L &&& H.MASK_BUTTON1 = 0 :=
      (hf 4 8 (by decide) (by decide)).1 (by decide)
    have e5 : H.MASK_ALT_R &&& H.MASK_BUTTON1 = 0 :=
      (hf 5 8 (by decide) (by decide)).1 (by decide)
    have e6 : H.MASK_META_L &&& H.MASK_BUTTON1 = 0 :=
      (hf 6 8 (by decide) (by decide)).1 (by decide)
    have e7 : H.MASK_META_R &&& H.MASK_BUTTON1 = 0 :=
      (hf 7 8 (by decide) (by decide)).1 (by decide)
    have e9 : H.MASK_BUTTON2 &&& H.MASK_BUTTON1 = 0 :=
      (hf 9 8 (by decide) (by decide)).1 (by decide)
    have e10 : H.MASK_BUTTON3 &&& H.MASK_BUTTON1 = 0 :=
      (hf 10 8 (by decide) (by decide)).1 (by decide)
    have e11 : H.MASK_BUTTON4 &&& H.MASK_BUTTON1 = 0 :=
      (hf 11 8 (by decide) (by decide)).1 (by decide)
    have e12 : H.MASK_BUTTON5 &&& H.MASK_BUTTON1 = 0 :=
      (hf 12 8 (by decide) (by decide)).1 (by decide)
    rw [hload, initialize_modifiers_and H X _ _ lt]
    simp only [e0, e1, e2, e3, e4, e5, e6, e7, e9, e10, e11, e12, hself, nz, ne_eq,
      not_true_eq_false, not_false_eq_true, and_false, and_true, false_or, or_false]
  · have nz : H.MASK_BUTTON2 ≠ 0 := (hf 9 9 (by decide) (by decide)).2.1
    have lt : H.MASK_BUTTON2 < 65536 := (hf 9 9 (by decide) (by decide)).2.2
    have e0 : H.MASK_SHIFT_L &&& H.MASK_BUTTON2 = 0 :=
      (hf 0 9 (by decide) (by decide)).1 (by decide)
    have e1 : H.MASK_SHIFT_R &&& H.MASK_BUTTON2 = 0 :=
      (hf 1 9 (by decide) (by decide)).1 (by decide)
    have e2 : H.MASK_CTRL_L &&& H.MASK_BUTTON2 = 0 :=
      (hf 2 9 (by decide) (by decide)).1 (by decide)
    have e3 : H.MASK_CTRL_R &&& H.MASK_BUTTON2 = 0 :=
      (hf 3 9 (by decide) (by decide)).1 (by decide)
    have e4 : H.MASK_ALT_L &&& H.MASK_BUTTON2 = 0 :=
      (hf 4 9 (by decide) (by decide)).1 (by decide)
    have e5 : H.MASK_ALT_R &&& H.MASK_BUTTON2 = 0 :=
      (hf 5 9 (by decide) (by decide)).1 (by decide)
    have e6 : H.MASK_META_L &&& H.MASK_BUTTON2 = 0 :=
      (hf 6 9 (by decide) (by decide)).1 (by decide)
    have e7 : H.MASK_META_R &&& H.MASK_BUTTON2 = 0 :=
      (hf 7 9 (by decide) (by decide)).1 (by decide)
    have e8 : H.MASK_BUTTON1 &&& H.MASK_BUTTON2 = 0 :=
      (hf 8 9 (by decide) (by decide)).1 (by decide)
    have e10 : H.MASK_BUTTON3 &&& H.MASK_BUTTON2 = 0 :=
      (hf 10 9 (by decide) (by decide)).1 (by decide)
    have e11 : H.MASK_BUTTON4 &&& H.MASK_BUTTON2 = 0 :=
      (hf 11 9 (by decide) (by decide)).1 (by decide)
    have e12 : H.MASK_BUTTON5 &&& H.MASK_BUTTON2 = 0 :=
      (hf 12 9 (by decide) (by decide)).1 (by decide)
    rw [hload, initialize_modifiers_and H X _ _ lt]
    simp only [e0, e1, e2, e3, e4, e5, e6, e7, e8, e10, e11, e12, hself, nz, ne_eq,
      not_true_eq_false, not_false_eq_true, and_false, and_true, false_or, or_false]
  · have nz : H.MASK_BUTTON3 ≠ 0 := (hf 10 10 (by decide) (by decide)).2.1
    have lt : H.MASK_BUTTON3 < 65536 := (hf 10 10 (by decide) (by decide)).2.2
    have e0 : H.MASK_SHIFT_L &&& H.MASK_BUTTON3 = 0 :=
      (hf 0 10 (by decide) (by decide)).1 (by decide)
    have e1 : H.MASK_SHIFT_R &&& H.MASK_BUTTON3 = 0 :=
      (hf 1 10 (by decide) (by decide)).1 (by decide)
    have e2 : H.MASK_CTRL_L &&& H.MASK_BUTTON3 = 0 :=
      (hf 2 10 (by decide) (by decide)).1 (by decide)
    have e3 : H.MASK_CTRL_R &&& H.MASK_BUTTON3 = 0 :=
      (hf 3 10 (by decide) (by decide)).1 (by decide)
    have e4 : H.MASK_ALT_L &&& H.MASK_BUTTON3 = 0 :=
      (hf 4 10 (by decide) (by decide)).1 (by decide)
    have e5 : H.MASK_ALT_R &&& H.MASK_BUTTON3 = 0 :=
      (hf 5 10 (by decide) (by decide)).1 (by decide)
    have e6 : H.MASK_META_L &&& H.MASK_BUTTON3 = 0 :=
      (hf 6 10 (by decide) (by decide)).1 (by decide)
    have e7 : H.MASK_META_R &&& H.MASK_BUTTON3 = 0 :=
      (hf 7 10 (by decide) (by decide)).1 (by decide)
    have e8 : H.MASK_BUTTON1 &&& H.MASK_BUTTON3 = 0 :=
      (hf 8 10 (by decide) (by decide)).1 (by decide)
    have e9 : H.MASK_BUTTON2 &&& H.MASK_BUTTON3 = 0 :=
      (hf 9 10 (by decide) (by decide)).1 (by decide)
    have e11 : H.MASK_BUTTON4 &&& H.MASK_BUTTON3 = 0 :=
      (hf 11 10 (by decide) (by decide)).1 (by decide)
    have e12 : H.MASK_BUTTON5 &&& H.MASK_BUTTON3 = 0 :=
      (hf 12 10 (by decide) (by decide)).1 (by decide)
    rw [hload, initialize_modifiers_and H X _ _ lt]
    simp only [e0, e1, e2, e3, e4, e5, e6, e7, e8, e9, e11, e12, hself, nz, ne_eq,
      not_true_eq_false, not_false_eq_true, and_false, and_true, false_or, or_false]
  · have nz : H.MASK_BUTTON4 ≠ 0 := (hf 11 11 (by decide) (by decide)).2.1
    have lt : H.MASK_BUTTON4 < 65536 := (hf 11 11 (by decide) (by decide)).2.2
    have e0 : H.MASK_SHIFT_L &&& H.MASK_BUTTON4 = 0 :=
      (hf 0 11 (by decide) (by decide)).1 (by decide)
    have e1 : H.MASK_SHIFT_R &&& H.MASK_BUTTON4 = 0 :=
      (hf 1 11 (by decide) (by decide)).1 (by decide)
    have e2 : H.MASK_CTRL_L &&& H.MASK_BUTTON4 = 0 :=
      (hf 2 11 (by decide) (by decide)).1 (by decide)
    have e3 : H.MASK_CTRL_R &&& H.MASK_BUTTON4 = 0 :=
      (hf 3 11 (by decide) (by decide)).1 (by decide)
    have e4 : H.MASK_ALT_L &&& H.MASK_BUTTON4 = 0 :=
      (hf 4 11 (by decide) (by decide)).1 (by decide)
    have e5 : H.MASK_ALT_R &&& H.MASK_BUTTON4 = 0 :=
      (hf 5 11 (by decide) (by decide)).1 (by decide)
    have e6 : H.MASK_META_L &&& H.MASK_BUTTON4 = 0 :=
      (hf 6 11 (by decide) (by decide)).1 (by decide)
    have e7 : H.MASK_META_R &&& H.MASK_BUTTON4 = 0 :=
      (hf 7 11 (by decide) (by decide)).1 (by decide)
    have e8 : H.MASK_BUTTON1 &&& H.MASK_BUTTON4 = 0 :=
      (hf 8 11 (by decide) (by decide)).1 (by decide)
    have e9 : H.MASK_BUTTON2 &&& H.MASK_BUTTON4 = 0 :=
      (hf 9 11 (by decide) (by decide)).1 (by decide)
    have e10 : H.MASK_BUTTON3 &&& H.MASK_BUTTON4 = 0 :=
      (hf 10 11 (by decide) (by decide)).1 (by decide)
    have e12 : H.MASK_BUTTON5 &&& H.MASK_BUTTON4 = 0 :=
      (hf 12 11 (by decide) (by decide)).1 (by decide)
    rw [hload, initialize_modifiers_and H X _ _ lt]
    simp only [e0, e1, e2, e3, e4, e5, e6, e7, e8, e9, e10, e12, hself, nz, ne_eq,
      not_true_eq_false, not_false_eq_true, and_false, and_true, false_or, or_false]
  · have nz : H.MASK_BUTTON5 ≠ 0 := (hf 12 12 (by decide) (by decide)).2.1
    have lt : H.MASK_BUTTON5 < 65536 := (hf 12 12 (by decide) (by decide)).2.2
    have e0 : H.MASK_SHIFT_L &&& H.MASK_BUTTON5 = 0 :=
      (hf 0 12 (by decide) (by decide)).1 (by decide)
    have e1 : H.MASK_SHIFT_R &&& H.MASK_BUTTON5 = 0 :=
      (hf 1 12 (by decide) (by decide)).1 (by decide)
    have e2 : H.MASK_CTRL_L &&& H.MASK_BUTTON5 = 0 :=
      (hf 2 12 (by decide) (by decide)).1 (by decide)
    have e3 : H.MASK_CTRL_R &&& H.MASK_BUTTON5 = 0 :=
      (hf 3 12 (by decide) (by decide)).1 (by decide)
    have e4 : H.MASK_ALT_L &&& H.MASK_BUTTON5 = 0 :=
      (hf 4 12 (by decide) (by decide)).1 (by decide)
    have e5 : H.MASK_ALT_R &&& H.MASK_BUTTON5 = 0 :=
      (hf 5 12 (by decide) (by decide)).1 (by decide)
    have e6 : H.MASK_META_L &&& H.MASK_BUTTON5 = 0 :=
      (hf 6 12 (by decide) (by decide)).1 (by decide)
    have e7 : H.MASK_META_R &&& H.MASK_BUTTON5 = 0 :=
      (hf 7 12 (by decide) (by decide)).1 (by decide)
    have e8 : H.MASK_BUTTON1 &&& H.MASK_BUTTON5 = 0 :=
      (hf 8 12 (by decide) (by decide)).1 (by decide)
    have e9 : H.MASK_BUTTON2 &&& H.MASK_BUTTON5 = 0 :=
      (hf 9 12 (by decide) (by decide)).1 (by decide)
    have e10 : H.MASK_BUTTON3 &&& H.MASK_BUTTON5 = 0 :=
      (hf 10 12 (by decide) (by decide)).1 (by decide)
    have e11 : H.MASK_BUTTON4 &&& H.MASK_BUTTON5 = 0 :=
      (hf 11 12 (by decide) (by decide)).1 (by decide)
    rw [hload, initialize_modifiers_and H X _ _ lt]
    simp only [e0, e1, e2, e3, e4, e5, e6, e7, e8, e9, e10, e11, hself, nz, ne_eq,
      not_true_eq_false, not_false_eq_true, and_false, and_true, false_or, or_false]

/-- C29 fails on the code for the buttons 2 and 3.  With the sample header and an identity pointer
mapping of five buttons: when the pointer state has `Button2Mask` alone, a successful
`load_input_helper()` leaves the mask `MASK_BUTTON2`, while `button_map_lookup(2)` is 3 and the
bit `MASK_BUTTON3` of that canonical button is clear; when the pointer state has `Button3Mask`
alone, it leaves `MASK_BUTTON3`, while `button_map_lookup(3)` is 2 and `MASK_BUTTON2` is clear. -/
theorem load_input_helper_button_numbering :
    load_input_helper uiohook_h (sample_keyboard 0 [] (some Button2Mask))
        (some (List.replicate 256 0)) ⟨0, some 1, none⟩
      = (UIOHOOK_SUCCESS, ⟨uiohook_h.MASK_BUTTON2, some 1, some (List.replicate 256 0)⟩)
    ∧ (button_map_lookup (identity_pointer_map 5)
        (load_input_helper uiohook_h (sample_keyboard 0 [] (some Button2Mask))
          (some (List.replicate 256 0)) ⟨0, some 1, none⟩).2 2).1 = 3
    ∧ (load_input_helper uiohook_h (sample_keyboard 0 [] (some Button2Mask))
        (some (List.replicate 256 0)) ⟨0, some 1, none⟩).2.modifier_mask
          &&& mask_of_button uiohook_h 3 = 0
    ∧ load_input_helper uiohook_h (sample_keyboard 0 [] (some Button3Mask))
        (some (List.replicate 256 0)) ⟨0, some 1, none⟩
      = (UIOHOOK_SUCCESS, ⟨uiohook_h.MASK_BUTTON3, some 1, some (List.replicate 256 0)⟩)
    ∧ (button_map_lookup (identity_pointer_map 5)
        (load_input_helper uiohook_h (sample_keyboard 0 [] (some Button3Mask))
          (some (List.replicate 256 0)) ⟨0, some 1, none⟩).2 3).1 = 2
    ∧ (load_input_helper uiohook_h (sample_keyboard 0 [] (some Button3Mask))
        (some (List.replicate 256 0)) ⟨0, some 1, none⟩).2.modifier_mask
          &&& mask_of_button uiohook_h 2 = 0 := by
  decide

/-- The buttons 1, 4 and 5 with the sample header and an identity pointer mapping: for each, held
alone, the mask after `load_input_helper()` is the bit of the canonical button that
`button_map_lookup` gives, which is the button itself. -/
theorem load_input_helper_button_numbering_sample :
    ∀ b ∈ [1, 4, 5],
      (button_map_lookup (identity_pointer_map 5)
        (load_input_helper uiohook_h (sample_keyboard 0 [] (some (pointer_state_bit b)))
          (some (List.replicate 256 0)) ⟨0, some 1, none⟩).2 b).1 = b
      ∧ (load_input_helper uiohook_h (sample_keyboard 0 [] (some (pointer_state_bit b)))
          (some (List.replicate 256 0)) ⟨0, some 1, none⟩).2.modifier_mask
        = mask_of_button uiohook_h b := by
  decide

/-- The decoding step of `event_to_unicode` is total for the byte counts 1 to 4 on the 5-byte
buffer: every index stays inside `utf8_bitmask_table` and inside the buffer. -/
theorem utf8_decode_total (count : Nat) (buffer : List Nat) (h1 : 1 ≤ count) (h4 : count ≤ 4)
    (hb : buffer.length = 5) : (utf8_decode count buffer).isSome = true := by
  obtain ⟨b0, b1, b2, b3, b4, rfl⟩ : ∃ b0 b1 b2 b3 b4, buffer = [b0, b1, b2, b3, b4] := by
    match buffer, hb with
    | [b0, b1, b2, b3, b4], _ => exact ⟨b0, b1, b2, b3, b4, rfl⟩
  have hc : count = 1 ∨ count = 2 ∨ count = 3 ∨ count = 4 := by omega
  rcases hc with h | h | h | h <;> subst h <;> rfl

/-- C30 fails on the code for the byte count 5.  The mask table has 5 entries, so the read
`utf8_bitmask_table[5]` is outside it: the decoding step has no result for the count 5, whatever
the buffer holds, while it is total for the counts 1 to 4 on a 5-byte buffer.  For a lookup that
fills the buffer with the five bytes `E2 82 AC 41 42` and reports 5, `event_to_unicode` reads
outside the table. -/
theorem utf8_decode_count_five :
    utf8_bitmask_table.length = 5
    ∧ utf8_bitmask_table[5]? = none
    ∧ (∀ buffer : List Nat, utf8_decode 5 buffer = none)
    ∧ (∀ (count : Nat) (buffer : List Nat), 1 ≤ count → count ≤ 4 → buffer.length = 5 →
        (utf8_decode count buffer).isSome = true)
    ∧ ((sample_input_method 5 [0xE2, 0x82, 0xAC, 0x41, 0x42]).Xutf8LookupString 9
        (sample_key_event KeyPress)).count = 5
    ∧ event_to_unicode (sample_input_method 5 [0xE2, 0x82, 0xAC, 0x41, 0x42])
        (sample_key_event KeyPress) (some [0, 0]) 2 = none := by
  refine ⟨rfl, rfl, fun buffer => rfl, utf8_decode_total, rfl, by decide⟩

end Uiohook
